import Mathlib

/-!
Shallow embedding of the crop-recommendation pipeline
(repository Captain-Vikram/Crop_recomendation_ai).

Python strings are modelled as `List Char`, Python values as `PyVal`
(numbers are exact rationals), Python dicts as insertion-ordered
association lists, and fallible Python code as `Except PyErr`.
All definitions are translated directly from the Python sources:
  - src/api/gemini_api.py
  - src/api/local_api.py
  - src/components/report_generator.py
  - src/utils/data_processor.py
-/

set_option maxRecDepth 100000

/-- Python strings are lists of characters. -/
abbrev Str : Type := List Char

/-- Convert a Lean string literal into the `Str` model. -/
def strL (s : String) : Str := s.toList

/-- Exact rational number used to model Python ints and floats: numerator
over a positive denominator (not necessarily reduced).  All numeric
constants appearing in the modelled code are decimal literals that are
handled exactly; Python's binary floating point introduces no observable
rounding on any value the code manipulates in the verified properties. -/
structure PyNum : Type where
  n : ℤ
  d : ℕ
  dpos : 0 < d

/-- The rational value of a `PyNum`. -/
def PyNum.toQ (a : PyNum) : ℚ := (a.n : ℚ) / (a.d : ℚ)

/-- Integer literal as a `PyNum`. -/
def pnInt (i : ℤ) : PyNum := ⟨i, 1, Nat.one_pos⟩

/-- Decimal literal `m * 10^(-k)` as a `PyNum`. -/
def pnDec (m : ℤ) (k : ℕ) : PyNum :=
  ⟨m, 10 ^ k, pow_pos (by norm_num) k⟩

def PyNum.add (a b : PyNum) : PyNum :=
  ⟨a.n * (b.d : ℤ) + b.n * (a.d : ℤ), a.d * b.d, Nat.mul_pos a.dpos b.dpos⟩

def PyNum.sub (a b : PyNum) : PyNum :=
  ⟨a.n * (b.d : ℤ) - b.n * (a.d : ℤ), a.d * b.d, Nat.mul_pos a.dpos b.dpos⟩

def PyNum.mul (a b : PyNum) : PyNum :=
  ⟨a.n * b.n, a.d * b.d, Nat.mul_pos a.dpos b.dpos⟩

/-- Division of a `PyNum` by a positive integer constant. -/
def PyNum.divNat (a : PyNum) (k : ℕ) (h : 0 < k) : PyNum :=
  ⟨a.n, a.d * k, Nat.mul_pos a.dpos h⟩

/-- Python `<` on numbers (cross multiplication; denominators positive). -/
def PyNum.lt (a b : PyNum) : Bool := decide (a.n * (b.d : ℤ) < b.n * (a.d : ℤ))

/-- Python `<=` on numbers. -/
def PyNum.le (a b : PyNum) : Bool := decide (a.n * (b.d : ℤ) ≤ b.n * (a.d : ℤ))

/-- Python `abs`. -/
def PyNum.abs (a : PyNum) : PyNum := ⟨|a.n|, a.d, a.dpos⟩

/-- Python `max(a, b)`: returns `b` exactly when `a < b`. -/
def PyNum.max (a b : PyNum) : PyNum := if a.lt b then b else a

/-- Python `min(a, b)`: returns `b` exactly when `b < a`. -/
def PyNum.min (a b : PyNum) : PyNum := if b.lt a then b else a

/-- Python `int()` truncation toward zero. -/
def PyNum.trunc (a : PyNum) : ℤ :=
  if 0 ≤ a.n then a.n / (a.d : ℤ) else -((-a.n) / (a.d : ℤ))

/-- Python runtime value: None, bool, number (int and float merged into an
exact rational), str, list, dict (insertion-ordered association list). -/
inductive PyVal : Type where
  | none : PyVal
  | bool : Bool → PyVal
  | num : PyNum → PyVal
  | str : Str → PyVal
  | list : List PyVal → PyVal
  | dict : List (Str × PyVal) → PyVal

/-- Python exception classes that the modelled code can raise. -/
inductive PyErr : Type where
  | attributeError : PyErr
  | typeError : PyErr
  | valueError : PyErr
  | keyError : PyErr
  | unboundLocalError : PyErr
  | jsonDecodeError : Str → Nat → PyErr
deriving DecidableEq

/-- Python truthiness: None, False, 0, empty string, empty list and empty
dict are falsy; everything else is truthy. -/
def truthy : PyVal → Bool
  | .none => false
  | .bool b => b
  | .num a => a.n ≠ 0
  | .str s => !s.isEmpty
  | .list l => !l.isEmpty
  | .dict d => !d.isEmpty

/-- Python `x or y`: `x` if truthy, else `y`. -/
def pyOr (x y : PyVal) : PyVal := if truthy x then x else y

/-- Dict lookup (first binding of the key), `d.get(k)` without default. -/
def lookupKey (d : List (Str × PyVal)) (k : Str) : Option PyVal :=
  match d with
  | [] => Option.none
  | (k', v) :: rest => if k' = k then some v else lookupKey rest k

/-- Python `d.get(k, default)`. -/
def dGet (d : List (Str × PyVal)) (k : Str) (dflt : PyVal) : PyVal :=
  match lookupKey d k with
  | Option.none => dflt
  | some v => v

/-- Python `d[k] = v`: replace the value in place if the key exists
(keeping its position), otherwise append the new binding. -/
def dSet (d : List (Str × PyVal)) (k : Str) (v : PyVal) : List (Str × PyVal) :=
  match d with
  | [] => [(k, v)]
  | (k', v') :: rest =>
      if k' = k then (k', v) :: rest else (k', v') :: dSet rest k v

/-- Python `d.pop(k)` (key assumed present): remove the binding. -/
def dRemove (d : List (Str × PyVal)) (k : Str) : List (Str × PyVal) :=
  match d with
  | [] => []
  | (k', v') :: rest =>
      if k' = k then rest else (k', v') :: dRemove rest k

/-- Python `k in d` for dicts. -/
def dHasKey (d : List (Str × PyVal)) (k : Str) : Bool :=
  match lookupKey d k with
  | Option.none => false
  | some _ => true

/-- Python `v.get(k, dflt)` on an arbitrary value: only dicts have `.get`,
anything else raises AttributeError. -/
def pyGetD (v : PyVal) (k : Str) (dflt : PyVal) : Except PyErr PyVal :=
  match v with
  | .dict d => .ok (dGet d k dflt)
  | _ => .error .attributeError

/-- Python `v.get(k)` on an arbitrary value (default None). -/
def pyGet (v : PyVal) (k : Str) : Except PyErr PyVal := pyGetD v k .none

/-- Python `v.setdefault(k, dflt)` on an arbitrary value (result is the
updated value; only dicts have `.setdefault`). -/
def pySetdefault (v : PyVal) (k : Str) (dflt : PyVal) : Except PyErr PyVal :=
  match v with
  | .dict d => .ok (.dict (if dHasKey d k then d else dSet d k dflt))
  | _ => .error .attributeError

/-- Python `==` against a string literal: strings compare by content, any
other type is simply unequal (no exception). -/
def pyEqStr (v : PyVal) (s : Str) : Bool :=
  match v with
  | .str t => t = s
  | _ => false

/-- `mapE f l`: monadic map over `Except`, stopping at the first error
(models a Python `for` loop whose body may raise). -/
def mapE (f : PyVal → Except PyErr PyVal) : List PyVal → Except PyErr (List PyVal)
  | [] => .ok []
  | x :: xs =>
      match f x with
      | .error e => .error e
      | .ok y =>
          match mapE f xs with
          | .error e => .error e
          | .ok ys => .ok (y :: ys)


/-! ### String utilities mirroring the Python string operations used -/

/-- Python `str.lower()` (ASCII, which covers all cased text involved). -/
def lowerS (s : Str) : Str := s.map Char.toLower

/-- Python whitespace characters (`\s` for the ASCII text involved). -/
def isSpaceC (c : Char) : Bool :=
  c = ' ' || c = '\t' || c = '\n' || c = '\r' || c = '\x0b' || c = '\x0c'

/-- Drop leading whitespace. -/
def dropWs : Str → Str
  | [] => []
  | c :: r => if isSpaceC c then dropWs r else c :: r

/-- Python `str.strip()`. -/
def stripS (s : Str) : Str := ((dropWs ((dropWs s).reverse)).reverse)

/-- `begins s p`: `s` starts with `p`. -/
def begins : Str → Str → Bool
  | _, [] => true
  | [], _ :: _ => false
  | c :: s, p :: ps => c = p && begins s ps

/-- Python `p in s` (substring containment). -/
def containsSub : Str → Str → Bool
  | s, p =>
    match s with
    | [] => begins [] p
    | _ :: rest => begins s p || containsSub rest p

/-- `ends s p`: `s` ends with `p`. -/
def ends (s p : Str) : Bool := begins s.reverse p.reverse

/-- Python `s.replace(pat, rep)` (left to right, non-overlapping;
`pat` is never empty in the modelled code), with explicit fuel. -/
def replaceFuel (pat rep : Str) : Nat → Str → Str
  | 0, s => s
  | _ + 1, [] => []
  | fuel + 1, c :: s =>
      if begins (c :: s) pat then rep ++ replaceFuel pat rep fuel (List.drop pat.length (c :: s))
      else c :: replaceFuel pat rep fuel s

def pyReplace (s pat rep : Str) : Str := replaceFuel pat rep (s.length + 1) s

/-- Python `re.sub(r'\s+', ' ', s)`: collapse each whitespace run to one
space (the boolean tracks whether the previous character was whitespace). -/
def collapseWs : Str → Bool → Str
  | [], _ => []
  | c :: r, prev =>
      if isSpaceC c then
        if prev then collapseWs r true else ' ' :: collapseWs r true
      else c :: collapseWs r false

/-- Numeric value of a digit character. -/
def digitVal (c : Char) : ℕ := c.toNat - ('0').toNat

/-- Take the maximal leading run of decimal digits. -/
def takeDigits : Str → (Str × Str)
  | [] => ([], [])
  | c :: r =>
      if c.isDigit then
        match takeDigits r with
        | (ds, rest) => (c :: ds, rest)
      else ([], c :: r)

/-- Value of a digit run. -/
def digitsToNat (ds : Str) : ℕ := ds.foldl (fun a c => a * 10 + digitVal c) 0

/-- Candidates for the regex `\d+(?:\.\d+)?` anchored at the start of `s`,
in backtracking priority order: the greedy match including a fractional
part first, then (when a fractional part was consumed) the integer-only
match.  Each candidate is (matched text, numeric value, rest of input). -/
def numCand (s : Str) : List (Str × PyNum × Str) :=
  match takeDigits s with
  | ([], _) => []
  | (ds, rest) =>
      let intOnly : Str × PyNum × Str := (ds, pnInt (digitsToNat ds), rest)
      match rest with
      | '.' :: r2 =>
          match takeDigits r2 with
          | ([], _) => [intOnly]
          | (fs, rest2) =>
              (ds ++ '.' :: fs,
               pnDec ((digitsToNat ds) * 10 ^ fs.length + digitsToNat fs) fs.length,
               rest2) :: [intOnly]
      | _ => [intOnly]

/-! ### Python conversions and rendering -/

/-- Digits of a natural number (fuel-based so that it reduces). -/
def natDigitsAux : Nat → Nat → Str → Str
  | 0, _, acc => acc
  | _ + 1, 0, acc => acc
  | fuel + 1, m, acc =>
      natDigitsAux fuel (m / 10) (Char.ofNat (('0').toNat + m % 10) :: acc)

/-- Decimal rendering of a natural number. -/
def natRender (m : Nat) : Str :=
  if m = 0 then ['0'] else natDigitsAux (m + 1) m []

/-- Decimal rendering of an integer. -/
def intRender (i : ℤ) : Str :=
  if i < 0 then '-' :: natRender i.natAbs else natRender i.natAbs

/-- Rendering of a `PyNum`.  Integers render as in Python; non-integers
render as `n/d`.  No verified property depends on the rendering of a
non-integer number (rendered text only ever lands inside note strings). -/
def pnRender (a : PyNum) : Str :=
  if a.d = 1 then intRender a.n
  else intRender a.n ++ '/' :: natRender a.d

/-- Python `str(v)` (simplified for containers, whose rendering is never
relied upon by any verified property). -/
def pyStrOf : PyVal → Str
  | .none => strL ("None")
  | .bool true => strL ("True")
  | .bool false => strL ("False")
  | .num a => pnRender a
  | .str s => s
  | .list _ => strL ("[...]")
  | .dict _ => strL ("\x7b...\x7d")

/-- Python `v.strip()`: only strings have `.strip()`. -/
def asStrStrip : PyVal → Except PyErr Str
  | .str s => .ok (stripS s)
  | _ => .error .attributeError

/-- Parse a (possibly signed) decimal literal, the entire string
(Python `float(str)` for the digit-shaped strings the code feeds it). -/
def parseFloatStr (s : Str) : Except PyErr PyNum :=
  let t := stripS s
  let (sgn, t') : (Bool × Str) :=
    match t with
    | '-' :: r => (true, r)
    | '+' :: r => (false, r)
    | _ => (false, t)
  match numCand t' with
  | (_, v, []) :: _ => .ok (if sgn then ⟨-v.n, v.d, v.dpos⟩ else v)
  | _ => .error .valueError

/-- Python `float(v)`. -/
def floatOf : PyVal → Except PyErr PyNum
  | .num a => .ok a
  | .bool b => .ok (pnInt (if b then 1 else 0))
  | .str s => parseFloatStr s
  | _ => .error .typeError

/-- Parse an optionally signed run of digits, the entire string
(Python `int(str)`). -/
def parseIntStr (s : Str) : Except PyErr ℤ :=
  let t := stripS s
  let (sgn, t') : (Bool × Str) :=
    match t with
    | '-' :: r => (true, r)
    | '+' :: r => (false, r)
    | _ => (false, t)
  match takeDigits t' with
  | ([], _) => .error .valueError
  | (ds, []) => .ok (if sgn then -(digitsToNat ds : ℤ) else (digitsToNat ds : ℤ))
  | (_, _ :: _) => .error .valueError

/-- Python `int(v)` (truncation for floats). -/
def intOf : PyVal → Except PyErr ℤ
  | .num a => .ok a.trunc
  | .bool b => .ok (if b then 1 else 0)
  | .str s => parseIntStr s
  | _ => .error .typeError

/-! ### src/utils/data_processor.py -/

/-- One clamp step of `validate_environmental_data`:
`if data.get(k): data[k] = max(lo, min(hi, float(data[k])))`. -/
def clampFloatField (d : List (Str × PyVal)) (k : Str) (lo hi : PyNum) :
    Except PyErr (List (Str × PyVal)) :=
  if truthy (dGet d k .none) then
    match floatOf (dGet d k .none) with
    | .error e => .error e
    | .ok x => .ok (dSet d k (.num (lo.max (hi.min x))))
  else .ok d

/-- Integer clamp step of `validate_environmental_data`:
`if data.get(k): data[k] = max(lo, min(hi, int(data[k])))`. -/
def clampIntField (d : List (Str × PyVal)) (k : Str) (lo hi : ℤ) :
    Except PyErr (List (Str × PyVal)) :=
  if truthy (dGet d k .none) then
    match intOf (dGet d k .none) with
    | .error e => .error e
    | .ok x => .ok (dSet d k (.num ((pnInt lo).max ((pnInt hi).min (pnInt x)))))
  else .ok d

/-- `validate_environmental_data(data)` from src/utils/data_processor.py. -/
def validate_environmental_data (data : PyVal) : Except PyErr PyVal :=
  match data with
  | .dict d0 =>
      match clampFloatField d0 (strL ("soil_ph")) (pnDec 40 1) (pnDec 90 1) with
      | .error e => .error e
      | .ok d1 =>
          match clampFloatField d1 (strL ("temperature")) (pnInt (-10)) (pnInt 50) with
          | .error e => .error e
          | .ok d2 =>
              match clampFloatField d2 (strL ("humidity")) (pnInt 0) (pnInt 100) with
              | .error e => .error e
              | .ok d3 =>
                  match clampIntField d3 (strL ("aqi")) 0 500 with
                  | .error e => .error e
                  | .ok d4 =>
                      match clampIntField d4 (strL ("aqi_rating")) 1 5 with
                      | .error e => .error e
                      | .ok d5 => .ok (.dict d5)
  | _ => .error .attributeError

/-- Characters of the regex class `[a-zA-Z\²²\s]` used by
`convert_area_to_square_meters`. -/
def isUnitChar (c : Char) : Bool :=
  (('a' ≤ c && c ≤ 'z') || ('A' ≤ c && c ≤ 'Z') || c = '²' || isSpaceC c)

/-- The conversion table of `convert_area_to_square_meters`, already in
the order produced by `sorted(conversions.items(), key=len(key),
reverse=True)` (stable: ties keep the dict insertion order). -/
def areaUnitsSorted : List (Str × PyNum) :=
  [ (strL ("square meter"), pnInt 1),
    (strL ("square metre"), pnInt 1),
    (strL ("square feet"), pnDec 92903 6),
    (strL ("square foot"), pnDec 92903 6),
    (strL ("square yard"), pnDec 836127 6),
    (strL ("hectares"), pnInt 10000),
    (strL ("hectare"), pnInt 10000),
    (strL ("bighas"), pnDec 252929 2),
    (strL ("kathas"), pnDec 33896 2),
    (strL ("gundas"), pnDec 10084 2),
    (strL ("sq ft"), pnDec 92903 6),
    (strL ("sq yd"), pnDec 836127 6),
    (strL ("acres"), pnDec 404686 2),
    (strL ("bigha"), pnDec 252929 2),
    (strL ("katha"), pnDec 33896 2),
    (strL ("gunda"), pnDec 10084 2),
    (strL ("sq m"), pnInt 1),
    (strL ("yard"), pnDec 836127 6),
    (strL ("acre"), pnDec 404686 2),
    (strL ("ft2"), pnDec 92903 6),
    (strL ("ft²"), pnDec 92903 6),
    (strL ("yd2"), pnDec 836127 6),
    (strL ("yd²"), pnDec 836127 6),
    (strL ("m2"), pnInt 1),
    (strL ("m²"), pnInt 1),
    (strL ("ha"), pnInt 10000) ]

/-- First table entry whose key occurs as a substring of `unit`
(`for unit_key, factor in sorted_units: if unit_key in unit: ...`). -/
def findAreaUnit (unit : Str) : List (Str × PyNum) → Option PyNum
  | [] => Option.none
  | (k, f) :: rest => if containsSub unit k then some f else findAreaUnit unit rest

/-- Try the regex `(\d+(?:\.\d+)?)\s*([a-zA-Z\²²\s]+)` anchored at the
start of `s`.  Since the unit class contains `\s`, the combined
`\s*([class]+)` matches exactly when at least one class character follows
the number; the stripped second group equals the stripped maximal class
run (backtracking between `\s*` and the class cannot change that). -/
def matchAreaAt (s : Str) : Option (PyNum × Str) :=
  match numCand s with
  | [] => Option.none
  | cands =>
      (cands.filterMap fun (_, v, rest) =>
        match rest.takeWhile isUnitChar with
        | [] => Option.none
        | run => some (v, run)).head?

/-- Leftmost match of the number-with-unit regex (`re.search`). -/
def searchArea : Str → Option (PyNum × Str)
  | [] => Option.none
  | c :: r =>
      match matchAreaAt (c :: r) with
      | some m => some m
      | Option.none => searchArea r

/-- Leftmost match of the bare-number regex `(\d+(?:\.\d+)?)`. -/
def searchNum : Str → Option PyNum
  | [] => Option.none
  | c :: r =>
      match numCand (c :: r) with
      | (_, v, _) :: _ => some v
      | [] => searchNum r

/-- `convert_area_to_square_meters(area_text)` from
src/utils/data_processor.py. -/
def convert_area_to_square_meters (v : PyVal) : PyNum :=
  match v with
  | .str s0 =>
      if s0.isEmpty then pnInt 0
      else
        let text := lowerS (stripS s0)
        match searchArea text with
        | some (n, run) =>
            let unit := stripS run
            match findAreaUnit unit areaUnitsSorted with
            | some f => n.mul f
            | Option.none => n
        | Option.none =>
            match searchNum text with
            | some n => n
            | Option.none => pnInt 0
  | _ => pnInt 0

/-- `any(word in location_lower for word in ws)`. -/
def anyWordIn (ll : Str) (ws : List Str) : Bool := ws.any (fun w => containsSub ll w)

/-- `get_space_type_suggestions(location_type)` from
src/utils/data_processor.py (argument is always a string at call site). -/
def get_space_type_suggestions (location_type : Str) : PyVal :=
  if location_type.isEmpty then .dict []
  else
    let ll := stripS (lowerS location_type)
    let base : List (Str × PyVal) :=
      [ (strL ("max_height"), .str (strL ("10 meters"))),
        (strL ("container_suitable"), .bool true),
        (strL ("space_category"), .str (strL ("general"))),
        (strL ("plant_types"), .list [.str (strL ("Any suitable plants"))]),
        (strL ("special_notes"), .list []) ]
    let upd (d : List (Str × PyVal)) (h : Str) (c : Bool) (cat : Str)
        (pts : List Str) (sns : List Str) : List (Str × PyVal) :=
      dSet (dSet (dSet (dSet (dSet d (strL ("max_height")) (.str h))
        (strL ("container_suitable")) (.bool c))
        (strL ("space_category")) (.str cat))
        (strL ("plant_types")) (.list (pts.map PyVal.str)))
        (strL ("special_notes")) (.list (sns.map PyVal.str))
    if anyWordIn ll [strL ("window"), strL ("pane"), strL ("sill"), strL ("indoor")] then
      .dict (upd base (strL ("0.5 meters")) true (strL ("indoor_small"))
        [strL ("Small herbs"), strL ("Succulents"), strL ("Small flowering plants")]
        [strL ("Ensure adequate sunlight"), strL ("Use good quality potting soil")])
    else if anyWordIn ll [strL ("balcony"), strL ("terrace"), strL ("patio"), strL ("veranda")] then
      .dict (upd base (strL ("2 meters")) true (strL ("semi_outdoor_medium"))
        [strL ("Medium shrubs"), strL ("Dwarf fruit trees"), strL ("Flowering plants")]
        [strL ("Consider wind exposure"), strL ("Ensure proper drainage in pots")])
    else if anyWordIn ll [strL ("backyard"), strL ("garden"), strL ("yard"), strL ("compound")] then
      .dict (upd base (strL ("5 meters")) false (strL ("outdoor_medium"))
        [strL ("Medium trees"), strL ("Large shrubs"), strL ("Fruit trees")]
        [strL ("Direct ground planting recommended"), strL ("Consider mature size")])
    else if anyWordIn ll [strL ("farmland"), strL ("field"), strL ("farm"), strL ("acre"), strL ("hectare")] then
      .dict (upd base (strL ("15 meters")) false (strL ("outdoor_large"))
        [strL ("Large trees"), strL ("Commercial crops"), strL ("Timber trees")]
        [strL ("Commercial/large-scale planting suitable"), strL ("Consider spacing for machinery access")])
    else .dict base

/-- Python numeric comparison operand: numbers compare as themselves,
bools as 0/1, anything else raises TypeError when ordered against a
number. -/
def asNumCmp : PyVal → Except PyErr PyNum
  | .num a => .ok a
  | .bool b => .ok (pnInt (if b then 1 else 0))
  | _ => .error .typeError

/-- `water_mapping.get(water_pref, 1000)` where
`water_mapping = {'Low': 400, 'Medium': 1000, 'High': 1800}`; unhashable
keys (lists, dicts) raise TypeError. -/
def waterMapGet : PyVal → Except PyErr PyNum
  | .list _ => .error .typeError
  | .dict _ => .error .typeError
  | .str s =>
      .ok (if s = strL ("Low") then pnInt 400
        else if s = strL ("Medium") then pnInt 1000
        else if s = strL ("High") then pnInt 1800
        else pnInt 1000)
  | _ => .ok (pnInt 1000)

/-- `sep.join(items)` for a list of strings (every joined item in the
modelled code is a string by construction). -/
def joinPyStrs (sep : Str) : List PyVal → Str
  | [] => []
  | [x] => pyStrOf x
  | x :: y :: rest => pyStrOf x ++ sep ++ joinPyStrs sep (y :: rest)

/-- Soil-type override step of `enhance_with_user_preferences`. -/
def ewpSoil (prefs : PyVal) (d : List (Str × PyVal)) (ov : List PyVal) :
    Except PyErr (List (Str × PyVal) × List PyVal) := do
  let v ← pyGetD prefs (strL ("soil_type_input")) (.str [])
  let s ← asStrStrip v
  if !s.isEmpty then
    let apiData := dGet d (strL ("api_data")) (.dict [])
    let apiSoil ← pyGetD apiData (strL ("soil_texture_api")) (.str (strL ("clay loam")))
    let d := dSet d (strL ("soil_texture")) (.str s)
    let d := dSet d (strL ("soil_texture_source")) (.str (strL ("user_input")))
    let note := strL ("User specified: ") ++ s ++ strL (" (API suggested: ")
      ++ pyStrOf apiSoil ++ strL (")")
    let d := dSet d (strL ("soil_texture_note")) (.str note)
    .ok (d, ov ++ [.str (strL ("Soil: ") ++ s)])
  else
    .ok (d, ov)

/-- The override condition of the water-availability step:
`api_rainfall < 100 or api_rainfall > 4000 or
abs(api_rainfall - user_rainfall) > 800`. -/
def ewpWaterCondB (api user : PyNum) : Bool :=
  api.lt (pnInt 100) || (pnInt 4000).lt api || (pnInt 800).lt ((api.sub user).abs)

/-- Water-availability override step of `enhance_with_user_preferences`. -/
def ewpWater (prefs : PyVal) (d : List (Str × PyVal)) (ov : List PyVal) :
    Except PyErr (List (Str × PyVal) × List PyVal) := do
  let wv ← pyGetD prefs (strL ("water_availability")) (.str (strL ("Auto-detect")))
  if !(pyEqStr wv (strL ("Auto-detect"))) then
    let apiData := dGet d (strL ("api_data")) (.dict [])
    let apiRainV ← pyGetD apiData (strL ("rainfall_api")) (.num (pnInt 1000))
    let userRain ← waterMapGet wv
    let apiRain ← asNumCmp apiRainV
    if ewpWaterCondB apiRain userRain then
      let d := dSet d (strL ("rainfall")) (.num userRain)
      let d := dSet d (strL ("rainfall_source")) (.str (strL ("user_preference")))
      let note := strL ("Using user preference (") ++ pyStrOf wv ++ strL (": ")
        ++ pnRender userRain
        ++ strL ("mm) - API value (") ++ pyStrOf apiRainV
        ++ strL ("mm) seemed unrealistic or very different")
      let d := dSet d (strL ("rainfall_note")) (.str note)
      .ok (d, ov ++ [.str (strL ("Water: ") ++ pyStrOf wv ++ strL (" (")
        ++ pnRender userRain ++ strL ("mm)"))])
    else
      let d := dSet d (strL ("user_water_preference")) wv
      let d := dSet d (strL ("user_preferred_rainfall")) (.num userRain)
      let note := strL ("Using API data (") ++ pyStrOf apiRainV
        ++ strL ("mm) as it aligns with ") ++ pyStrOf wv ++ strL (" conditions")
      let d := dSet d (strL ("rainfall_note")) (.str note)
      .ok (d, ov)
  else
    .ok (d, ov)

/-- Space-availability step of `enhance_with_user_preferences`. -/
def ewpSpace (prefs : PyVal) (d : List (Str × PyVal)) (ov : List PyVal) :
    Except PyErr (List (Str × PyVal) × List PyVal) := do
  let sv ← pyGetD prefs (strL ("space_availability")) (.num (pnInt 0))
  let sn ← asNumCmp sv
  if (pnInt 0).lt sn then
    let d := dSet d (strL ("available_space")) sv
    let d := dSet d (strL ("space_source")) (.str (strL ("user_input")))
    .ok (d, ov ++ [.str (strL ("Space: ") ++ pyStrOf sv ++ strL (" m²"))])
  else
    .ok (d, ov)

/-- Area-with-units step of `enhance_with_user_preferences`. -/
def ewpArea (prefs : PyVal) (d : List (Str × PyVal)) (ov : List PyVal) :
    Except PyErr (List (Str × PyVal) × List PyVal) := do
  let av ← pyGetD prefs (strL ("area_with_units")) (.str [])
  let s ← asStrStrip av
  if !s.isEmpty then
    let conv := convert_area_to_square_meters av
    if (pnInt 0).lt conv then
      let d := dSet d (strL ("available_space")) (.num conv)
      let d := dSet d (strL ("space_source")) (.str (strL ("user_input_converted")))
      let d := dSet d (strL ("area_conversion"))
        (.str (pyStrOf av ++ strL (" → ") ++ pnRender conv ++ strL (" m²")))
      .ok (d, ov ++ [.str (strL ("Space: ") ++ pyStrOf av ++ strL (" (")
        ++ pnRender conv ++ strL (" m²)"))])
    else
      .ok (d, ov)
  else
    .ok (d, ov)

/-- Location-type step of `enhance_with_user_preferences`. -/
def ewpLocation (prefs : PyVal) (d : List (Str × PyVal)) (ov : List PyVal) :
    Except PyErr (List (Str × PyVal) × List PyVal) := do
  let lv ← pyGetD prefs (strL ("space_location_type")) (.str [])
  let s ← asStrStrip lv
  if !s.isEmpty then
    let d := dSet d (strL ("space_location_type")) (.str s)
    let sugg := get_space_type_suggestions s
    let d ←
      if truthy sugg then do
        let d := dSet d (strL ("location_constraints")) sugg
        let mh ← pyGetD sugg (strL ("max_height")) (.str (strL ("10 meters")))
        let d := dSet d (strL ("max_plant_height")) mh
        let cs ← pyGetD sugg (strL ("container_suitable")) (.bool true)
        let d := dSet d (strL ("container_suitable")) cs
        let sc ← pyGetD sugg (strL ("space_category")) (.str (strL ("general")))
        pure (dSet d (strL ("space_category")) sc)
      else
        pure d
    .ok (d, ov ++ [.str (strL ("Location: ") ++ s)])
  else
    .ok (d, ov)

/-- Budget step of `enhance_with_user_preferences`. -/
def ewpBudget (prefs : PyVal) (d : List (Str × PyVal)) (ov : List PyVal) :
    Except PyErr (List (Str × PyVal) × List PyVal) := do
  let bv ← pyGetD prefs (strL ("budget_preference")) (.str (strL ("Auto-suggest")))
  if !(pyEqStr bv (strL ("Auto-suggest"))) then
    let d := dSet d (strL ("budget_preference")) bv
    .ok (d, ov ++ [.str (strL ("Budget: ") ++ pyStrOf bv)])
  else
    .ok (d, ov)

/-- `enhance_with_user_preferences(formatted_data, user_preferences)`
from src/utils/data_processor.py. -/
def enhance_with_user_preferences (fd prefs : PyVal) : Except PyErr PyVal := do
  match fd with
  | .dict d0 =>
      let (d1, ov1) ← ewpSoil prefs d0 []
      let (d2, ov2) ← ewpWater prefs d1 ov1
      let (d3, ov3) ← ewpSpace prefs d2 ov2
      let (d4, ov4) ← ewpArea prefs d3 ov3
      let (d5, ov5) ← ewpLocation prefs d4 ov4
      let (d6, ov6) ← ewpBudget prefs d5 ov5
      if !ov6.isEmpty then
        let d7 := dSet d6 (strL ("user_customizations")) (.list ov6)
        let d8 := dSet d7 (strL ("customization_summary"))
          (.str (strL ("User preferences: ") ++ joinPyStrs (strL (" | ")) ov6))
        .ok (.dict d8)
      else
        .ok (.dict d6)
  | _ => .error .typeError

/-- `format_data_for_ai(soil_data, weather_data, air_quality_data,
prefer_native, user_preferences)` from src/utils/data_processor.py. -/
def format_data_for_ai (soil weather air preferNative prefs : PyVal) :
    Except PyErr PyVal := do
  let loc ← pyGetD weather (strL ("location")) (.str (strL ("India")))
  let ph ← pyGetD soil (strL ("soil_ph")) (.num (pnDec 65 1))
  let tex ← pyGetD soil (strL ("soil_texture")) (.str (strL ("clay loam")))
  let soc ← pyGetD soil (strL ("soil_organic_carbon")) (.num (pnDec 18 1))
  let temp ← pyGetD weather (strL ("temperature")) (.num (pnDec 275 1))
  let hum ← pyGetD weather (strL ("humidity")) (.num (pnInt 65))
  let rain ← pyGetD weather (strL ("rainfall")) (.num (pnInt 1000))
  let clim ← pyGetD weather (strL ("climate_type")) (.str (strL ("tropical")))
  let aqi ← pyGetD air (strL ("aqi")) (.num (pnInt 75))
  let aqiR ← pyGetD air (strL ("aqi_rating")) (.num (pnInt 3))
  let pm ← pyGetD air (strL ("pm2_5")) (.num (pnInt 35))
  let stSoil ← pyGetD soil (strL ("status")) (.str (strL ("unknown")))
  let stW ← pyGetD weather (strL ("status")) (.str (strL ("unknown")))
  let stA ← pyGetD air (strL ("status")) (.str (strL ("unknown")))
  let texApi ← pyGetD soil (strL ("texture")) (.str (strL ("clay loam")))
  let rainApi ← pyGetD weather (strL ("rainfall")) (.num (pnInt 1000))
  let tempApi ← pyGetD weather (strL ("temperature")) (.num (pnDec 275 1))
  let fd : PyVal := .dict
    [ (strL ("location"), loc),
      (strL ("soil_ph"), ph),
      (strL ("soil_texture"), tex),
      (strL ("soil_organic_carbon"), soc),
      (strL ("temperature"), temp),
      (strL ("humidity"), hum),
      (strL ("rainfall"), rain),
      (strL ("climate_type"), clim),
      (strL ("aqi"), aqi),
      (strL ("aqi_rating"), aqiR),
      (strL ("pm2_5"), pm),
      (strL ("prefer_native"), preferNative),
      (strL ("data_status"), .dict
        [ (strL ("soil"), stSoil),
          (strL ("weather"), stW),
          (strL ("air_quality"), stA) ]),
      (strL ("api_data"), .dict
        [ (strL ("soil_texture_api"), texApi),
          (strL ("rainfall_api"), rainApi),
          (strL ("temperature_api"), tempApi) ]) ]
  if truthy prefs then
    enhance_with_user_preferences fd prefs
  else
    .ok fd

/-! ### src/components/report_generator.py -/

/-- Generic leftmost-match scanner (`re.search` / first entry of
`re.findall`): try the anchored matcher at every position, left to
right. -/
def scanFirst (m : Str → Option α) : Str → Option α
  | [] => m []
  | c :: r =>
      match m (c :: r) with
      | some g => some g
      | Option.none => scanFirst m r

/-- Anchored matcher for `(\d+(?:\.\d+)?)\s*(?:alt1|alt2|...)`:
a number, optional whitespace, then one of the unit alternatives. -/
def unitNumAt (alts : List Str) (s : Str) : Option PyNum :=
  (numCand s).firstM fun (_, v, rest) =>
    if alts.any (fun a => begins (dropWs rest) a) then some v else Option.none

/-- Anchored matcher for `(\d+(?:\.\d+)?)-(\d+(?:\.\d+)?)`. -/
def rangeNumAt (s : Str) : Option (PyNum × PyNum) :=
  (numCand s).firstM fun (_, v1, rest) =>
    match rest with
    | '-' :: r2 =>
        match numCand r2 with
        | (_, v2, _) :: _ => some (v1, v2)
        | [] => Option.none
    | _ => Option.none

/-- Anchored matcher for `(\d+(?:\.\d+)?)\s*(?:to|or)\s*(\d+(?:\.\d+)?)`. -/
def toOrNumAt (s : Str) : Option (PyNum × PyNum) :=
  (numCand s).firstM fun (_, v1, rest) =>
    let r := dropWs rest
    let afterWord : Option Str :=
      if begins r (strL ("to")) then some (r.drop 2)
      else if begins r (strL ("or")) then some (r.drop 2)
      else Option.none
    match afterWord with
    | some r2 =>
        match numCand (dropWs r2) with
        | (_, v2, _) :: _ => some (v1, v2)
        | [] => Option.none
    | Option.none => Option.none

/-- Anchored matcher for
`(?:about|approximately|around|roughly)\s*(\d+(?:\.\d+)?)`. -/
def approxNumAt (s : Str) : Option PyNum :=
  let words := [strL ("about"), strL ("approximately"), strL ("around"), strL ("roughly")]
  (words.firstM fun w =>
    if begins s w then
      match numCand (dropWs (s.drop w.length)) with
      | (_, v, _) :: _ => some v
      | [] => Option.none
    else Option.none)

/-- Anchored matcher for a bare `(\d+(?:\.\d+)?)`. -/
def bareNumAt (s : Str) : Option PyNum :=
  match numCand s with
  | (_, v, _) :: _ => some v
  | [] => Option.none

/-- `extract_number_from_text(text)` from
src/components/report_generator.py.  Returns a Python int. -/
def extract_number_from_text (v : PyVal) : ℤ :=
  if !truthy v || pyEqStr v (strL ("N/A")) || pyEqStr v (strL ("Unknown")) then 25
  else
    let t := stripS (lowerS (pyStrOf v))
    if containsSub t (strL ("not specified")) || containsSub t (strL ("not available"))
        || containsSub t (strL ("data not")) || containsSub t (strL ("unknown")) then 25
    else if containsSub t (strL ("excellent")) || containsSub t (strL ("very high")) then 40
    else if containsSub t (strL ("high")) || containsSub t (strL ("good")) then 35
    else if containsSub t (strL ("moderate")) || containsSub t (strL ("medium")) then 25
    else if containsSub t (strL ("low")) || containsSub t (strL ("poor")) then 15
    else if containsSub t (strL ("very low")) then 10
    else
      match scanFirst (unitNumAt [strL ("kg"), strL ("kilograms"), strL ("kilogram")]) t with
      | some n => n.trunc
      | Option.none =>
      match scanFirst (unitNumAt [strL ("l"), strL ("liters"), strL ("liter"),
          strL ("litres"), strL ("litre")]) t with
      | some n => n.trunc
      | Option.none =>
      match scanFirst (unitNumAt [strL ("m"), strL ("meters"), strL ("meter"),
          strL ("metres"), strL ("metre")]) t with
      | some n => n.trunc
      | Option.none =>
      match scanFirst (unitNumAt [strL ("₹"), strL ("rs."), strL ("rs"),
          strL ("rupees"), strL ("rupee")]) t with
      | some n => n.trunc
      | Option.none =>
      match scanFirst rangeNumAt t with
      | some (a, b) => ((a.add b).divNat 2 Nat.zero_lt_two).trunc
      | Option.none =>
      match scanFirst toOrNumAt t with
      | some (a, b) => ((a.add b).divNat 2 Nat.zero_lt_two).trunc
      | Option.none =>
      match scanFirst approxNumAt t with
      | some n => n.trunc
      | Option.none =>
      match scanFirst bareNumAt t with
      | some n => n.trunc
      | Option.none => 25

/-! ### Python json.loads

A recursive-descent JSON parser mirroring `json.loads`: same accepted
language (strict JSON; the leading-zero restriction on numbers is not
modelled, no modelled input exercises it), same error kinds, and the same
`pos` attribute on decoding errors.  Since every string handed to
`json.loads` by the pipeline has first been through `clean_json_string`
(which removes all newlines), error messages always report line 1 and
column `pos + 1`, which is how they are rendered here. -/

/-- A `json.JSONDecodeError` with Python's message shape. -/
def mkJErr (kind : Str) (pos : Nat) : PyErr :=
  .jsonDecodeError
    (kind ++ strL (": line 1 column ") ++ natRender (pos + 1)
      ++ strL (" (char ") ++ natRender pos ++ strL (")")) pos

/-- JSON whitespace skipping, tracking the absolute position. -/
def jwsDrop : Str → Nat → (Str × Nat)
  | [], p => ([], p)
  | c :: r, p =>
      if c = ' ' || c = '\t' || c = '\n' || c = '\r' then jwsDrop r (p + 1)
      else (c :: r, p)

/-- Single-character JSON string escapes. -/
def escChar : Char → Option Char
  | '"' => some '"'
  | '\\' => some '\\'
  | '/' => some '/'
  | 'b' => some '\x08'
  | 'f' => some '\x0c'
  | 'n' => some '\n'
  | 'r' => some '\r'
  | 't' => some '\t'
  | _ => Option.none

def hexVal (c : Char) : Option Nat :=
  if c.isDigit then some (c.toNat - ('0').toNat)
  else if 'a' ≤ c && c ≤ 'f' then some (c.toNat - ('a').toNat + 10)
  else if 'A' ≤ c && c ≤ 'F' then some (c.toNat - ('A').toNat + 10)
  else Option.none

/-- Body of a JSON string (opening quote already consumed at position
`startPos`); returns content, rest and position after the closing quote. -/
def parseJStr : Str → Nat → Nat → Str → Except PyErr (Str × Str × Nat)
  | [], _, startPos, _ => .error (mkJErr (strL ("Unterminated string starting at")) startPos)
  | '"' :: r, p, _, acc => .ok (acc.reverse, r, p + 1)
  | '\\' :: r, p, startPos, acc =>
      (match r with
       | [] => .error (mkJErr (strL ("Unterminated string starting at")) startPos)
       | 'u' :: h1 :: h2 :: h3 :: h4 :: r2 =>
           (match hexVal h1, hexVal h2, hexVal h3, hexVal h4 with
            | some a, some b, some c, some d =>
                parseJStr r2 (p + 6) startPos
                  (Char.ofNat (((a * 16 + b) * 16 + c) * 16 + d) :: acc)
            | _, _, _, _ => .error (mkJErr (strL ("Invalid \\uXXXX escape")) (p + 1)))
       | e :: r2 =>
           (match escChar e with
            | some c => parseJStr r2 (p + 2) startPos (c :: acc)
            | Option.none => .error (mkJErr (strL ("Invalid \\escape")) p)))
  | c :: r, p, startPos, acc =>
      if c.toNat < 32 then
        .error (mkJErr (strL ("Invalid control character at")) p)
      else parseJStr r (p + 1) startPos (c :: acc)

/-- JSON number starting at the current position (first char is a digit
or `-`). -/
def parseJNum (s : Str) (p : Nat) : Except PyErr (PyNum × Str × Nat) :=
  let (neg, s1, p1) : Bool × Str × Nat :=
    match s with
    | '-' :: r => (true, r, p + 1)
    | _ => (false, s, p)
  match takeDigits s1 with
  | ([], _) => .error (mkJErr (strL ("Expecting value")) p)
  | (ds, rest) =>
      let p2 := p1 + ds.length
      let intv : ℤ := (digitsToNat ds : ℤ)
      let (mant, scale, rest2, p3) : ℤ × ℕ × Str × Nat :=
        match rest with
        | '.' :: r2 =>
            (match takeDigits r2 with
             | ([], _) => (intv, 0, rest, p2)
             | (fs, r3) =>
                 (intv * (10 : ℤ) ^ fs.length + (digitsToNat fs : ℤ),
                  fs.length, r3, p2 + 1 + fs.length))
        | _ => (intv, 0, rest, p2)
      let (expo, rest3, p4) : ℤ × Str × Nat :=
        match rest2 with
        | 'e' :: r4 =>
            (match r4 with
             | '-' :: r5 =>
                 (match takeDigits r5 with
                  | ([], _) => (0, rest2, p3)
                  | (es, r6) => (-(digitsToNat es : ℤ), r6, p3 + 2 + es.length))
             | '+' :: r5 =>
                 (match takeDigits r5 with
                  | ([], _) => (0, rest2, p3)
                  | (es, r6) => ((digitsToNat es : ℤ), r6, p3 + 2 + es.length))
             | _ =>
                 (match takeDigits r4 with
                  | ([], _) => (0, rest2, p3)
                  | (es, r6) => ((digitsToNat es : ℤ), r6, p3 + 1 + es.length)))
        | 'E' :: r4 =>
            (match r4 with
             | '-' :: r5 =>
                 (match takeDigits r5 with
                  | ([], _) => (0, rest2, p3)
                  | (es, r6) => (-(digitsToNat es : ℤ), r6, p3 + 2 + es.length))
             | '+' :: r5 =>
                 (match takeDigits r5 with
                  | ([], _) => (0, rest2, p3)
                  | (es, r6) => ((digitsToNat es : ℤ), r6, p3 + 2 + es.length))
             | _ =>
                 (match takeDigits r4 with
                  | ([], _) => (0, rest2, p3)
                  | (es, r6) => ((digitsToNat es : ℤ), r6, p3 + 1 + es.length)))
        | _ => (0, rest2, p3)
      let v : PyNum :=
        if 0 ≤ expo then
          ⟨(if neg then -mant else mant) * (10 : ℤ) ^ expo.toNat, 10 ^ scale,
            pow_pos (by norm_num) scale⟩
        else
          ⟨(if neg then -mant else mant), 10 ^ (scale + (-expo).toNat),
            pow_pos (by norm_num) (scale + (-expo).toNat)⟩
      .ok (v, rest3, p4)

/-- Parser mode: which syntactic position the cursor is at.  The six
mutually recursive procedures of a recursive-descent JSON parser are
written as one function over this mode so that the recursion is
structural on the fuel (and therefore reduces definitionally). -/
inductive JMode : Type where
  | value : JMode
  | objFirst : JMode
  | objKey : List (Str × PyVal) → JMode
  | objRest : List (Str × PyVal) → JMode
  | arrFirst : JMode
  | arrRest : List PyVal → JMode

/-- The JSON grammar of `json.loads`: `value` parses one JSON value
(whitespace allowed before it); `objFirst` is the position directly after
`{`; `objKey` expects a `"key": value` member; `objRest` expects `,` or
`}` after a member; `arrFirst` is directly after `[`; `arrRest` expects
`,` or `]` after an item. -/
def parseJ : Nat → JMode → Str → Nat → Except PyErr (PyVal × Str × Nat)
  | 0, _, _, p => .error (mkJErr (strL ("Expecting value")) p)
  | fuel + 1, .value, s, p =>
      (match jwsDrop s p with
       | (s1, p1) =>
         match s1 with
         | '\x7b' :: r => parseJ fuel .objFirst r (p1 + 1)
         | '[' :: r => parseJ fuel .arrFirst r (p1 + 1)
         | '"' :: r =>
             (match parseJStr r (p1 + 1) p1 [] with
              | .error e => .error e
              | .ok (cs, rest, p2) => .ok (.str cs, rest, p2))
         | 't' :: 'r' :: 'u' :: 'e' :: r => .ok (.bool true, r, p1 + 4)
         | 'f' :: 'a' :: 'l' :: 's' :: 'e' :: r => .ok (.bool false, r, p1 + 5)
         | 'n' :: 'u' :: 'l' :: 'l' :: r => .ok (.none, r, p1 + 4)
         | c :: r =>
             if c.isDigit || c = '-' then
               match parseJNum (c :: r) p1 with
               | .error e => .error e
               | .ok (v, rest, p2) => .ok (.num v, rest, p2)
             else .error (mkJErr (strL ("Expecting value")) p1)
         | [] => .error (mkJErr (strL ("Expecting value")) p1))
  | fuel + 1, .objFirst, s, p =>
      (match jwsDrop s p with
       | ('\x7d' :: r, p1) => .ok (.dict [], r, p1 + 1)
       | (s1, p1) => parseJ fuel (.objKey []) s1 p1)
  | fuel + 1, .objKey acc, s, p =>
      (match s with
       | '"' :: r =>
           (match parseJStr r (p + 1) p [] with
            | .error e => .error e
            | .ok (k, rest, p2) =>
                (match jwsDrop rest p2 with
                 | (':' :: r2, p3) =>
                     (match parseJ fuel .value r2 (p3 + 1) with
                      | .error e => .error e
                      | .ok (v, rest2, p4) => parseJ fuel (.objRest (dSet acc k v)) rest2 p4)
                 | (_, p3) => .error (mkJErr (strL ("Expecting ':' delimiter")) p3)))
       | _ => .error (mkJErr (strL ("Expecting property name enclosed in double quotes")) p))
  | fuel + 1, .objRest acc, s, p =>
      (match jwsDrop s p with
       | ('\x7d' :: r, p1) => .ok (.dict acc, r, p1 + 1)
       | (',' :: r, p1) =>
           (match jwsDrop r (p1 + 1) with
            | (s2, p2) => parseJ fuel (.objKey acc) s2 p2)
       | (_, p1) => .error (mkJErr (strL ("Expecting ',' delimiter")) p1))
  | fuel + 1, .arrFirst, s, p =>
      (match jwsDrop s p with
       | (']' :: r, p1) => .ok (.list [], r, p1 + 1)
       | (s1, p1) =>
           (match parseJ fuel .value s1 p1 with
            | .error e => .error e
            | .ok (v, rest, p2) => parseJ fuel (.arrRest [v]) rest p2))
  | fuel + 1, .arrRest acc, s, p =>
      (match jwsDrop s p with
       | (']' :: r, p1) => .ok (.list acc.reverse, r, p1 + 1)
       | (',' :: r, p1) =>
           (match parseJ fuel .value r (p1 + 1) with
            | .error e => .error e
            | .ok (v, rest, p2) => parseJ fuel (.arrRest (v :: acc)) rest p2)
       | (_, p1) => .error (mkJErr (strL ("Expecting ',' delimiter")) p1))

/-- Python `json.loads(s)`: parse one value, then only whitespace may
remain (`Extra data` otherwise). -/
def json_loads (s : Str) : Except PyErr PyVal :=
  match parseJ (8 * s.length + 32) .value s 0 with
  | .error e => .error e
  | .ok (v, rest, p) =>
      match jwsDrop rest p with
      | ([], _) => .ok v
      | (_ :: _, p1) => .error (mkJErr (strL ("Extra data")) p1)

/-! ### src/api/gemini_api.py -/

/-- Index of the first occurrence of a character (Python `str.find`,
`none` for `-1`). -/
def findCharIdx (c : Char) : Str → Option Nat
  | [] => Option.none
  | x :: r => if x = c then some 0 else (findCharIdx c r).map (· + 1)

/-- The bracket-matching loop of the response parsers: walk the string,
`+1` on the opening character, `-1` on the closing character (regardless
of any surrounding quotes), and stop at the first position where the
counter returns to zero, yielding the exclusive end index.  `none` when
the counter never returns to zero. -/
def bracketScanCore (op cl : Char) : Str → ℤ → Nat → Option Nat
  | [], _, _ => Option.none
  | c :: r, cnt, idx =>
      if c = op then bracketScanCore op cl r (cnt + 1) (idx + 1)
      else if c = cl then
        if cnt - 1 = 0 then some (idx + 1) else bracketScanCore op cl r (cnt - 1) (idx + 1)
      else bracketScanCore op cl r cnt (idx + 1)

/-- Stage-2 structural extraction shared by the response parsers: find
the first opening character, then cut at the position where the raw
bracket counter returns to zero (`none` when there is no opening
character or the counter never returns to zero — both cases fall through
to the next recovery stage). -/
def stage2Extract (op cl : Char) (s : Str) : Option Str :=
  match findCharIdx op s with
  | Option.none => Option.none
  | some i =>
      (match bracketScanCore op cl (s.drop i) 0 0 with
       | Option.none => Option.none
       | some e => some ((s.drop i).take e))

/-- `clean_json_string(json_str)` (identical in gemini_api.py and
local_api.py). -/
def clean_json_string (s : Str) : Str :=
  let s := pyReplace s (strL ("\n")) (strL (" "))
  let s := pyReplace s (strL ("\t")) (strL (" "))
  let s := pyReplace s (strL ("\\\"")) (strL ("\""))
  let s := pyReplace s (strL ("\"\"")) (strL ("\""))
  let s := pyReplace s (strL ("\"...")) (strL ("\"\""))
  let s := pyReplace s (strL ("...")) (strL (""))
  let s := pyReplace s (strL ("\",\x7d")) (strL ("\"\x7d"))
  let s := pyReplace s (strL (",\x7d")) (strL ("\x7d"))
  let s := pyReplace s (strL (",]")) (strL ("]"))
  stripS (collapseWs s false)

/-- Message and position of an exception
(`getattr(error, 'pos', 0)` and `str(error)`). -/
def errMsgPos : PyErr → (Str × Nat)
  | .jsonDecodeError m p => (m, p)
  | _ => ([], 0)

/-- `fix_json_error(json_str, error)` from gemini_api.py. -/
def fix_json_error (js : Str) (e : PyErr) : Str :=
  let (msg, pos) := errMsgPos e
  if containsSub msg (strL ("Extra data")) then
    let t := js.take pos
    if t.count '\x7b' > t.count '\x7d' then
      t ++ List.replicate (t.count '\x7b' - t.count '\x7d') '\x7d'
    else t
  else if containsSub msg (strL ("Unterminated string")) then
    if pos < js.length then js.take pos ++ '"' :: js.drop pos else js
  else if containsSub msg (strL ("Expecting ',' delimiter")) then
    if pos < js.length then js.take pos ++ ',' :: js.drop pos else js
  else js

/-- `re.findall(r'"field":\\s*"([^"]+)"', text)`: left-to-right,
non-overlapping matches of the literal quoted field name and colon,
optional whitespace, then a nonempty quoted capture; scanning resumes
after each match's closing quote. -/
def findAllField (field : Str) : Nat → Str → List Str
  | 0, _ => []
  | _ + 1, [] => []
  | fuel + 1, c :: r =>
      let lit := '"' :: (field ++ ['"', ':'])
      if begins (c :: r) lit then
        match dropWs ((c :: r).drop lit.length) with
        | '"' :: r2 =>
            (match r2.takeWhile (fun ch => ch ≠ '"') with
             | [] => findAllField field fuel r
             | cap =>
                 (match r2.drop cap.length with
                  | '"' :: r3 => cap :: findAllField field fuel r3
                  | _ => findAllField field fuel r))
        | _ => findAllField field fuel r
      else findAllField field fuel r

def kRecs : Str := strL ("recommendations")
def kSci : Str := strL ("scientific_name")
def kCommon : Str := strL ("common_name")
def kLocal : Str := strL ("local_name")
def kPlantType : Str := strL ("plant_type")
def kEnvScore : Str := strL ("environmental_impact_score")
def kAq : Str := strL ("air_quality_benefits")
def kGrowth : Str := strL ("growth_characteristics")
def kSus : Str := strL ("sustainability_highlights")
def kWaterReq : Str := strL ("water_requirements")
def kWaterNeeds : Str := strL ("water_needs")
def kSunReq : Str := strL ("sunlight_requirements")
def kSunAlt : Str := strL ("sunlight")
def kPW : Str := strL ("planting_window")

/-- `create_fallback_recommendations()` from gemini_api.py (single Neem
record). -/
def gemini_create_fallback_recommendations : List PyVal :=
  [ .dict
    [ (kSci, .str (strL ("Azadirachta indica"))),
      (kCommon, .str (strL ("Neem"))),
      (kLocal, .str (strL ("नीम (Neem)"))),
      (kPlantType, .str (strL ("Tree"))),
      (strL ("suitability_analysis"), .str (strL ("Highly suitable for Indian climate with excellent environmental benefits"))),
      (strL ("care_instructions"), .str (strL ("Water regularly in first year, then minimal care needed. Prune annually."))),
      (kEnvScore, .num (pnDec 90 1)),
      (kAq, .dict
        [ (strL ("pollution_reduction"), .str (strL ("Excellent air purification"))),
          (strL ("co2_absorption"), .str (strL ("High CO2 absorption capacity"))),
          (strL ("oxygen_production"), .str (strL ("Significant oxygen production"))),
          (strL ("aqi_improvement"), .str (strL ("Notable AQI improvement"))) ]),
      (kGrowth, .dict
        [ (strL ("growth_rate"), .str (strL ("Fast-growing"))),
          (strL ("mature_height"), .str (strL ("15-20 meters"))),
          (strL ("spacing_requirements"), .str (strL ("4-6 meters apart"))) ]),
      (kSus, .list [.str (strL ("Native to India")), .str (strL ("Drought tolerant")),
        .str (strL ("Pollution resistant")), .str (strL ("Multi-purpose tree"))]) ] ]

/-- One synthesized record of `extract_partial_recommendations`
(gemini_api.py) for index `i` (0-based). -/
def geminiPartialRec (sci com loc : List Str) (i : Nat) : PyVal :=
  .dict
    [ (kSci, .str (sci.getD i (strL ("Plant_") ++ natRender (i + 1)))),
      (kCommon, .str (com.getD i (strL ("Plant ") ++ natRender (i + 1)))),
      (kLocal, .str (loc.getD i (strL ("Local Plant ") ++ natRender (i + 1)))),
      (kPlantType, .str (strL ("Plant"))),
      (strL ("suitability_analysis"), .str (strL ("AI-recommended for your environmental conditions"))),
      (strL ("care_instructions"), .str (strL ("Standard care applicable for your climate zone"))),
      (kEnvScore, .num (pnDec 75 1)),
      (kAq, .dict
        [ (strL ("pollution_reduction"), .str (strL ("Contributes to air purification"))),
          (strL ("co2_absorption"), .str (strL ("CO2 absorption capabilities"))),
          (strL ("oxygen_production"), .str (strL ("Oxygen production benefits"))),
          (strL ("aqi_improvement"), .str (strL ("Helps improve local air quality"))) ]),
      (kGrowth, .dict
        [ (strL ("growth_rate"), .str (strL ("Moderate growth rate"))),
          (strL ("mature_height"), .str (strL ("Suitable height for location"))),
          (strL ("spacing_requirements"), .str (strL ("Standard spacing recommended"))) ]),
      (kSus, .list [.str (strL ("AI-recommended for your location")),
        .str (strL ("Environmentally beneficial"))]) ]

/-- `extract_partial_recommendations(text)` from gemini_api.py. -/
def gemini_extract_partial_recommendations (text : Str) : List PyVal :=
  let sci := findAllField kSci (text.length + 1) text
  let com := findAllField kCommon (text.length + 1) text
  let loc := findAllField kLocal (text.length + 1) text
  let maxPlants := Nat.min (Nat.min sci.length com.length) 5
  let recs := (List.range maxPlants).map (geminiPartialRec sci com loc)
  if !recs.isEmpty then recs else gemini_create_fallback_recommendations

/-- The per-record body of `enhance_recommendations_for_ui`
(gemini_api.py). -/
def enhanceRecGemini (rec : PyVal) : Except PyErr PyVal := do
  let rec1 ← pySetdefault rec kEnvScore (.num (pnDec 75 1))
  let rec2 ←
    match rec1 with
    | .dict d =>
        if !(dHasKey d kAq) || !truthy (dGet d kAq .none) then do
          let aqv := dGet d kAq (.dict [])
          let pr ← pyGetD aqv (strL ("pollution_reduction")) (.str (strL ("Air purification capabilities")))
          let co ← pyGetD aqv (strL ("co2_absorption")) (.str (strL ("CO2 absorption data not specified")))
          let ox ← pyGetD aqv (strL ("oxygen_production")) (.str (strL ("Oxygen production data not specified")))
          let ai ← pyGetD aqv (strL ("aqi_improvement")) (.str (strL ("AQI improvement potential")))
          pure (PyVal.dict (dSet d kAq (.dict
            [ (strL ("pollution_reduction"), pr),
              (strL ("co2_absorption"), co),
              (strL ("oxygen_production"), ox),
              (strL ("aqi_improvement"), ai) ])))
        else pure rec1
    | _ => .error .attributeError
  let rec3 ←
    match rec2 with
    | .dict d =>
        if !(dHasKey d kGrowth) || !truthy (dGet d kGrowth .none) then do
          let gv := dGet d kGrowth (.dict [])
          let gr ← pyGetD gv (strL ("growth_rate")) (.str (strL ("Growth rate not specified")))
          let mh ← pyGetD gv (strL ("mature_height")) (.str (strL ("Height not specified")))
          let sp ← pyGetD gv (strL ("spacing_requirements")) (.str (strL ("Spacing not specified")))
          pure (PyVal.dict (dSet d kGrowth (.dict
            [ (strL ("growth_rate"), gr),
              (strL ("mature_height"), mh),
              (strL ("spacing_requirements"), sp) ])))
        else pure rec2
    | _ => .error .attributeError
  pySetdefault rec3 kSus (.list [.str (strL ("AI-recommended for your location"))])

/-- `enhance_recommendations_for_ui(recommendations)` from
gemini_api.py.  The argument is always truthy at the call site; iterating
a truthy non-list raises on its first element (`.setdefault` on a string
key / character, or a TypeError for non-iterables). -/
def enhance_recommendations_for_ui (recs : PyVal) : Except PyErr (List PyVal) :=
  match recs with
  | .list l => mapE enhanceRecGemini l
  | .dict _ => .error .attributeError
  | .str _ => .error .attributeError
  | _ => .error .typeError

/-- The `for attempt in range(3)` repair loop inside
`parse_enhanced_gemini_response`; the first argument counts remaining
iterations.  `ok Option.none` models falling out of the loop, after which
the Python function implicitly returns `None`.  On the last iteration a
parse failure returns the partial extraction of the cleaned text, and an
earlier failure rewrites the JSON string with `fix_json_error`; non-JSON
errors (from `data.get` or the UI enhancement) escape to the caller's
`except` clause. -/
def geminiAttempts : Nat → Str → Str → Except PyErr (Option (List PyVal))
  | 0, _, _ => .ok Option.none
  | n + 1, js, ct =>
      match json_loads js with
      | .ok data => do
          let recs ← pyGetD data kRecs (.list [])
          if truthy recs then do
            let l ← enhance_recommendations_for_ui recs
            pure (some l)
          else geminiAttempts n js ct
      | .error e =>
          if 0 < n then geminiAttempts n (fix_json_error js e) ct
          else .ok (some (gemini_extract_partial_recommendations ct))

/-- `parse_enhanced_gemini_response(response_text)` from gemini_api.py.
The result is an `Option` because the Python function implicitly returns
`None` when the parsed JSON repeatedly yields no recommendations; every
exception is caught by the outer `try` and answered with
`extract_partial_recommendations(response_text)`. -/
def cleanupFences (s : Str) : Str :=
  let ct0 := stripS s
  let ct1 := if begins ct0 (strL ("```json")) then ct0.drop 7 else ct0
  let ct2 := if begins ct1 (strL ("```")) then ct1.drop 3 else ct1
  let ct3 := if ends ct2 (strL ("```")) then ct2.take (ct2.length - 3) else ct2
  stripS ct3

/-- The body of the outer `try` of `parse_enhanced_gemini_response`,
applied to the fence-stripped text. -/
def geminiInner (ct : Str) : Except PyErr (Option (List PyVal)) :=
  match stage2Extract '\x7b' '\x7d' ct with
  | some js0 => geminiAttempts 3 (clean_json_string js0) ct
  | Option.none => .ok (some (gemini_extract_partial_recommendations ct))

def parse_enhanced_gemini_response (responseText : Str) : Option (List PyVal) :=
  match geminiInner (cleanupFences responseText) with
  | .ok r => r
  | .error _ => some (gemini_extract_partial_recommendations responseText)

/-! ### src/api/local_api.py -/

def kSeedling : Str := strL ("seedling")
def kSeedlingStage : Str := strL ("seedling_stage")
def kMature : Str := strL ("mature")
def kMaturePlant : Str := strL ("mature_plant")
def kDailyHours : Str := strL ("daily_hours")
def kDHN : Str := strL ("daily_hours_needed")
def kTypeKey : Str := strL ("type")
def kLightInt : Str := strL ("light_intensity")
def kBestMonths : Str := strL ("best_months")
def kCanPlantNow : Str := strL ("can_plant_now")
def kPWJust : Str := strL ("planting_window_justification")
def kPWMit : Str := strL ("planting_mitigation_steps")

/-- Anchored matcher giving the text of group 1 of
`(\d+(?:\.\d+)?)\s*(?:liters?|l)`. -/
def litersNumTextAt (s : Str) : Option Str :=
  (numCand s).firstM fun (txt, _, rest) =>
    if [strL ("liters"), strL ("liter"), strL ("l")].any
        (fun a => begins (dropWs rest) a) then some txt else Option.none

/-- `frequency_to_liters(text, plant_type, stage)` from local_api.py.
Raises (AttributeError) when `plant_type` is truthy but not a string,
because of `(plant_type or '').lower()`. -/
def frequency_to_liters (text : Str) (plantType : PyVal) (stage : Str) :
    Except PyErr Str :=
  if text.isEmpty then .ok (strL ("25-40 liters per week"))
  else do
    let t := lowerS text
    let p ←
      match pyOr plantType (.str []) with
      | .str s => Except.ok (lowerS s)
      | _ => Except.error PyErr.attributeError
    match scanFirst litersNumTextAt t with
    | some numText => .ok (numText ++ strL (" liters per week"))
    | Option.none =>
        let (sDaily, sAlt, sWeekly, mWeekly, mWeeklySmall) :
            (Str × Str × Str × Str × Str) :=
          if containsSub p (strL ("tree")) then
            (strL ("35 liters per week"), strL ("20 liters per week"),
             strL ("20-30 liters per week"), strL ("80-150 liters per week"),
             strL ("30-60 liters per week"))
          else if containsSub p (strL ("crop")) then
            (strL ("10 liters per week"), strL ("6 liters per week"),
             strL ("6-10 liters per week"), strL ("10-40 liters per week"),
             strL ("5-15 liters per week"))
          else
            (strL ("7 liters per week"), strL ("4 liters per week"),
             strL ("3-7 liters per week"), strL ("10-25 liters per week"),
             strL ("3-10 liters per week"))
        if containsSub t (strL ("daily")) || containsSub t (strL ("every day")) then
          .ok (if begins stage (strL ("seed")) then sDaily else mWeekly)
        else if containsSub t (strL ("alternate")) || containsSub t (strL ("every other")) then
          .ok (if begins stage (strL ("seed")) then sAlt else mWeeklySmall)
        else if containsSub t (strL ("weekly")) || containsSub t (strL ("once a week")) then
          .ok (if begins stage (strL ("seed")) then sWeekly else mWeeklySmall)
        else if containsSub t (strL ("monthly")) then
          .ok (strL ("5-10 liters per week"))
        else
          .ok mWeekly

/-- The structured-keys replacement for a string-valued `water` in
`normalize_recommendation_fields`. -/
def buildWaterFromStr (w : Str) : List (Str × PyVal) :=
  let seedling : Str :=
    if containsSub (lowerS w) (strL ("daily")) then strL ("7 liters per week")
    else strL ("5-10 liters per week")
  [ (kSeedlingStage, .str seedling),
    (kMaturePlant, .str (strL ("25-40 liters per week"))),
    (strL ("dry_season_adjustment"), .str (strL ("Add 10-15 liters per week"))),
    (strL ("monsoon_reduction"), .str (strL ("Reduce to 10-20 liters per week"))) ]

/-- `any(word in val.lower() for word in ['daily','weekly','alternate','every'])`. -/
def hasFreqTrigger (vs : Str) : Bool :=
  let lv := lowerS vs
  containsSub lv (strL ("daily")) || containsSub lv (strL ("weekly"))
    || containsSub lv (strL ("alternate")) || containsSub lv (strL ("every"))

/-- The `for key in list(water.keys())` conversion loop of
`normalize_recommendation_fields`. -/
def waterFreqLoop (plantType : PyVal) : List Str → List (Str × PyVal) →
    Except PyErr (List (Str × PyVal))
  | [], w => .ok w
  | k :: ks, w =>
      match dGet w k .none with
      | .str vs =>
          if hasFreqTrigger vs then do
            let st := if containsSub k (strL ("seed")) then strL ("seed") else strL ("mature")
            let conv ← frequency_to_liters vs plantType st
            waterFreqLoop plantType ks (dSet w k (.str conv))
          else waterFreqLoop plantType ks w
      | _ => waterFreqLoop plantType ks w

/-- Key renaming, defaulting, and frequency conversion applied to the
`water` dict by `normalize_recommendation_fields` (source lines 517-540). -/
def wSteps (w0 : List (Str × PyVal)) : List (Str × PyVal) :=
  let w := if dHasKey w0 kSeedling && !(dHasKey w0 kSeedlingStage)
           then dSet (dRemove w0 kSeedling) kSeedlingStage (dGet w0 kSeedling .none)
           else w0
  let w := if dHasKey w kMature && !(dHasKey w kMaturePlant)
           then dSet (dRemove w kMature) kMaturePlant (dGet w kMature .none)
           else w
  let w := if !truthy (dGet w kSeedlingStage .none) && truthy (dGet w kSeedling .none)
           then dSet w kSeedlingStage
             (pyOr (dGet w kSeedling .none) (.str (strL ("5-10 liters per week"))))
           else w
  let w := if !truthy (dGet w kSeedlingStage .none)
           then dSet w kSeedlingStage (.str (strL ("5-10 liters per week")))
           else w
  let w := if !truthy (dGet w kMaturePlant .none) && truthy (dGet w kMature .none)
           then dSet w kMaturePlant
             (pyOr (dGet w kMature .none) (.str (strL ("25-40 liters per week"))))
           else w
  if !truthy (dGet w kMaturePlant .none)
  then dSet w kMaturePlant (.str (strL ("25-40 liters per week")))
  else w

def normWaterSteps (w0 : List (Str × PyVal)) (plantType : PyVal) :
    Except PyErr (List (Str × PyVal)) :=
  waterFreqLoop plantType ((wSteps w0).map Prod.fst) (wSteps w0)

/-- The structured-keys replacement for a string-valued `sun`. -/
def buildSunFromStr (s : Str) : List (Str × PyVal) :=
  let ls := lowerS s
  [ (kDHN, .str (if containsSub ls (strL ("full")) then strL ("6-8 hours") else strL ("4-6 hours"))),
    (kLightInt, .str (if containsSub ls (strL ("full")) then strL ("Full Sun") else strL ("Partial Sun"))),
    (strL ("optimal_direction"), .str (strL ("South facing"))) ]

/-- Key renaming and defaulting applied to the `sun` dict by
`normalize_recommendation_fields` (source lines 556-568). -/
def normSunSteps (s0 : List (Str × PyVal)) : List (Str × PyVal) :=
  let s := if dHasKey s0 kDailyHours && !(dHasKey s0 kDHN)
           then dSet (dRemove s0 kDailyHours) kDHN (dGet s0 kDailyHours .none)
           else s0
  let s := if dHasKey s kTypeKey && !(dHasKey s kLightInt)
           then dSet (dRemove s kTypeKey) kLightInt (dGet s kTypeKey .none)
           else s
  let s := if !truthy (dGet s kDHN .none) then
             (if dHasKey s kDailyHours then
                dSet s kDHN (pyOr (dGet s kDailyHours .none) (.str (strL ("6-8 hours"))))
              else dSet s kDHN (.str (strL ("6-8 hours"))))
           else s
  if !truthy (dGet s kLightInt .none)
  then dSet s kLightInt (.str (strL ("Full Sun")))
  else s

/-- The default `planting_window` synthesized by
`normalize_recommendation_fields`. -/
def defaultPW : PyVal :=
  .dict
    [ (kBestMonths, .list [.str (strL ("June")), .str (strL ("July")), .str (strL ("August"))]),
      (kCanPlantNow, .bool true),
      (kPWJust, .str (strL ("Default monsoon window for India."))),
      (kPWMit, .str (strL ("Use container seedlings, mulch, and supplemental irrigation when off-window."))) ]

/-- Is the value a dict (`isinstance(v, dict)`)? -/
def isDictV : PyVal → Bool
  | .dict _ => true
  | _ => false

/-- `normalize_recommendation_fields(rec)` from local_api.py.  In-place
mutation of the chosen source dict is modelled by writing the normalized
dict back to the alias key (`water_needs` / `sunlight`) whenever that key
held the (truthy) dict that was normalized; a string source produces a
fresh dict, leaving the alias key untouched.  A truthy source that is
neither a string nor a dict raises (TypeError from `in` / `pop`, or
AttributeError from `.get`), as in Python.

A value that the frequency-conversion loop leaves untouched: a
non-string, or a string with none of the trigger words. -/
def noTrigV : PyVal → Bool
  | .str vs => !hasFreqTrigger vs
  | _ => true

/-- The water half of `normalize_recommendation_fields` (source lines
504-546): source selection by `water_needs or water_requirements or
{}`, strings rebuilt into a structured dict, dicts normalized in
place (written back to the alias key too, because Python mutates the
shared dict). -/
def normWater (r0 : List (Str × PyVal)) : Except PyErr (List (Str × PyVal)) := do
  let plantType := dGet r0 kPlantType (.str (strL ("plant")))
  match pyOr (dGet r0 kWaterNeeds .none) (pyOr (dGet r0 kWaterReq .none) (.dict [])) with
  | .str ws => do
      let w ← normWaterSteps (buildWaterFromStr ws) plantType
      pure (dSet r0 kWaterReq (.dict w))
  | .dict wd => do
      let w ← normWaterSteps wd plantType
      let r := dSet r0 kWaterReq (.dict w)
      pure (if truthy (dGet r0 kWaterNeeds .none)
        then dSet r kWaterNeeds (.dict w) else r)
  | _ => Except.error PyErr.typeError

/-- The sunlight half of `normalize_recommendation_fields` (source lines
548-572). -/
def normSun (r1 : List (Str × PyVal)) : Except PyErr (List (Str × PyVal)) :=
  match pyOr (dGet r1 kSunAlt .none) (pyOr (dGet r1 kSunReq .none) (.dict [])) with
  | .str ss => .ok (dSet r1 kSunReq (.dict (normSunSteps (buildSunFromStr ss))))
  | .dict sd =>
      let s := normSunSteps sd
      let r := dSet r1 kSunReq (.dict s)
      .ok (if truthy (dGet r1 kSunAlt .none)
        then dSet r kSunAlt (.dict s) else r)
  | _ => Except.error PyErr.typeError

/-- The planting-window default of `normalize_recommendation_fields`
(source lines 574-579). -/
def normPW (r2 : List (Str × PyVal)) : List (Str × PyVal) :=
  if !(dHasKey r2 kPW) || !(isDictV (dGet r2 kPW .none))
  then dSet r2 kPW defaultPW
  else r2

def normalize_recommendation_fields (rec : PyVal) : Except PyErr PyVal := do
  match rec with
  | .dict r0 => do
      let r1 ← normWater r0
      let r2 ← normSun r1
      pure (.dict (normPW r2))
  | _ => .error .attributeError

/-- `v.replace(' apart', '')`: only strings have `.replace`. -/
def replApart : PyVal → Except PyErr Str
  | .str s => .ok (pyReplace s (strL (" apart")) (strL ("")))
  | _ => .error .attributeError

/-- Collect string items of a joined iterable (TypeError otherwise). -/
def allStrs : List PyVal → Except PyErr (List Str)
  | [] => .ok []
  | .str s :: rest =>
      (match allStrs rest with
       | .ok l => .ok (s :: l)
       | .error e => .error e)
  | _ :: _ => .error .typeError

/-- Join strings with a separator. -/
def joinSep (sep : Str) : List Str → Str
  | [] => []
  | [s] => s
  | s :: t :: rest => s ++ sep ++ joinSep sep (t :: rest)

/-- Python `', '.join(v)`: joins list items (TypeError on non-string
items); a string joins its characters; a dict joins its keys. -/
def joinComma : PyVal → Except PyErr Str
  | .list items =>
      (match allStrs items with
       | .ok l => .ok (joinSep (strL (", ")) l)
       | .error e => .error e)
  | .str s => .ok (joinSep (strL (", ")) (s.map (fun c => [c])))
  | .dict d => .ok (joinSep (strL (", ")) (d.map (fun kv => kv.1)))
  | _ => .error .typeError

/-- The per-record body of `enhance_local_recommendations_for_ui`
(local_api.py, lines 729-864). -/
def enhanceRecLocal (rec : PyVal) : Except PyErr PyVal := do
  let waterNeeds0 ← do
    let a ← pyGet rec kWaterReq
    let b ← pyGetD rec kWaterNeeds (.dict [])
    pure (pyOr a b)
  let waterNeeds : PyVal :=
    match waterNeeds0 with
    | .str _ => .dict
        [ (kSeedlingStage, .str (strL ("5-10 liters per week"))),
          (kMaturePlant, .str (strL ("25-40 liters per week"))),
          (strL ("dry_season_adjustment"), .str (strL ("Add 10-15 liters per week"))),
          (strL ("monsoon_reduction"), .str (strL ("Reduce to 10-20 liters per week"))) ]
    | w => w
  let sunlight0 ← do
    let a ← pyGet rec kSunReq
    let b ← pyGetD rec kSunAlt (.dict [])
    pure (pyOr a b)
  let sunlight : PyVal :=
    match sunlight0 with
    | .str s => .dict
        [ (kDHN, .str (if containsSub (lowerS s) (strL ("full")) then strL ("6-8 hours") else strL ("4-6 hours"))),
          (kLightInt, .str (if containsSub (lowerS s) (strL ("full")) then strL ("Full Sun") else strL ("Partial Sun"))),
          (strL ("optimal_direction"), .str (strL ("South facing"))) ]
    | s => s
  let sci ← pyGetD rec kSci (.str (strL ("Unknown Species")))
  let com ← pyGetD rec kCommon (.str (strL ("Unknown Plant")))
  let loc ← pyGetD rec kLocal (.str (strL ("स्थानीय नाम अज्ञात")))
  let pty ← pyGetD rec kPlantType (.str (strL ("Tree")))
  let fam ← pyGetD rec (strL ("family")) (.str (strL ("Plant Family")))
  let score ← pyGetD rec (strL ("suitability_score")) (.num (pnInt 8))
  let wnMature ← pyGetD waterNeeds kMature (.str (strL ("25-40 liters per week")))
  let sunDH ← pyGetD sunlight kDailyHours (.str (strL ("6-8 hours")))
  let wnSeedling ← pyGetD waterNeeds kSeedling (.str (strL ("5-10 liters per week for first 6 months")))
  let wnMatureP ← pyGetD waterNeeds kMature (.str (strL ("25-40 liters per week for mature plants")))
  let wnDry ← pyGetD waterNeeds (strL ("dry_season")) (.str (strL ("Add 10-15 liters per week during summer")))
  let wnMonsoon ← pyGetD waterNeeds (strL ("monsoon")) (.str (strL ("Reduce to 10-20 liters per week during monsoon")))
  let sunType ← pyGetD sunlight kTypeKey (.str (strL ("Full Sun")))
  let sunDir ← pyGetD sunlight (strL ("best_direction")) (.str (strL ("South facing recommended")))
  let mh ← pyGetD rec (strL ("mature_height")) (.str (strL ("3-5 meters")))
  let spacing1 ← pyGetD rec (strL ("spacing")) (.str (strL ("3 meters")))
  let spreadBase ← replApart spacing1
  let gr ← pyGetD rec (strL ("growth_rate")) (.str (strL ("Medium growth rate")))
  let spacing2 ← pyGetD rec (strL ("spacing")) (.str (strL ("3 meters apart")))
  let benefitsDflt ← pyGetD rec (strL ("benefits"))
    (.list [.str (strL ("Air purification")), .str (strL ("Carbon absorption")), .str (strL ("Oxygen production"))])
  let spacing3 ← pyGetD rec (strL ("spacing")) (.str (strL ("3 meter spacing")))
  let wnMatDeep ← do
    let inner ← pyGetD waterNeeds kMature (.str (strL ("15-20 liters")))
    pyGetD waterNeeds kMaturePlant inner
  let wnSeedDeep ← do
    let inner ← pyGetD waterNeeds kSeedling (.str (strL ("5-10 liters")))
    pyGetD waterNeeds kSeedlingStage inner
  let wpSeed ← do
    let inner ← pyGetD waterNeeds kSeedling (.str (strL ("5-10 liters per week")))
    pyGetD waterNeeds kSeedlingStage inner
  let wpMat ← do
    let inner ← pyGetD waterNeeds kMature (.str (strL ("25-40 liters per week")))
    pyGetD waterNeeds kMaturePlant inner
  let wpDry ← do
    let inner ← pyGetD waterNeeds (strL ("dry_season")) (.str (strL ("add 10-15L/week")))
    pyGetD waterNeeds (strL ("dry_season_adjustment")) inner
  let wpMon ← do
    let inner ← pyGetD waterNeeds (strL ("monsoon")) (.str (strL ("reduce to 10-20L/week")))
    pyGetD waterNeeds (strL ("monsoon_reduction")) inner
  let msSeed ← pyGetD waterNeeds kSeedling (.str (strL ("1-2 liters")))
  let msMat ← pyGetD waterNeeds kMature (.str (strL ("25-40 liters")))
  let cost ← pyGetD rec (strL ("initial_cost")) (.str (strL ("₹50-200 per plant")))
  let ugaDH ← pyGetD sunlight kDailyHours (.str (strL ("6-8 hours")))
  let ugaMat ← pyGetD waterNeeds kMature (.str (strL ("moderate water")))
  let benefitsRaw ← pyGet rec (strL ("benefits"))
  let addUses ←
    if truthy benefitsRaw then do
      let b ← pyGetD rec (strL ("benefits")) (.list [])
      let j ← joinComma b
      pure (PyVal.str j)
    else pure (PyVal.str (strL ("Multiple environmental and aesthetic benefits")))
  let enhanced : List (Str × PyVal) :=
    [ (kSci, sci),
      (kCommon, com),
      (kLocal, loc),
      (kPlantType, pty),
      (strL ("family"), fam),
      (strL ("suitability_score"), .str (pyStrOf score ++ strL ("/10"))),
      (strL ("suitability_analysis"), .str (strL ("This ") ++ pyStrOf com
        ++ strL (" is well-suited for your environmental conditions, requiring ")
        ++ pyStrOf wnMature ++ strL (" water when mature and ") ++ pyStrOf sunDH
        ++ strL (" of daily sunlight."))),
      (kEnvScore, score),
      (kWaterReq, .dict
        [ (kSeedlingStage, wnSeedling),
          (strL ("young_plant"), .str (strL ("15-25 liters per week for young plants"))),
          (kMaturePlant, wnMatureP),
          (strL ("dry_season_adjustment"), wnDry),
          (strL ("monsoon_reduction"), wnMonsoon),
          (strL ("water_conservation_methods"), .str (strL ("Drip irrigation: 2-4 liters/hour, Mulching: 5cm deep, Rainwater harvesting recommended"))) ]),
      (kSunReq, .dict
        [ (kDHN, sunDH),
          (kLightInt, sunType),
          (strL ("optimal_direction"), sunDir),
          (strL ("shade_tolerance"), .str (strL ("Can tolerate 1-2 hours less sunlight if needed"))),
          (strL ("seasonal_adjustments"), .str (strL ("May need partial shade during peak summer (12-3 PM)"))) ]),
      (kAq, .dict
        [ (strL ("pollution_reduction"), .str (strL ("PM2.5, dust particles, CO2"))),
          (strL ("co2_absorption"), .str (strL ("25-50 kg per year"))),
          (strL ("oxygen_production"), .str (strL ("20-40 liters per day"))),
          (strL ("aqi_improvement"), .str (strL ("Moderate to significant improvement"))) ]),
      (kGrowth, .dict
        [ (strL ("mature_height"), mh),
          (strL ("mature_spread"), .str (spreadBase ++ strL (" canopy spread"))),
          (strL ("growth_rate"), gr),
          (strL ("lifespan"), .str (strL ("15-30 years"))),
          (strL ("space_requirements"), .str (pyStrOf spacing2 ++ strL (" minimum spacing"))) ]),
      (kSus, benefitsDflt),
      (strL ("plantation_guide"), .dict
        [ (strL ("best_season"), .str (strL ("Monsoon season (June-September) or post-monsoon (October-November)"))),
          (strL ("soil_preparation"), .str (strL ("Dig pit 60x60x60cm, mix 5kg compost, suitable for ")
            ++ pyStrOf pty ++ strL (" planting"))),
          (strL ("planting_method"), .str (strL ("Plant with ") ++ pyStrOf spacing3
            ++ strL (", water immediately with ") ++ pyStrOf wnMatDeep)),
          (strL ("initial_care"), .str (strL ("Water with ") ++ pyStrOf wnSeedDeep
            ++ strL (" during establishment (first 4 weeks)"))) ]),
      (strL ("watering_patterns"), .dict
        [ (kSeedlingStage, .str (pyStrOf wpSeed ++ strL (" during establishment"))),
          (strL ("young_plant"), .str (strL ("15-25 liters per week for young plants"))),
          (kMaturePlant, .str (pyStrOf wpMat ++ strL (" for mature plants"))),
          (strL ("seasonal_variations"), .str (strL ("Summer: ") ++ pyStrOf wpDry
            ++ strL (", Monsoon: ") ++ pyStrOf wpMon)) ]),
      (strL ("maintenance_schedule"), .dict
        [ (strL ("daily"), .str (strL ("Check soil moisture, water if needed with ")
            ++ pyStrOf msSeed ++ strL (" during first month"))),
          (strL ("weekly"), .str (strL ("Deep watering with ") ++ pyStrOf msMat
            ++ strL (" for mature plants"))),
          (strL ("monthly"), .str (strL ("Pruning if needed, fertilizer application, pest inspection"))),
          (strL ("seasonal"), .str (strL ("Adjust watering based on monsoon/dry season, seasonal pruning"))),
          (strL ("annual"), .str (strL ("Major health assessment, soil amendment, structural pruning"))) ]),
      (strL ("economic_benefits"), .dict
        [ (strL ("initial_cost"), cost),
          (strL ("maintenance_cost_annual"), .str (strL ("₹100-500 per plant per year"))),
          (strL ("economic_returns"), .str (strL ("Environmental benefits, potential fruit/timber value"))),
          (strL ("property_value_impact"), .str (strL ("2-5% increase in property value"))),
          (strL ("long_term_savings"), .str (strL ("Reduced air conditioning costs, health benefits"))) ]),
      (strL ("user_goal_alignment"), .str (strL ("This ") ++ pyStrOf com
        ++ strL (" aligns perfectly with your environmental goals, requiring specific care of ")
        ++ pyStrOf ugaDH ++ strL (" daily sunlight and ") ++ pyStrOf ugaMat
        ++ strL (" for optimal growth and maximum environmental benefits."))),
      (strL ("additional_uses"), addUses),
      (strL ("companion_plants"), .str (strL ("Compatible with other native species in mixed plantation schemes"))) ]
  let pw0 ← pyGet rec kPW
  let pw ←
    if truthy pw0 then pure pw0
    else do
      let pg ← pyGetD rec (strL ("plantation_guide")) (.dict [])
      let bs : PyVal ←
        match pg with
        | .dict pgd => pure (dGet pgd (strL ("best_season")) (.str []))
        | _ => pure (.str [])
      let bm : List Str :=
        match bs with
        | .str bss =>
            if containsSub (lowerS bss) (strL ("monsoon")) then
              [strL ("June"), strL ("July"), strL ("August"), strL ("September")]
            else if containsSub (lowerS bss) (strL ("post-monsoon")) then
              [strL ("October"), strL ("November")]
            else if containsSub (lowerS bss) (strL ("winter")) then
              [strL ("December"), strL ("January"), strL ("February")]
            else [strL ("June"), strL ("July"), strL ("August")]
        | _ => [strL ("June"), strL ("July"), strL ("August")]
      pure (PyVal.dict
        [ (kBestMonths, .list (bm.map PyVal.str)),
          (kCanPlantNow, .bool true),
          (kPWJust, .str (strL ("Defaulted to ") ++ joinPyStrs (strL (", ")) (bm.map PyVal.str)
            ++ strL (" based on common regional planting windows."))),
          (kPWMit, .str (strL ("If off-window, use container seedlings, mulching and increased watering during establishment."))) ])
  pure (.dict (dSet enhanced kPW pw))

/-- `enhance_local_recommendations_for_ui(recommendations)` from
local_api.py (the argument is a non-empty Python list at every call
site). -/
def enhance_local_recommendations_for_ui (recs : List PyVal) :
    Except PyErr (List PyVal) :=
  mapE enhanceRecLocal recs

/-- `create_fallback_recommendations()` from local_api.py (Neem and
Peepal, fully populated). -/
def local_create_fallback_recommendations : List PyVal :=
  [ .dict
    [ (kSci, .str (strL ("Azadirachta indica"))),
      (kCommon, .str (strL ("Neem Tree"))),
      (kLocal, .str (strL ("नीम (Neem)"))),
      (kPlantType, .str (strL ("Tree"))),
      (strL ("family"), .str (strL ("Meliaceae"))),
      (strL ("suitability_score"), .str (strL ("9/10"))),
      (strL ("suitability_analysis"), .str (strL ("Excellent drought-tolerant tree, perfect for Indian climate with specific water needs of 40-60 liters per week when mature and 6-8 hours of daily sunlight."))),
      (kEnvScore, .num (pnInt 9)),
      (kWaterReq, .dict
        [ (kSeedlingStage, .str (strL ("10-15 liters per week for first 6 months"))),
          (strL ("young_plant"), .str (strL ("20-30 liters per week for 6 months to 2 years"))),
          (kMaturePlant, .str (strL ("40-60 liters per week when fully grown"))),
          (strL ("dry_season_adjustment"), .str (strL ("Add 15-20 liters per week during summer"))),
          (strL ("monsoon_reduction"), .str (strL ("Reduce to 15-25 liters per week during rains"))),
          (strL ("water_conservation_methods"), .str (strL ("Drip irrigation: 3-5 liters/hour, Mulching: 5cm deep, Rainwater harvesting highly effective"))) ]),
      (kSunReq, .dict
        [ (kDHN, .str (strL ("6-8 hours"))),
          (kLightInt, .str (strL ("Full Sun"))),
          (strL ("optimal_direction"), .str (strL ("South facing preferred"))),
          (strL ("shade_tolerance"), .str (strL ("Can tolerate 2 hours less sunlight if needed"))),
          (strL ("seasonal_adjustments"), .str (strL ("Thrives in high summer sun, no shade protection needed"))) ]),
      (kAq, .dict
        [ (strL ("pollution_reduction"), .str (strL ("PM2.5, SO2, NO2, dust particles"))),
          (strL ("co2_absorption"), .str (strL ("48 kg/year"))),
          (strL ("oxygen_production"), .str (strL ("260 liters/day"))),
          (strL ("aqi_improvement"), .str (strL ("Significant improvement (5-10 points)"))) ]),
      (kGrowth, .dict
        [ (strL ("mature_height"), .str (strL ("15-20 meters"))),
          (strL ("mature_spread"), .str (strL ("8-12 meters canopy"))),
          (strL ("growth_rate"), .str (strL ("Fast (2-3 meters per year)"))),
          (strL ("lifespan"), .str (strL ("50-100 years"))),
          (strL ("space_requirements"), .str (strL ("25-36 sq meters per tree (5-6 meters spacing)"))) ]),
      (kSus, .list [.str (strL ("Natural pesticide properties")), .str (strL ("Medicinal uses")),
        .str (strL ("Fast growing")), .str (strL ("Extreme drought tolerance"))]),
      (kPW, .dict
        [ (kBestMonths, .list [.str (strL ("June")), .str (strL ("July")), .str (strL ("August"))]),
          (kCanPlantNow, .bool true),
          (kPWJust, .str (strL ("Monsoon months are best for establishment in most Indian regions."))),
          (kPWMit, .str (strL ("Use container seedlings, mulch heavily and provide supplemental watering if planting off-window."))) ]) ],
    .dict
    [ (kSci, .str (strL ("Ficus religiosa"))),
      (kCommon, .str (strL ("Peepal Tree"))),
      (kLocal, .str (strL ("पीपल (Peepal)"))),
      (kPlantType, .str (strL ("Tree"))),
      (strL ("family"), .str (strL ("Moraceae"))),
      (strL ("suitability_score"), .str (strL ("8.5/10"))),
      (strL ("suitability_analysis"), .str (strL ("Sacred tree with excellent air purification capabilities requiring 60-100 liters per week when mature and 6-8 hours of daily sunlight. Releases oxygen even at night."))),
      (kEnvScore, .num (pnInt 9)),
      (kWaterReq, .dict
        [ (kSeedlingStage, .str (strL ("15-20 liters per week for first 6 months"))),
          (strL ("young_plant"), .str (strL ("30-50 liters per week for young trees"))),
          (kMaturePlant, .str (strL ("60-100 liters per week when fully grown"))),
          (strL ("dry_season_adjustment"), .str (strL ("Add 20-30 liters per week during summer"))),
          (strL ("monsoon_reduction"), .str (strL ("Reduce to 20-40 liters per week during rains"))),
          (strL ("water_conservation_methods"), .str (strL ("Deep root watering, 6cm mulch layer, collect rainwater for dry season use"))) ]),
      (kSunReq, .dict
        [ (kDHN, .str (strL ("6-8 hours"))),
          (kLightInt, .str (strL ("Full Sun"))),
          (strL ("optimal_direction"), .str (strL ("South or East facing preferred"))),
          (strL ("shade_tolerance"), .str (strL ("Can tolerate 1-2 hours less sunlight"))),
          (strL ("seasonal_adjustments"), .str (strL ("Benefits from morning sun exposure"))) ]),
      (kAq, .dict
        [ (strL ("pollution_reduction"), .str (strL ("PM2.5, CO, dust, SO2"))),
          (strL ("co2_absorption"), .str (strL ("50 kg/year"))),
          (strL ("oxygen_production"), .str (strL ("300 liters/day (including nighttime)"))),
          (strL ("aqi_improvement"), .str (strL ("High improvement (8-15 points)"))) ]),
      (kGrowth, .dict
        [ (strL ("mature_height"), .str (strL ("20-25 meters"))),
          (strL ("mature_spread"), .str (strL ("12-15 meters canopy"))),
          (strL ("growth_rate"), .str (strL ("Medium (1-2 meters per year)"))),
          (strL ("lifespan"), .str (strL ("100-200 years"))),
          (strL ("space_requirements"), .str (strL ("64-100 sq meters per tree (8-10 meters spacing)"))) ]),
      (kSus, .list [.str (strL ("24-hour oxygen production")), .str (strL ("Sacred cultural significance")),
        .str (strL ("Wildlife habitat support")), .str (strL ("Exceptionally long-lived"))]),
      (kPW, .dict
        [ (kBestMonths, .list [.str (strL ("June")), .str (strL ("July")), .str (strL ("August"))]),
          (kCanPlantNow, .bool true),
          (kPWJust, .str (strL ("Monsoon months are generally ideal for tree establishment in India."))),
          (kPWMit, .str (strL ("If planting outside monsoon, use irrigation and shade nets for establishment."))) ]) ] ]

/-- One synthesized record of `extract_partial_recommendations`
(local_api.py) for index `i` (0-based). -/
def localPartialRec (sci com loc : List Str) (i : Nat) : PyVal :=
  .dict
    [ (kSci, .str (sci.getD i (strL ("Plant Species ") ++ natRender (i + 1)))),
      (kCommon, .str (com.getD i (strL ("Common Plant ") ++ natRender (i + 1)))),
      (kLocal, .str (loc.getD i (strL ("स्थानीय पौधा ") ++ natRender (i + 1)))),
      (kPlantType, .str (strL ("Tree"))),
      (strL ("family"), .str (strL ("Plant Family"))),
      (strL ("suitability_score"), .str (strL ("8/10"))),
      (strL ("suitability_analysis"), .str (strL ("This plant is well-suited for your environmental conditions based on local climate analysis."))),
      (kWaterReq, .dict
        [ (kSeedlingStage, .str (strL ("5-10 liters per week"))),
          (kMaturePlant, .str (strL ("25-40 liters per week"))),
          (strL ("dry_season_adjustment"), .str (strL ("Add 10-15 liters per week"))),
          (strL ("monsoon_reduction"), .str (strL ("Reduce to 10-15 liters per week"))) ]),
      (kSunReq, .dict
        [ (kDHN, .str (strL ("6-8 hours"))),
          (kLightInt, .str (strL ("Full Sun"))),
          (strL ("optimal_direction"), .str (strL ("South facing"))) ]),
      (kAq, .dict
        [ (strL ("pollution_reduction"), .str (strL ("PM2.5, dust particles"))),
          (strL ("co2_absorption"), .str (strL ("25 kg/year"))),
          (strL ("oxygen_production"), .str (strL ("20 liters/day"))),
          (strL ("aqi_improvement"), .str (strL ("Moderate improvement"))) ]),
      (kGrowth, .dict
        [ (strL ("growth_rate"), .str (strL ("Medium"))),
          (strL ("mature_height"), .str (strL ("3-5 meters"))),
          (strL ("spacing_requirements"), .str (strL ("2-3 meters apart"))) ]),
      (kSus, .list [.str (strL ("Good air purification")), .str (strL ("Low maintenance")),
        .str (strL ("Native species"))]),
      (kPW, .dict
        [ (kBestMonths, .list [.str (strL ("June")), .str (strL ("July")), .str (strL ("August"))]),
          (kCanPlantNow, .bool true),
          (kPWJust, .str (strL ("Monsoon window in India is typically best for establishment"))),
          (kPWMit, .str (strL ("If off-window, use container-grown seedlings, mulch and increased watering for 4-6 weeks."))) ]) ]

/-- `extract_partial_recommendations(text)` from local_api.py. -/
def local_extract_partial_recommendations (text : Str) : List PyVal :=
  let sci := findAllField kSci (text.length + 1) text
  let com := findAllField kCommon (text.length + 1) text
  let loc := findAllField kLocal (text.length + 1) text
  let recs := (List.range (Nat.min sci.length 5)).map (localPartialRec sci com loc)
  if recs.isEmpty then local_create_fallback_recommendations else recs

/-- `fix_json_error(json_str, error)` from local_api.py (differs from the
gemini version: negative brace balances append nothing, and the
`Expecting` family is repaired by message inspection). -/
def local_fix_json_error (js : Str) (e : PyErr) : Str :=
  let (msg, pos) := errMsgPos e
  if containsSub msg (strL ("Extra data")) then
    let t := js.take pos
    let bc : ℤ := (t.count '\x7b' : ℤ) - (t.count '\x7d' : ℤ)
    t ++ List.replicate bc.toNat '\x7d'
  else if containsSub msg (strL ("Expecting")) then
    (if containsSub msg (strL (",")) then js.take pos ++ ',' :: js.drop pos
     else if containsSub msg (strL ("\x7d")) then js.take pos ++ '\x7d' :: js.drop pos
     else js)
  else js

/-- The `for rec in recommendations: normalize_recommendation_fields(rec)`
loop on an arbitrary (truthy) value: lists map the normalizer over their
items; iterating a dict or a string feeds strings to the normalizer
(AttributeError); other values are not iterable (TypeError). -/
def normIterLoop : PyVal → Except PyErr PyVal
  | .list l =>
      (match mapE normalize_recommendation_fields l with
       | .ok l' => .ok (.list l')
       | .error e => .error e)
  | .dict _ => .error .attributeError
  | .str _ => .error .attributeError
  | _ => .error .typeError

/-- `enhance_local_recommendations_for_ui` applied to an arbitrary value
(always a list when reached). -/
def enhance_local_any : PyVal → Except PyErr (List PyVal)
  | .list l => enhance_local_recommendations_for_ui l
  | .dict _ => .error .attributeError
  | .str _ => .error .attributeError
  | _ => .error .typeError

/-- The JSON-array branch of `parse_enhanced_local_response`
(local_api.py lines 394-432); `ok Option.none` means fall through to the
object branch. -/
def localArrayBranch (ct : Str) : Except PyErr (Option (List PyVal)) :=
  match stage2Extract '[' ']' ct with
  | Option.none => .ok Option.none
  | some js0 =>
      let js := clean_json_string js0
      match json_loads js with
          | .ok data =>
              (match data with
               | .list l =>
                   if !l.isEmpty then do
                     let l' ← mapE normalize_recommendation_fields l
                     let l2 ← enhance_local_recommendations_for_ui l'
                     pure (some l2)
                   else .ok Option.none
               | _ => .ok Option.none)
          | .error e =>
              (match json_loads (local_fix_json_error js e) with
               | .ok data2 =>
                   (match data2 with
                    | .list l2 =>
                        if !l2.isEmpty then
                          (match enhance_local_recommendations_for_ui l2 with
                           | .ok l3 => .ok (some l3)
                           | .error _ => .ok Option.none)
                        else .ok Option.none
                    | _ => .ok Option.none)
               | .error _ => .ok Option.none)

/-- The JSON-object fallback branch of `parse_enhanced_local_response`
(local_api.py lines 434-463). -/
def localObjectBranch (ct : Str) : Except PyErr (Option (List PyVal)) :=
  match stage2Extract '\x7b' '\x7d' ct with
  | Option.none => .ok Option.none
  | some js0 =>
      let js := clean_json_string js0
      match json_loads js with
          | .error _ => .ok Option.none
          | .ok data => do
              let recs ← pyGetD data kRecs (.list [])
              if truthy recs then do
                let recs' ← normIterLoop recs
                let l2 ← enhance_local_any recs'
                pure (some l2)
              else .ok Option.none

/-- `parse_enhanced_local_response(response_text)` from local_api.py.
Always returns a list; every exception is caught by the outer `try` and
answered with `extract_partial_recommendations(response_text)`. -/
def localInner (ct : Str) : Except PyErr (List PyVal) := do
  let ar ← localArrayBranch ct
  match ar with
  | some l => pure l
  | Option.none => do
      let ob ← localObjectBranch ct
      match ob with
      | some l => pure l
      | Option.none => pure (local_extract_partial_recommendations ct)

def parse_enhanced_local_response (responseText : Str) : List PyVal :=
  match localInner (cleanupFences responseText) with
  | .ok l => l
  | .error _ => local_extract_partial_recommendations responseText

/-- The instruction strings of `get_goal_specific_instructions` in
local_api.py, with the single interpolation `region` replaced by its
only call-site value `India` (`create_concise_local_prompt`, line 270). -/
def goalInstr_cash_crops : Str :=
  strL ("\nFor CASH CROPS in India focus on:\n• High-value commercial crops with strong regional market demand\n")
    ++ strL ("• Fast-growing varieties with multiple harvests per year  \n")
    ++ strL ("• Crops with export potential and value-added processing opportunities\n")
    ++ strL ("• Regional specialties like spices, medicinal plants, and cash crops\n")
    ++ strL ("• Consider storage life, transportation, and local market infrastructure\n")
    ++ strL ("• Emphasize crops with established supply chains and steady pricing\n")
    ++ strL ("• Focus on water-efficient and climate-resilient varieties\n        ")

def goalInstr_food_crops : Str :=
  strL ("\nFor FOOD CROPS in India focus on:\n• Nutritious staples, vegetables, and fruits for household food security\n")
    ++ strL ("• Kitchen garden suitable crops for year-round home consumption\n")
    ++ strL ("• High-yield, nutrient-dense varieties adapted to local conditions\n")
    ++ strL ("• Traditional crops with cultural significance in India\n• Seasonal rotation for continuous food production\n")
    ++ strL ("• Protein-rich legumes and vitamin-rich vegetables\n• Drought-tolerant and disease-resistant varieties\n        ")

def goalInstr_afforestation : Str :=
  strL ("\nFor AFFORESTATION in India focus on:\n• Fast-growing native trees for rapid environmental restoration\n")
    ++ strL ("• Species with excellent air purification and oxygen production\n")
    ++ strL ("• Trees providing shade, erosion control, and biodiversity support\n")
    ++ strL ("• Urban-suitable species with pollution tolerance\n• Multi-purpose trees (timber, fruit, medicinal, fodder)\n")
    ++ strL ("• Carbon sequestration potential and climate adaptation\n")
    ++ strL ("• Traditional agroforestry species integrated with farming\n        ")

/-- `get_goal_specific_instructions(goal_type, region)` from
local_api.py at its only `create_concise_local_prompt` call
(`region = 'India'`): `instructions.get(goal_type,
instructions['afforestation'])`; unhashable keys raise TypeError. -/
def get_goal_specific_instructions_local : PyVal → Except PyErr Str
  | .str s =>
      .ok (if s = strL ("cash_crops") then goalInstr_cash_crops
        else if s = strL ("food_crops") then goalInstr_food_crops
        else if s = strL ("afforestation") then goalInstr_afforestation
        else goalInstr_afforestation)
  | .list _ => .error .typeError
  | .dict _ => .error .typeError
  | _ => .ok goalInstr_afforestation

/-- Python `f"{x:.2f}"` for the coordinate interpolations (rendered by
truncation; the rendering of coordinates lands only in prompt text that
no verified property inspects). -/
def fmt2f (a : PyNum) : Str :=
  let scaled := (a.mul (pnInt 100)).trunc
  let ip : ℤ := scaled / 100
  let fp : ℕ := scaled.natAbs % 100
  intRender ip ++ '.' :: (if fp < 10 then '0' :: natRender fp else natRender fp)

/-- The body of the `prompt` f-string literal of
`create_concise_local_prompt` (local_api.py lines 303-372). -/
def concisePromptText (goalType : PyVal) (envSummary nativeText gi prefText : Str) : Str :=
  strL ("TASK: Recommend exactly 5 plants for ")
    ++ pyStrOf goalType
    ++ strL (" in India.\n\nLOCATION DATA:\n")
    ++ envSummary
    ++ strL ("\n\nREQUIREMENTS:\n- ")
    ++ nativeText
    ++ strL ("\n- ")
    ++ (stripS gi).take 200
    ++ strL ("\n")
    ++ prefText
    ++ strL ("\n\nWATER AMOUNT GUIDELINES (use specific amounts):\n- Large Trees: 80-200L/week mature, 20-50L/week seedling\n")
    ++ strL ("- Medium Trees: 30-80L/week mature, 10-25L/week seedling\n")
    ++ strL ("- Small Trees/Shrubs: 15-40L/week mature, 5-15L/week seedling\n")
    ++ strL ("- Crops: 3-15L/week per plant depending on crop type\n- Herbs/Small plants: 1-5L/week per plant\n")
    ++ strL ("- Potted plants: 0.5-3L/day per plant\n\nSUNLIGHT GUIDELINES (use specific hours):\n- Full sun: 6-8 hours daily\n")
    ++ strL ("- Partial sun: 4-6 hours daily\n- Partial shade: 2-4 hours daily\n- Full shade: <2 hours daily\n\n")
    ++ strL ("SEASONAL SUITABILITY & PLANTING WINDOW (CRITICAL):\n")
    ++ strL ("- For every recommended species include a \"planting_window\" object with:\n")
    ++ strL ("    - \"best_months\": a list of month names (e.g. [\"June\",\"July\"]) representing the optimal planting window for the specified location/region.\n")
    ++ strL ("    - \"can_plant_now\": true/false (boolean). If false, add a one-sentence \"planting_window_justification\" explaining why it's not recommended now and what climate/soil/season constraint prevents planting now.\n")
    ++ strL ("    - If \"can_plant_now\" is false, include a short \"planting_mitigation_steps\" string that explains how to successfully establish the plant off-window (for example: use seedlings, shade nets, staggered watering, raised beds, or suggest the next best months to plant).\n")
    ++ strL ("\nProvide exactly 5 plant recommendations in this JSON format (do not include any extra text):\n[\n    \x7b\n")
    ++ strL ("        \"common_name\": \"Plant Name\",\n        \"local_name\": \"स्थानीय नाम (Local Name)\",\n")
    ++ strL ("        \"scientific_name\": \"Scientific name\",\n        \"plant_type\": \"Tree/Shrub/Crop/Herb/Potted\",\n")
    ++ strL ("        \"family\": \"Plant family\",\n        \"mature_height\": \"X-Y meters\",\n        \"spacing\": \"X meters apart\",\n")
    ++ strL ("\n        \"water_needs\": \x7b\n            \"seedling\": \"X liters per week for first 6 months (numeric liters)\",\n")
    ++ strL ("            \"mature\": \"X liters per week when fully grown (numeric liters)\", \n")
    ++ strL ("            \"dry_season\": \"X liters per week during summer (numeric liters)\",\n")
    ++ strL ("            \"monsoon\": \"X liters per week during rains (numeric liters)\"\n        \x7d,\n\n        \"sunlight\": \x7b\n")
    ++ strL ("            \"daily_hours\": \"X-Y hours direct sunlight (numeric hours)\",\n")
    ++ strL ("            \"type\": \"Full sun/Partial sun/Partial shade/Full shade\",\n")
    ++ strL ("            \"best_direction\": \"South/East/West facing recommended\"\n        \x7d,\n\n        \"planting_window\": \x7b\n")
    ++ strL ("            \"best_months\": [\"Month1\",\"Month2\"],\n            \"can_plant_now\": true,\n")
    ++ strL ("            \"planting_window_justification\": \"One-sentence explanation (why/why not)\",\n")
    ++ strL ("            \"planting_mitigation_steps\": \"If off-window, short steps to mitigate or next best window\"\n")
    ++ strL ("        \x7d,\n\n        \"care_level\": \"Easy/Medium/Hard\",\n        \"growth_rate\": \"Fast/Medium/Slow (X cm/month)\",\n")
    ++ strL ("        \"benefits\": [\"air purification\", \"carbon absorption\", \"oxygen production\"],\n")
    ++ strL ("        \"initial_cost\": \"₹X-Y per plant\",\n        \"suitability_score\": 8.5\n    \x7d\n]\n\n")
    ++ strL ("CRITICAL: Use EXACT numeric amounts in liters and hours (e.g., \"25 liters per week\", \"6-8 hours\"), and match the amounts to the plant_type (trees need much higher volumes than potted herbs). Do not use vague descriptors. Ensure the \"planting_window\" is accurate for India at the provided coordinates. Respond with valid JSON only.")

/-- `create_concise_local_prompt(data, user_goal, prefer_native,
goal_type, lat, lon)` from local_api.py.  The assignment to `prompt`
sits (by indentation) inside the `if user_prefs.get('space_location_type'):`
branch, so when that branch is not taken the final `return prompt` reads
an unassigned local and raises UnboundLocalError.  The `user_goal`
parameter is never used by the function body. -/
def create_concise_local_prompt (data _userGoal preferNative goalType : PyVal)
    (lat lon : PyNum) : Except PyErr Str := do
  let gi ← get_goal_specific_instructions_local goalType
  let locV ← pyGetD data (strL ("location")) (.str (strL ("India")))
  let tempV ← pyGetD data (strL ("temperature")) (.num (pnInt 25))
  let rainV ← pyGetD data (strL ("rainfall")) (.num (pnInt 1000))
  let phV ← pyGetD data (strL ("soil_ph")) (.num (pnDec 65 1))
  let humV ← pyGetD data (strL ("humidity")) (.num (pnInt 65))
  let aqiV ← pyGetD data (strL ("aqi")) (.num (pnInt 106))
  let envSummary : Str := strL ("Location: ") ++ pyStrOf locV ++ strL (" (")
    ++ fmt2f lat ++ strL (", ") ++ fmt2f lon
    ++ strL (")\nTemperature: ") ++ pyStrOf tempV
    ++ strL ("°C\nRainfall: ") ++ pyStrOf rainV
    ++ strL ("mm/year\nSoil pH: ") ++ pyStrOf phV
    ++ strL ("\nHumidity: ") ++ pyStrOf humV
    ++ strL ("%\nAir Quality: ") ++ pyStrOf aqiV ++ strL (" AQI")
  let nativeText : Str :=
    if truthy preferNative then strL ("Focus on NATIVE Indian plants")
    else strL ("Include both native and adapted plants")
  let userPrefs ← pyGetD data (strL ("user_preferences")) (.dict [])
  let wa ← pyGet userPrefs (strL ("water_availability"))
  let pref1 : Str :=
    if truthy wa && !(pyEqStr wa (strL ("Auto-detect")))
    then strL ("\nWater Constraint: ") ++ pyStrOf wa else []
  let sa ← pyGet userPrefs (strL ("space_availability"))
  let pref2 : Str := pref1 ++
    (if truthy sa then strL ("\nSpace Available: ") ++ pyStrOf sa ++ strL (" sq meters") else [])
  let slt ← pyGet userPrefs (strL ("space_location_type"))
  if truthy slt then do
    let pref3 := pref2 ++ strL ("\nLocation Type: ") ++ pyStrOf slt
    let ll ←
      match slt with
      | .str s => Except.ok (lowerS s)
      | _ => Except.error PyErr.attributeError
    let pref4 := pref3 ++
      (if containsSub ll (strL ("window")) || containsSub ll (strL ("balcony")) then
         strL (" (Container plants only, max 2m height)")
       else if containsSub ll (strL ("garden")) || containsSub ll (strL ("yard")) then
         strL (" (Ground planting possible, trees up to 5m)")
       else if containsSub ll (strL ("farm")) then
         strL (" (Large scale planting, any size trees)")
       else [])
    .ok (concisePromptText goalType envSummary nativeText gi pref4)
  else
    .error .unboundLocalError

/-- The EnvironmentalProfile that `format_data_for_ai` builds from an
empty soil mapping, a weather mapping carrying only `rainfall = r`, an
empty air-quality mapping and `prefer_native = True` (all other fields
take their documented defaults). -/
def c6profile (r : PyNum) : List (Str × PyVal) :=
  [ (strL ("location"), .str (strL ("India"))),
    (strL ("soil_ph"), .num (pnDec 65 1)),
    (strL ("soil_texture"), .str (strL ("clay loam"))),
    (strL ("soil_organic_carbon"), .num (pnDec 18 1)),
    (strL ("temperature"), .num (pnDec 275 1)),
    (strL ("humidity"), .num (pnInt 65)),
    (strL ("rainfall"), .num r),
    (strL ("climate_type"), .str (strL ("tropical"))),
    (strL ("aqi"), .num (pnInt 75)),
    (strL ("aqi_rating"), .num (pnInt 3)),
    (strL ("pm2_5"), .num (pnInt 35)),
    (strL ("prefer_native"), .bool true),
    (strL ("data_status"), .dict
      [ (strL ("soil"), .str (strL ("unknown"))),
        (strL ("weather"), .str (strL ("unknown"))),
        (strL ("air_quality"), .str (strL ("unknown"))) ]),
    (strL ("api_data"), .dict
      [ (strL ("soil_texture_api"), .str (strL ("clay loam"))),
        (strL ("rainfall_api"), .num r),
        (strL ("temperature_api"), .num (pnDec 275 1)) ]) ]

/-- Key lookup on an arbitrary value, for stating properties of records
(`Option.none` when the value is not a dict or lacks the key). -/
def pvGetKey : PyVal → Str → Option PyVal
  | .dict d, k => lookupKey d k
  | _, _ => Option.none

/-- Key lookup through an `Except` result. -/
def okGetKey : Except PyErr PyVal → Str → Option PyVal
  | .ok v, k => pvGetKey v k
  | .error _, _ => Option.none

/-- Raw bracket balance of a string: occurrences of the opening
character minus occurrences of the closing character, counted over every
position (quoted regions are not skipped). -/
def brBal (op cl : Char) : Str → ℤ
  | [] => 0
  | c :: r => (if c = op then 1 else if c = cl then -1 else 0) + brBal op cl r

/-- The four UI fields of C2, as key-presence checks:
`water_requirements.mature_plant`, `sunlight_requirements.daily_hours_needed`,
`planting_window`, `sustainability_highlights`. -/
def hasUIKeysB (r : PyVal) : Bool :=
  (match pvGetKey r kWaterReq with
   | some (.dict w) => dHasKey w kMaturePlant
   | _ => false) &&
  (match pvGetKey r kSunReq with
   | some (.dict s) => dHasKey s kDHN
   | _ => false) &&
  (pvGetKey r kPW).isSome && (pvGetKey r kSus).isSome

/-! ## Theorems -/

theorem PyNum.lt_iff (a b : PyNum) : a.lt b = true ↔ a.toQ < b.toQ := by
  have ha : (0 : ℚ) < (a.d : ℚ) := by exact_mod_cast a.dpos
  have hb : (0 : ℚ) < (b.d : ℚ) := by exact_mod_cast b.dpos
  simp only [PyNum.lt, decide_eq_true_eq, PyNum.toQ]
  rw [div_lt_div_iff ha hb]
  constructor
  · intro h; exact_mod_cast h
  · intro h; exact_mod_cast h

theorem PyNum.le_iff (a b : PyNum) : a.le b = true ↔ a.toQ ≤ b.toQ := by
  have ha : (0 : ℚ) < (a.d : ℚ) := by exact_mod_cast a.dpos
  have hb : (0 : ℚ) < (b.d : ℚ) := by exact_mod_cast b.dpos
  simp only [PyNum.le, decide_eq_true_eq, PyNum.toQ]
  rw [div_le_div_iff ha hb]
  constructor
  · intro h; exact_mod_cast h
  · intro h; exact_mod_cast h

theorem PyNum.not_lt_iff (a b : PyNum) : a.lt b = false ↔ b.toQ ≤ a.toQ := by
  rw [← Bool.not_eq_true, ← not_lt (α := ℚ)]
  exact not_congr (PyNum.lt_iff a b)

theorem mapE_length (f : PyVal → Except PyErr PyVal) :
    ∀ (l l' : List PyVal), mapE f l = .ok l' → l'.length = l.length := by
  intro l
  induction l with
  | nil => intro l' h; simp [mapE] at h; simp [h.symm]
  | cons x xs ih =>
      intro l' h
      simp only [mapE] at h
      cases hf : f x with
      | error e => rw [hf] at h; cases h
      | ok y =>
          rw [hf] at h
          cases hm : mapE f xs with
          | error e => rw [hm] at h; cases h
          | ok ys =>
              rw [hm] at h
              cases h
              simp [ih ys hm]

theorem mapE_mem (f : PyVal → Except PyErr PyVal) :
    ∀ (l l' : List PyVal), mapE f l = .ok l' →
      ∀ y ∈ l', ∃ x ∈ l, f x = .ok y := by
  intro l
  induction l with
  | nil => intro l' h; simp [mapE] at h; subst h; simp
  | cons x xs ih =>
      intro l' h
      simp only [mapE] at h
      cases hf : f x with
      | error e => rw [hf] at h; cases h
      | ok y =>
          rw [hf] at h
          cases hm : mapE f xs with
          | error e => rw [hm] at h; cases h
          | ok ys =>
              rw [hm] at h
              cases h
              intro z hz
              cases hz with
              | head => exact ⟨x, List.mem_cons_self x xs, hf⟩
              | tail _ htl =>
                  obtain ⟨w, hw, hfw⟩ := ih ys hm z htl
                  exact ⟨w, List.mem_cons_of_mem x hw, hfw⟩

theorem excBindOk {α β : Type} (a : α) (f : α → Except PyErr β) :
    (Except.ok a : Except PyErr α) >>= f = f a := rfl

theorem pnInt_toQ (i : ℤ) : (pnInt i).toQ = (i : ℚ) := by
  simp [pnInt, PyNum.toQ]

theorem sub_toQ (a b : PyNum) : (a.sub b).toQ = a.toQ - b.toQ := by
  have ha : ((a.d : ℚ)) ≠ 0 := by
    have := a.dpos
    positivity
  have hb : ((b.d : ℚ)) ≠ 0 := by
    have := b.dpos
    positivity
  simp only [PyNum.sub, PyNum.toQ]
  push_cast
  field_simp
  ring

theorem abs_toQ (a : PyNum) : a.abs.toQ = |a.toQ| := by
  have hd : (0:ℚ) < (a.d:ℚ) := by exact_mod_cast a.dpos
  simp only [PyNum.abs, PyNum.toQ]
  rw [abs_div, abs_of_pos hd, Int.cast_abs]

theorem ewpWaterCondB_iff (r m : PyNum) :
    ewpWaterCondB r m = true ↔
      (r.toQ < 100 ∨ 4000 < r.toQ ∨ 800 < |r.toQ - m.toQ|) := by
  simp only [ewpWaterCondB, Bool.or_eq_true, PyNum.lt_iff, or_assoc]
  rw [pnInt_toQ 100, pnInt_toQ 4000, pnInt_toQ 800, abs_toQ, sub_toQ]
  norm_num

/-- C4 counterexample: the claimed values `extract_number("20-25 liters")
== 22` and `very low ↦ 10` are both false on the code: the liters
unit pattern has priority over the range pattern (so the result is 25),
and the `'low' in text` branch fires before the `'very low'` branch (so
the result is 15). -/
theorem c4_counterexample :
    (extract_number_from_text (.str (strL ("20-25 liters"))) = 25 ∧ (25:ℤ) ≠ 22) ∧
    (extract_number_from_text (.str (strL ("very low"))) = 15 ∧ (15:ℤ) ≠ 10) :=
  ⟨⟨rfl, by decide⟩, ⟨rfl, by decide⟩⟩

/-- C4 amended: `extract_number_from_text` returns 25 for "25 kg", 25
(not 22) for "20-25 liters" because the liters unit pattern takes
priority over the range pattern (a bare "20-25" does give the rounded
mean 22), 40 for "excellent", 25 for the empty string and for
"not specified"; the qualitative words excellent/high/moderate/low map
to 40/35/25/15, while "very low" maps to 15 (its dedicated 10 branch is
unreachable because the `low` branch matches first; "very high" maps to
40 via the `excellent` branch). -/
theorem c4_amended :
    extract_number_from_text (.str (strL ("25 kg"))) = 25 ∧
    extract_number_from_text (.str (strL ("20-25 liters"))) = 25 ∧
    extract_number_from_text (.str (strL ("20-25"))) = 22 ∧
    extract_number_from_text (.str (strL ("excellent"))) = 40 ∧
    extract_number_from_text (.str (strL (""))) = 25 ∧
    extract_number_from_text (.str (strL ("not specified"))) = 25 ∧
    extract_number_from_text (.str (strL ("high"))) = 35 ∧
    extract_number_from_text (.str (strL ("moderate"))) = 25 ∧
    extract_number_from_text (.str (strL ("low"))) = 15 ∧
    extract_number_from_text (.str (strL ("very low"))) = 15 ∧
    extract_number_from_text (.str (strL ("very high"))) = 40 :=
  ⟨rfl, rfl, rfl, rfl, rfl, rfl, rfl, rfl, rfl, rfl, rfl⟩

/-- C7: on the literal input `{"recommendations":[{"scientific_name":"X",}]}`
the gemini recovery pipeline repairs the trailing comma (via
`clean_json_string`) and returns exactly one record whose
`scientific_name` equals "X". -/
theorem c7_trailing_comma_repair :
    (parse_enhanced_gemini_response
      (strL ("\x7b\"recommendations\":[\x7b\"scientific_name\":\"X\",\x7d]\x7d"))).map
        List.length = some 1 ∧
    ((parse_enhanced_gemini_response
      (strL ("\x7b\"recommendations\":[\x7b\"scientific_name\":\"X\",\x7d]\x7d"))).bind
        List.head?).bind (fun r => pvGetKey r kSci) = some (.str (strL ("X"))) :=
  ⟨rfl, rfl⟩

theorem ewpWater_spec (prefs : PyVal) (d : List (Str × PyVal)) (ov : List PyVal)
    (wv : PyVal) (m api : PyNum)
    (h1 : pyGetD prefs (strL ("water_availability")) (.str (strL ("Auto-detect"))) = .ok wv)
    (h2 : pyEqStr wv (strL ("Auto-detect")) = false)
    (h3 : pyGetD (dGet d (strL ("api_data")) (.dict [])) (strL ("rainfall_api"))
      (.num (pnInt 1000)) = .ok (.num api))
    (h4 : waterMapGet wv = .ok m) :
    (ewpWaterCondB api m = true →
      ewpWater prefs d ov = .ok
        (dSet (dSet (dSet d (strL ("rainfall")) (.num m))
            (strL ("rainfall_source")) (.str (strL ("user_preference"))))
          (strL ("rainfall_note"))
          (.str (strL ("Using user preference (") ++ pyStrOf wv ++ strL (": ")
            ++ pnRender m ++ strL ("mm) - API value (") ++ pyStrOf (.num api)
            ++ strL ("mm) seemed unrealistic or very different"))),
         ov ++ [.str (strL ("Water: ") ++ pyStrOf wv ++ strL (" (")
           ++ pnRender m ++ strL ("mm)"))])) ∧
    (ewpWaterCondB api m = false →
      ewpWater prefs d ov = .ok
        (dSet (dSet (dSet d (strL ("user_water_preference")) wv)
            (strL ("user_preferred_rainfall")) (.num m))
          (strL ("rainfall_note"))
          (.str (strL ("Using API data (") ++ pyStrOf (.num api)
            ++ strL ("mm) as it aligns with ") ++ pyStrOf wv ++ strL (" conditions"))),
         ov)) := by
  constructor <;> intro hc <;>
    (simp only [ewpWater, h1, excBindOk]
     rw [h2]
     simp only [Bool.not_false, if_true, h3, excBindOk, h4, asNumCmp, hc]
     try rfl)

theorem c6_master (r m : PyNum) (w : Str)
    (hn : pyEqStr (.str w) (strL ("Auto-detect")) = false)
    (hm : waterMapGet (.str w) = .ok m) :
    ∀ c : Bool, ewpWaterCondB r m = c →
      ∃ fd', format_data_for_ai (.dict []) (.dict [(strL ("rainfall"), .num r)]) (.dict [])
          (.bool true) (.dict [(strL ("water_availability"), .str w)]) = .ok fd' ∧
        (c = true →
          pvGetKey fd' (strL ("rainfall")) = some (.num m) ∧
          pvGetKey fd' (strL ("rainfall_source")) = some (.str (strL ("user_preference"))) ∧
          (pvGetKey fd' (strL ("rainfall_note"))).isSome = true) ∧
        (c = false →
          pvGetKey fd' (strL ("rainfall")) = some (.num r) ∧
          pvGetKey fd' (strL ("user_water_preference")) = some (.str w) ∧
          (pvGetKey fd' (strL ("rainfall_note"))).isSome = true ∧
          pvGetKey fd' (strL ("rainfall_source")) = Option.none) := by
  have hspec := ewpWater_spec (.dict [(strL ("water_availability"), .str w)])
    (c6profile r) [] (.str w) m r rfl hn rfl hm
  intro c hc
  cases c with
  | true =>
      have hw := hspec.1 hc
      have henh : format_data_for_ai (.dict []) (.dict [(strL ("rainfall"), .num r)])
          (.dict []) (.bool true) (.dict [(strL ("water_availability"), .str w)]) =
          .ok (.dict (dSet (dSet
            (dSet (dSet (dSet (c6profile r) (strL ("rainfall")) (.num m))
                (strL ("rainfall_source")) (.str (strL ("user_preference"))))
              (strL ("rainfall_note"))
              (.str (strL ("Using user preference (") ++ pyStrOf (.str w) ++ strL (": ")
                ++ pnRender m ++ strL ("mm) - API value (") ++ pyStrOf (.num r)
                ++ strL ("mm) seemed unrealistic or very different"))))
            (strL ("user_customizations"))
            (.list [.str (strL ("Water: ") ++ pyStrOf (.str w) ++ strL (" (")
              ++ pnRender m ++ strL ("mm)"))]))
            (strL ("customization_summary"))
            (.str (strL ("User preferences: ") ++ joinPyStrs (strL (" | "))
              [.str (strL ("Water: ") ++ pyStrOf (.str w) ++ strL (" (")
                ++ pnRender m ++ strL ("mm)"))])))) := by
        show enhance_with_user_preferences (.dict (c6profile r))
          (.dict [(strL ("water_availability"), .str w)]) = _
        simp only [enhance_with_user_preferences,
          show ewpSoil (.dict [(strL ("water_availability"), .str w)]) (c6profile r) []
            = .ok (c6profile r, []) from rfl, excBindOk]
        rw [hw]
        rfl
      refine ⟨_, henh, ?_, ?_⟩
      · intro h2
        exact ⟨rfl, rfl, rfl⟩
      · intro hf
        cases hf
  | false =>
      have hw := hspec.2 hc
      have henh : format_data_for_ai (.dict []) (.dict [(strL ("rainfall"), .num r)])
          (.dict []) (.bool true) (.dict [(strL ("water_availability"), .str w)]) =
          .ok (.dict (dSet (dSet (dSet (c6profile r) (strL ("user_water_preference")) (.str w))
              (strL ("user_preferred_rainfall")) (.num m))
            (strL ("rainfall_note"))
            (.str (strL ("Using API data (") ++ pyStrOf (.num r)
              ++ strL ("mm) as it aligns with ") ++ pyStrOf (.str w) ++ strL (" conditions"))))) := by
        show enhance_with_user_preferences (.dict (c6profile r))
          (.dict [(strL ("water_availability"), .str w)]) = _
        simp only [enhance_with_user_preferences,
          show ewpSoil (.dict [(strL ("water_availability"), .str w)]) (c6profile r) []
            = .ok (c6profile r, []) from rfl, excBindOk]
        rw [hw]
        rfl
      refine ⟨_, henh, ?_, ?_⟩
      · intro ht
        cases ht
      · intro h2
        exact ⟨rfl, rfl, rfl, rfl⟩

theorem c6_case (r : PyNum) (w : Str) (mi : ℤ)
    (hn : pyEqStr (.str w) (strL ("Auto-detect")) = false)
    (hm : waterMapGet (.str w) = .ok (pnInt mi)) :
    ∃ fd', format_data_for_ai (.dict []) (.dict [(strL ("rainfall"), .num r)]) (.dict [])
        (.bool true) (.dict [(strL ("water_availability"), .str w)]) = .ok fd' ∧
      ((r.toQ < 100 ∨ 4000 < r.toQ ∨ 800 < |r.toQ - (mi:ℚ)|) →
        (∃ v : PyNum, pvGetKey fd' (strL ("rainfall")) = some (.num v) ∧ v.toQ = (mi:ℚ)) ∧
        pvGetKey fd' (strL ("rainfall_source")) = some (.str (strL ("user_preference"))) ∧
        (pvGetKey fd' (strL ("rainfall_note"))).isSome = true) ∧
      (¬(r.toQ < 100 ∨ 4000 < r.toQ ∨ 800 < |r.toQ - (mi:ℚ)|) →
        pvGetKey fd' (strL ("rainfall")) = some (.num r) ∧
        pvGetKey fd' (strL ("user_water_preference")) = some (.str w) ∧
        (pvGetKey fd' (strL ("rainfall_note"))).isSome = true ∧
        pvGetKey fd' (strL ("rainfall_source")) = Option.none) := by
  cases hcb : ewpWaterCondB r (pnInt mi) with
  | true =>
      obtain ⟨fd', hfd, ht, _⟩ := c6_master r (pnInt mi) w hn hm true hcb
      have hq := (ewpWaterCondB_iff r (pnInt mi)).mp hcb
      rw [pnInt_toQ] at hq
      refine ⟨fd', hfd, ?_, ?_⟩
      · intro _
        obtain ⟨h1, h2, h3⟩ := ht rfl
        exact ⟨⟨pnInt mi, h1, pnInt_toQ mi⟩, h2, h3⟩
      · intro hnq
        exact absurd hq hnq
  | false =>
      obtain ⟨fd', hfd, _, hf⟩ := c6_master r (pnInt mi) w hn hm false hcb
      refine ⟨fd', hfd, ?_, ?_⟩
      · intro hq
        have hcb2 : ewpWaterCondB r (pnInt mi) = true :=
          (ewpWaterCondB_iff r (pnInt mi)).mpr (by rw [pnInt_toQ]; exact hq)
        rw [hcb2] at hcb
        cases hcb
      · intro _
        exact hf rfl

/-- C6: with a categorical water-availability preference (`Low`, `Medium`
or `High`, mapped to 400/1000/1800 mm), the profile builder
(`format_data_for_ai`, which runs `enhance_with_user_preferences`)
overrides the profile's `rainfall` with the mapped value — recording
`rainfall_source = 'user_preference'` and a `rainfall_note` — exactly
when the API rainfall is below 100 mm, above 4000 mm, or differs from
the mapped value by more than 800 mm; otherwise the API rainfall is
retained, the preference is attached as `user_water_preference`
metadata, and no `rainfall_source` override is recorded. -/
theorem c6_rainfall_override (r : PyNum) (w : Str) (m : ℚ)
    (hw : (w = strL ("Low") ∧ m = 400) ∨ (w = strL ("Medium") ∧ m = 1000) ∨
      (w = strL ("High") ∧ m = 1800)) :
    ∃ fd', format_data_for_ai (.dict []) (.dict [(strL ("rainfall"), .num r)]) (.dict [])
        (.bool true) (.dict [(strL ("water_availability"), .str w)]) = .ok fd' ∧
      ((r.toQ < 100 ∨ 4000 < r.toQ ∨ 800 < |r.toQ - m|) →
        (∃ v : PyNum, pvGetKey fd' (strL ("rainfall")) = some (.num v) ∧ v.toQ = m) ∧
        pvGetKey fd' (strL ("rainfall_source")) = some (.str (strL ("user_preference"))) ∧
        (pvGetKey fd' (strL ("rainfall_note"))).isSome = true) ∧
      (¬(r.toQ < 100 ∨ 4000 < r.toQ ∨ 800 < |r.toQ - m|) →
        pvGetKey fd' (strL ("rainfall")) = some (.num r) ∧
        pvGetKey fd' (strL ("user_water_preference")) = some (.str w) ∧
        (pvGetKey fd' (strL ("rainfall_note"))).isSome = true ∧
        pvGetKey fd' (strL ("rainfall_source")) = Option.none) := by
  rcases hw with ⟨rfl, rfl⟩ | ⟨rfl, rfl⟩ | ⟨rfl, rfl⟩
  · exact_mod_cast c6_case r (strL ("Low")) 400 rfl rfl
  · exact_mod_cast c6_case r (strL ("Medium")) 1000 rfl rfl
  · exact_mod_cast c6_case r (strL ("High")) 1800 rfl rfl

/-- C6 witness: preference `Low` with API rainfall 50 mm (implausible)
yields rainfall 400 with an override note recorded. -/
theorem c6_rainfall_override_witness :
    ∃ fd', format_data_for_ai (.dict []) (.dict [(strL ("rainfall"), .num (pnInt 50))])
        (.dict []) (.bool true)
        (.dict [(strL ("water_availability"), .str (strL ("Low")))]) = .ok fd' ∧
      (∃ v : PyNum, pvGetKey fd' (strL ("rainfall")) = some (.num v) ∧ v.toQ = 400) ∧
      (pvGetKey fd' (strL ("rainfall_note"))).isSome = true := by
  obtain ⟨fd', hfd, hov, _⟩ :=
    c6_rainfall_override (pnInt 50) (strL ("Low")) 400 (Or.inl ⟨rfl, rfl⟩)
  have hq : (pnInt 50).toQ < 100 ∨ 4000 < (pnInt 50).toQ ∨
      800 < |(pnInt 50).toQ - (400:ℚ)| := by
    left
    rw [pnInt_toQ]
    norm_num
  obtain ⟨h1, _, h3⟩ := hov hq
  exact ⟨fd', hfd, h1, h3⟩

theorem findAreaUnit_none (u : Str) :
    ∀ l : List (Str × PyNum), (∀ p ∈ l, ¬(containsSub u p.1 = true)) →
      findAreaUnit u l = Option.none := by
  intro l
  induction l with
  | nil => intro _; rfl
  | cons p rest ih =>
      intro h
      simp only [findAreaUnit]
      rw [if_neg (h p (List.mem_cons_self p rest))]
      exact ih fun q hq => h q (List.mem_cons_of_mem p hq)

/-- C5 counterexample: the table lookup is substring containment, so the
unit "chairs" — absent from the conversion table — still matches the key
`ha` (hectare) and "5 chairs" converts to 50000 square meters rather
than returning the leading number 5 unchanged. -/
theorem c5_counterexample :
    (convert_area_to_square_meters (.str (strL ("5 chairs")))).toQ = 50000 ∧
    (50000:ℚ) ≠ 5 := by
  constructor
  · rw [show convert_area_to_square_meters (.str (strL ("5 chairs")))
        = (pnInt 5).mul (pnInt 10000) from rfl]
    norm_num [PyNum.toQ, PyNum.mul, pnInt]
  · norm_num

/-- C5 amended: `convert_area_to_square_meters("2 acres") = 8093.72`
(≈ 8093.7), `("0.5 hectare") = 5000`, `("100 sq ft") = 9.2903`
(≈ 9.29); input with no parseable number returns 0.0; and an input with
a leading number whose unit contains **no table key as a substring** is
returned unchanged (units are matched by substring containment,
longest-key first, so a unit like "chairs" that merely contains `ha` is
converted as hectares). -/
theorem c5_amended :
    (convert_area_to_square_meters (.str (strL ("2 acres")))).toQ = 8093.72 ∧
    (convert_area_to_square_meters (.str (strL ("0.5 hectare")))).toQ = 5000 ∧
    (convert_area_to_square_meters (.str (strL ("100 sq ft")))).toQ = 9.2903 ∧
    (convert_area_to_square_meters (.str (strL ("xyz")))).toQ = 0 ∧
    (∀ (s : Str) (n : PyNum) (run : Str),
      s.isEmpty = false →
      searchArea (lowerS (stripS s)) = some (n, run) →
      (∀ p ∈ areaUnitsSorted, ¬(containsSub (stripS run) p.1 = true)) →
      convert_area_to_square_meters (.str s) = n) := by
  refine ⟨?_, ?_, ?_, ?_, ?_⟩
  · rw [show convert_area_to_square_meters (.str (strL ("2 acres")))
        = (pnInt 2).mul (pnDec 404686 2) from rfl]
    norm_num [PyNum.toQ, PyNum.mul, pnInt, pnDec]
  · rw [show convert_area_to_square_meters (.str (strL ("0.5 hectare")))
        = (pnDec 5 1).mul (pnInt 10000) from rfl]
    norm_num [PyNum.toQ, PyNum.mul, pnInt, pnDec]
  · rw [show convert_area_to_square_meters (.str (strL ("100 sq ft")))
        = (pnInt 100).mul (pnDec 92903 6) from rfl]
    norm_num [PyNum.toQ, PyNum.mul, pnInt, pnDec]
  · rw [show convert_area_to_square_meters (.str (strL ("xyz"))) = pnInt 0 from rfl]
    norm_num [PyNum.toQ, pnInt]
  · intro s n run h1 h2 h3
    simp only [convert_area_to_square_meters, h1, Bool.false_eq_true, if_false, h2,
      findAreaUnit_none (stripS run) areaUnitsSorted h3]

/-- C5 witness: a leading number with a unit containing no table key is
returned unchanged. -/
theorem c5_amended_witness :
    convert_area_to_square_meters (.str (strL ("7 zzz"))) = pnInt 7 :=
  c5_amended.2.2.2.2 (strL ("7 zzz")) (pnInt 7) (strL (" zzz")) rfl rfl (by decide)

theorem lookupKey_dSet_self (d : List (Str × PyVal)) (k : Str) (v : PyVal) :
    lookupKey (dSet d k v) k = some v := by
  induction d with
  | nil => simp [dSet, lookupKey]
  | cons p rest ih =>
      obtain ⟨k', v'⟩ := p
      simp only [dSet]
      by_cases hk : k' = k
      · rw [if_pos hk]
        simp [lookupKey, hk]
      · rw [if_neg hk]
        simp [lookupKey, hk, ih]

theorem lookupKey_dSet_ne (d : List (Str × PyVal)) (k k' : Str) (v : PyVal)
    (h : k ≠ k') : lookupKey (dSet d k v) k' = lookupKey d k' := by
  induction d with
  | nil => simp [dSet, lookupKey, h]
  | cons p rest ih =>
      obtain ⟨k2, v2⟩ := p
      simp only [dSet]
      by_cases hk : k2 = k
      · rw [if_pos hk]
        subst hk
        simp [lookupKey, h]
      · rw [if_neg hk]
        simp [lookupKey, ih]

theorem clampFloatField_ne (d d' : List (Str × PyVal)) (k k' : Str) (lo hi : PyNum)
    (h : clampFloatField d k lo hi = .ok d') (hne : k ≠ k') :
    lookupKey d' k' = lookupKey d k' := by
  unfold clampFloatField at h
  split at h
  · cases hf : floatOf (dGet d k .none) with
    | error e => rw [hf] at h; cases h
    | ok x =>
        rw [hf] at h
        cases h
        exact lookupKey_dSet_ne d k k' _ hne
  · cases h
    rfl

theorem clampIntField_ne (d d' : List (Str × PyVal)) (k k' : Str) (lo hi : ℤ)
    (h : clampIntField d k lo hi = .ok d') (hne : k ≠ k') :
    lookupKey d' k' = lookupKey d k' := by
  unfold clampIntField at h
  split at h
  · cases hf : intOf (dGet d k .none) with
    | error e => rw [hf] at h; cases h
    | ok x =>
        rw [hf] at h
        cases h
        exact lookupKey_dSet_ne d k k' _ hne
  · cases h
    rfl

theorem clampFloatField_same (d d' : List (Str × PyVal)) (k : Str) (lo hi : PyNum)
    (h : clampFloatField d k lo hi = .ok d')
    (ht : truthy (dGet d k .none) = true) :
    ∃ x : PyNum, lookupKey d' k = some (.num (lo.max (hi.min x))) := by
  unfold clampFloatField at h
  rw [if_pos ht] at h
  cases hf : floatOf (dGet d k .none) with
  | error e => rw [hf] at h; cases h
  | ok x =>
      rw [hf] at h
      cases h
      exact ⟨x, lookupKey_dSet_self d k _⟩

theorem clampIntField_same (d d' : List (Str × PyVal)) (k : Str) (lo hi : ℤ)
    (h : clampIntField d k lo hi = .ok d')
    (ht : truthy (dGet d k .none) = true) :
    ∃ x : ℤ, lookupKey d' k = some (.num ((pnInt lo).max ((pnInt hi).min (pnInt x)))) := by
  unfold clampIntField at h
  rw [if_pos ht] at h
  cases hf : intOf (dGet d k .none) with
  | error e => rw [hf] at h; cases h
  | ok x =>
      rw [hf] at h
      cases h
      exact ⟨x, lookupKey_dSet_self d k _⟩

theorem clamp_toQ_bounds (lo hi x : PyNum) (h : lo.toQ ≤ hi.toQ) :
    lo.toQ ≤ (lo.max (hi.min x)).toQ ∧ (lo.max (hi.min x)).toQ ≤ hi.toQ := by
  unfold PyNum.max PyNum.min
  by_cases h1 : x.lt hi = true
  · rw [if_pos h1]
    by_cases h2 : lo.lt x = true
    · rw [if_pos h2]
      exact ⟨le_of_lt ((PyNum.lt_iff _ _).mp h2), le_of_lt ((PyNum.lt_iff _ _).mp h1)⟩
    · rw [if_neg h2]
      exact ⟨le_refl _, h⟩
  · rw [if_neg h1]
    by_cases h2 : lo.lt hi = true
    · rw [if_pos h2]
      exact ⟨le_of_lt ((PyNum.lt_iff _ _).mp h2), le_refl _⟩
    · rw [if_neg h2]
      exact ⟨le_refl _, h⟩

/-- C9 counterexample: a `soil_ph` of 0.0 is falsy, so
`validate_environmental_data` skips it entirely and the output soil pH
stays 0, outside the documented [4, 9] range — clamping applies only to
truthy field values. -/
theorem c9_counterexample :
    validate_environmental_data (.dict [(strL ("soil_ph"), .num (pnInt 0))]) =
      .ok (.dict [(strL ("soil_ph"), .num (pnInt 0))]) ∧
    ¬((4:ℚ) ≤ (pnInt 0).toQ) := by
  refine ⟨rfl, ?_⟩
  rw [pnInt_toQ]
  norm_num

/-- C9 amended: for every recognized numeric field whose input value is
truthy (nonzero, non-empty), `validate_environmental_data` clamps it
into its documented range — soil pH into [4, 9], temperature into
[-10, 50], humidity into [0, 100], AQI into [0, 500] — and a soil_ph of
11.0 comes out as 9.0; a falsy (zero) field value is left unclamped. -/
theorem c9_amended :
    (∀ (d d' : List (Str × PyVal)),
      validate_environmental_data (.dict d) = .ok (.dict d') →
      ((truthy (dGet d (strL ("soil_ph")) .none) = true →
          ∃ v : PyNum, lookupKey d' (strL ("soil_ph")) = some (.num v) ∧
            4 ≤ v.toQ ∧ v.toQ ≤ 9) ∧
       (truthy (dGet d (strL ("temperature")) .none) = true →
          ∃ v : PyNum, lookupKey d' (strL ("temperature")) = some (.num v) ∧
            -10 ≤ v.toQ ∧ v.toQ ≤ 50) ∧
       (truthy (dGet d (strL ("humidity")) .none) = true →
          ∃ v : PyNum, lookupKey d' (strL ("humidity")) = some (.num v) ∧
            0 ≤ v.toQ ∧ v.toQ ≤ 100) ∧
       (truthy (dGet d (strL ("aqi")) .none) = true →
          ∃ v : PyNum, lookupKey d' (strL ("aqi")) = some (.num v) ∧
            0 ≤ v.toQ ∧ v.toQ ≤ 500))) ∧
    (∃ v : PyNum,
      okGetKey (validate_environmental_data
          (.dict [(strL ("soil_ph"), .num (pnDec 110 1))])) (strL ("soil_ph"))
        = some (.num v) ∧ v.toQ = 9) := by
  constructor
  · intro d d' h
    simp only [validate_environmental_data] at h
    cases h1 : clampFloatField d (strL ("soil_ph")) (pnDec 40 1) (pnDec 90 1) with
    | error e => rw [h1] at h; dsimp only [] at h; cases h
    | ok d1 =>
    rw [h1] at h
    dsimp only [] at h
    cases h2 : clampFloatField d1 (strL ("temperature")) (pnInt (-10)) (pnInt 50) with
    | error e => rw [h2] at h; dsimp only [] at h; cases h
    | ok d2 =>
    rw [h2] at h
    dsimp only [] at h
    cases h3 : clampFloatField d2 (strL ("humidity")) (pnInt 0) (pnInt 100) with
    | error e => rw [h3] at h; dsimp only [] at h; cases h
    | ok d3 =>
    rw [h3] at h
    dsimp only [] at h
    cases h4 : clampIntField d3 (strL ("aqi")) 0 500 with
    | error e => rw [h4] at h; dsimp only [] at h; cases h
    | ok d4 =>
    rw [h4] at h
    dsimp only [] at h
    cases h5 : clampIntField d4 (strL ("aqi_rating")) 1 5 with
    | error e => rw [h5] at h; dsimp only [] at h; cases h
    | ok d5 =>
    rw [h5] at h
    dsimp only [] at h
    have hd : d5 = d' := by
      injection h with h6
      injection h6
    subst hd
    have e2s := clampFloatField_ne d1 d2 _ (strL ("soil_ph")) _ _ h2 (by decide)
    have e3s := clampFloatField_ne d2 d3 _ (strL ("soil_ph")) _ _ h3 (by decide)
    have e4s := clampIntField_ne d3 d4 _ (strL ("soil_ph")) _ _ h4 (by decide)
    have e5s := clampIntField_ne d4 d5 _ (strL ("soil_ph")) _ _ h5 (by decide)
    have e1t := clampFloatField_ne d d1 _ (strL ("temperature")) _ _ h1 (by decide)
    have e3t := clampFloatField_ne d2 d3 _ (strL ("temperature")) _ _ h3 (by decide)
    have e4t := clampIntField_ne d3 d4 _ (strL ("temperature")) _ _ h4 (by decide)
    have e5t := clampIntField_ne d4 d5 _ (strL ("temperature")) _ _ h5 (by decide)
    have e1h := clampFloatField_ne d d1 _ (strL ("humidity")) _ _ h1 (by decide)
    have e2h := clampFloatField_ne d1 d2 _ (strL ("humidity")) _ _ h2 (by decide)
    have e4h := clampIntField_ne d3 d4 _ (strL ("humidity")) _ _ h4 (by decide)
    have e5h := clampIntField_ne d4 d5 _ (strL ("humidity")) _ _ h5 (by decide)
    have e1a := clampFloatField_ne d d1 _ (strL ("aqi")) _ _ h1 (by decide)
    have e2a := clampFloatField_ne d1 d2 _ (strL ("aqi")) _ _ h2 (by decide)
    have e3a := clampFloatField_ne d2 d3 _ (strL ("aqi")) _ _ h3 (by decide)
    have e5a := clampIntField_ne d4 d5 _ (strL ("aqi")) _ _ h5 (by decide)
    refine ⟨?_, ?_, ?_, ?_⟩
    · intro ht
      obtain ⟨x, hx⟩ := clampFloatField_same d d1 _ _ _ h1 ht
      have hlohi : (pnDec 40 1).toQ ≤ (pnDec 90 1).toQ := by
        norm_num [pnDec, PyNum.toQ]
      have hb := clamp_toQ_bounds (pnDec 40 1) (pnDec 90 1) x hlohi
      refine ⟨(pnDec 40 1).max ((pnDec 90 1).min x), ?_, ?_, ?_⟩
      · rw [e5s, e4s, e3s, e2s]
        exact hx
      · calc (4:ℚ) = (pnDec 40 1).toQ := by norm_num [pnDec, PyNum.toQ]
          _ ≤ _ := hb.1
      · calc ((pnDec 40 1).max ((pnDec 90 1).min x)).toQ ≤ (pnDec 90 1).toQ := hb.2
          _ = 9 := by norm_num [pnDec, PyNum.toQ]
    · intro ht
      have ht1 : truthy (dGet d1 (strL ("temperature")) .none) = true := by
        unfold dGet
        rw [e1t]
        unfold dGet at ht
        exact ht
      obtain ⟨x, hx⟩ := clampFloatField_same d1 d2 _ _ _ h2 ht1
      have hlohi : (pnInt (-10)).toQ ≤ (pnInt 50).toQ := by
        rw [pnInt_toQ, pnInt_toQ]
        norm_num
      have hb := clamp_toQ_bounds (pnInt (-10)) (pnInt 50) x hlohi
      refine ⟨(pnInt (-10)).max ((pnInt 50).min x), ?_, ?_, ?_⟩
      · rw [e5t, e4t, e3t]
        exact hx
      · calc (-10:ℚ) = (pnInt (-10)).toQ := by rw [pnInt_toQ]; norm_num
          _ ≤ _ := hb.1
      · calc ((pnInt (-10)).max ((pnInt 50).min x)).toQ ≤ (pnInt 50).toQ := hb.2
          _ = 50 := by rw [pnInt_toQ]; norm_num
    · intro ht
      have ht2 : truthy (dGet d2 (strL ("humidity")) .none) = true := by
        unfold dGet
        rw [e2h, e1h]
        unfold dGet at ht
        exact ht
      obtain ⟨x, hx⟩ := clampFloatField_same d2 d3 _ _ _ h3 ht2
      have hlohi : (pnInt 0).toQ ≤ (pnInt 100).toQ := by
        rw [pnInt_toQ, pnInt_toQ]
        norm_num
      have hb := clamp_toQ_bounds (pnInt 0) (pnInt 100) x hlohi
      refine ⟨(pnInt 0).max ((pnInt 100).min x), ?_, ?_, ?_⟩
      · rw [e5h, e4h]
        exact hx
      · calc (0:ℚ) = (pnInt 0).toQ := by rw [pnInt_toQ]; norm_num
          _ ≤ _ := hb.1
      · calc ((pnInt 0).max ((pnInt 100).min x)).toQ ≤ (pnInt 100).toQ := hb.2
          _ = 100 := by rw [pnInt_toQ]; norm_num
    · intro ht
      have ht3 : truthy (dGet d3 (strL ("aqi")) .none) = true := by
        unfold dGet
        rw [e3a, e2a, e1a]
        unfold dGet at ht
        exact ht
      obtain ⟨x, hx⟩ := clampIntField_same d3 d4 _ _ _ h4 ht3
      have hlohi : (pnInt 0).toQ ≤ (pnInt 500).toQ := by
        rw [pnInt_toQ, pnInt_toQ]
        norm_num
      have hb := clamp_toQ_bounds (pnInt 0) (pnInt 500) (pnInt x) hlohi
      refine ⟨(pnInt 0).max ((pnInt 500).min (pnInt x)), ?_, ?_, ?_⟩
      · rw [e5a]
        exact hx
      · calc (0:ℚ) = (pnInt 0).toQ := by rw [pnInt_toQ]; norm_num
          _ ≤ _ := hb.1
      · calc ((pnInt 0).max ((pnInt 500).min (pnInt x))).toQ ≤ (pnInt 500).toQ := hb.2
          _ = 500 := by rw [pnInt_toQ]; norm_num
  · refine ⟨(pnDec 40 1).max ((pnDec 90 1).min (pnDec 110 1)), rfl, ?_⟩
    rw [show (pnDec 40 1).max ((pnDec 90 1).min (pnDec 110 1)) = pnDec 90 1 from rfl]
    norm_num [pnDec, PyNum.toQ]

/-- C9 witness: a concrete truthy soil pH (11.0) passes through the
amended theorem and lands in [4, 9]. -/
theorem c9_amended_witness :
    ∃ v : PyNum,
      lookupKey [(strL ("soil_ph"),
          .num ((pnDec 40 1).max ((pnDec 90 1).min (pnDec 110 1))))]
        (strL ("soil_ph")) = some (.num v) ∧ 4 ≤ v.toQ ∧ v.toQ ≤ 9 :=
  (c9_amended.1 [(strL ("soil_ph"), .num (pnDec 110 1))]
    [(strL ("soil_ph"), .num ((pnDec 40 1).max ((pnDec 90 1).min (pnDec 110 1))))]
    rfl).1 rfl

/-- C10: whenever the caller's `user_preferences` mapping has no truthy
`space_location_type` entry (absent, empty string, or otherwise falsy),
`create_concise_local_prompt` hits the `prompt` read in its f-string
return while `prompt` was only assigned inside the
`if user_prefs.get('space_location_type'):` block, so the call raises
`UnboundLocalError` instead of returning a prompt. -/
theorem c10_unbound_local (dd ud : List (Str × PyVal)) (ug pn : PyVal) (gt : Str)
    (lat lon : PyNum)
    (hup : dGet dd (strL ("user_preferences")) (.dict []) = .dict ud)
    (hslt : truthy (dGet ud (strL ("space_location_type")) PyVal.none) = false) :
    create_concise_local_prompt (.dict dd) ug pn (.str gt) lat lon =
      .error .unboundLocalError := by
  simp only [create_concise_local_prompt, get_goal_specific_instructions_local,
    pyGetD, pyGet, excBindOk, hup, hslt, Bool.false_eq_true, if_false]

/-- Witness for C10: the default preferences (`user_preferences` entirely
absent from the data dict) trigger the unbound-local failure. -/
theorem c10_unbound_local_witness :
    create_concise_local_prompt (.dict []) PyVal.none (.bool true)
      (.str (strL ("afforestation"))) (pnDec 205937 4) (pnDec 789629 4) =
      .error .unboundLocalError :=
  c10_unbound_local [] [] PyVal.none (.bool true) (strL ("afforestation"))
    (pnDec 205937 4) (pnDec 789629 4) rfl rfl

theorem brBal_cons (op cl c : Char) (u : Str) :
    brBal op cl (c :: u) =
      (if c = op then 1 else if c = cl then -1 else 0) + brBal op cl u := rfl

/-- Invariant of the bracket-matching loop: from a positive running
counter, a successful scan stops exactly at the first position where the
counter (equivalently, the raw bracket balance of the consumed prefix)
returns to zero — every bracket character counts, quoted or not. -/
theorem bracketScanCore_spec (op cl : Char) :
    ∀ (s : Str) (cnt : ℤ) (idx e : Nat), 0 < cnt →
      bracketScanCore op cl s cnt idx = some e →
      ∃ m : Nat, 0 < m ∧ m ≤ s.length ∧ e = idx + m ∧
        cnt + brBal op cl (s.take m) = 0 ∧
        ∀ j : Nat, j < m → cnt + brBal op cl (s.take j) ≠ 0 := by
  intro s
  induction s with
  | nil => intro cnt idx e _ h; simp [bracketScanCore] at h
  | cons c r ih =>
      intro cnt idx e hcnt h
      by_cases hop : c = op
      · simp only [bracketScanCore, if_pos hop] at h
        obtain ⟨m, hm0, hmlen, he, hbal, hpre⟩ := ih (cnt + 1) (idx + 1) e (by omega) h
        refine ⟨m + 1, by omega, by simp only [List.length_cons]; omega, by omega, ?_, ?_⟩
        · simp only [List.take_succ_cons, brBal_cons, if_pos hop]
          omega
        · intro j hj
          cases j with
          | zero => simp only [List.take_zero, brBal]; omega
          | succ j' =>
              simp only [List.take_succ_cons, brBal_cons, if_pos hop]
              have := hpre j' (by omega)
              omega
      · by_cases hcl : c = cl
        · simp only [bracketScanCore, if_neg hop, if_pos hcl] at h
          by_cases hz : cnt - 1 = 0
          · rw [if_pos hz] at h
            obtain rfl : idx + 1 = e := Option.some.inj h
            refine ⟨1, by omega, by simp only [List.length_cons]; omega, by omega, ?_, ?_⟩
            · simp only [List.take_succ_cons, List.take_zero, brBal_cons, if_neg hop,
                if_pos hcl, brBal]
              omega
            · intro j hj
              have hj0 : j = 0 := by omega
              subst hj0
              simp only [List.take_zero, brBal]
              omega
          · rw [if_neg hz] at h
            obtain ⟨m, hm0, hmlen, he, hbal, hpre⟩ := ih (cnt - 1) (idx + 1) e (by omega) h
            refine ⟨m + 1, by omega, by simp only [List.length_cons]; omega, by omega, ?_, ?_⟩
            · simp only [List.take_succ_cons, brBal_cons, if_neg hop, if_pos hcl]
              omega
            · intro j hj
              cases j with
              | zero => simp only [List.take_zero, brBal]; omega
              | succ j' =>
                  simp only [List.take_succ_cons, brBal_cons, if_neg hop, if_pos hcl]
                  have := hpre j' (by omega)
                  omega
        · simp only [bracketScanCore, if_neg hop, if_neg hcl] at h
          obtain ⟨m, hm0, hmlen, he, hbal, hpre⟩ := ih cnt (idx + 1) e hcnt h
          refine ⟨m + 1, by omega, by simp only [List.length_cons]; omega, by omega, ?_, ?_⟩
          · simp only [List.take_succ_cons, brBal_cons, if_neg hop, if_neg hcl]
            omega
          · intro j hj
            cases j with
            | zero => simp only [List.take_zero, brBal]; omega
            | succ j' =>
                simp only [List.take_succ_cons, brBal_cons, if_neg hop, if_neg hcl]
                have := hpre j' (by omega)
                omega

theorem findCharIdx_drop (c : Char) :
    ∀ (s : Str) (i : Nat), findCharIdx c s = some i → ∃ r, s.drop i = c :: r := by
  intro s
  induction s with
  | nil => intro i h; simp [findCharIdx] at h
  | cons x s' ih =>
      intro i h
      simp only [findCharIdx] at h
      by_cases hx : x = c
      · rw [if_pos hx] at h
        obtain rfl : (0 : Nat) = i := Option.some.inj h
        exact ⟨s', by rw [hx, List.drop_zero]⟩
      · rw [if_neg hx] at h
        obtain ⟨i', hi', rfl⟩ := Option.map_eq_some'.mp h
        obtain ⟨r, hr⟩ := ih i' hi'
        exact ⟨r, by simpa using hr⟩

/-- C3 counterexample: on the six-character JSON array `["x]"]` — a
string value containing an unmatched `]` inside quotes — stage-2
extraction truncates early at that quoted `]`, returning `["x]` instead
of the full balanced structure. -/
theorem c3_counterexample :
    stage2Extract '[' ']' (strL ("[\"x]\"]")) = some (strL ("[\"x]")) ∧
    strL ("[\"x]") ≠ strL ("[\"x]\"]") := ⟨rfl, by decide⟩

/-- C3 (amended): stage-2 extraction returns the substring of the input
that starts at the first opening bracket and ends at the first position
where the RAW bracket balance (counting every bracket character,
including those inside quoted string values) returns to zero; it is not
quote-aware, so a quoted unmatched closing bracket does truncate the
extraction early. -/
theorem c3_amended (s t : Str) (h : stage2Extract '[' ']' s = some t) :
    ∃ i : Nat, findCharIdx '[' s = some i ∧
      t = (s.drop i).take t.length ∧
      t.head? = some '[' ∧
      brBal '[' ']' t = 0 ∧
      ∀ j : Nat, 0 < j → j < t.length → brBal '[' ']' (t.take j) ≠ 0 := by
  unfold stage2Extract at h
  cases hfi : findCharIdx '[' s with
  | none =>
      rw [hfi] at h
      dsimp only [] at h
      cases h
  | some i =>
      rw [hfi] at h
      dsimp only [] at h
      cases hbs : bracketScanCore '[' ']' (s.drop i) 0 0 with
      | none =>
          rw [hbs] at h
          dsimp only [] at h
          cases h
      | some e =>
          rw [hbs] at h
          dsimp only [] at h
          obtain rfl : (s.drop i).take e = t := Option.some.inj h
          obtain ⟨r, hdrop⟩ := findCharIdx_drop '[' s i hfi
          rw [hdrop] at hbs
          rw [show bracketScanCore '[' ']' ('[' :: r) 0 0 =
              bracketScanCore '[' ']' r 1 1 from by simp [bracketScanCore]] at hbs
          obtain ⟨m, hm0, hmlen, he, hbal, hpre⟩ :=
            bracketScanCore_spec '[' ']' r 1 1 e (by omega) hbs
          have he' : e = m + 1 := by omega
          subst he'
          have hlen2 : ((s.drop i).take (m + 1)).length = m + 1 := by
            rw [hdrop, List.take_succ_cons]
            simp only [List.length_cons, List.length_take]
            omega
          refine ⟨i, rfl, ?_, ?_, ?_, ?_⟩
          · rw [hlen2]
          · rw [hdrop, List.take_succ_cons]
            rfl
          · rw [hdrop, List.take_succ_cons, brBal_cons]
            simp only [if_pos rfl]
            exact hbal
          · intro j hj0 hjlen
            rw [hlen2] at hjlen
            obtain ⟨j', rfl⟩ : ∃ j', j = j' + 1 := ⟨j - 1, by omega⟩
            rw [hdrop, List.take_succ_cons, List.take_succ_cons, List.take_take]
            have hmin : min j' m = j' := by omega
            rw [hmin, brBal_cons]
            simp only [if_pos rfl]
            exact hpre j' (by omega)

/-- Witness for C3 (amended) at the well-formed input `[1]`, which is
extracted whole. -/
theorem c3_amended_witness :
    ∃ i : Nat, findCharIdx '[' (strL ("[1]")) = some i ∧
      strL ("[1]") = ((strL ("[1]")).drop i).take (strL ("[1]")).length ∧
      (strL ("[1]")).head? = some '[' ∧
      brBal '[' ']' (strL ("[1]")) = 0 ∧
      ∀ j : Nat, 0 < j → j < (strL ("[1]")).length →
        brBal '[' ']' ((strL ("[1]")).take j) ≠ 0 :=
  c3_amended (strL ("[1]")) (strL ("[1]")) rfl

theorem bind_ok_elim {α β : Type} {A : Except PyErr α} {k : α → Except PyErr β} {b : β}
    (h : A >>= k = .ok b) : ∃ a, A = .ok a ∧ k a = .ok b := by
  cases A with
  | error e => simp [Bind.bind, Except.bind] at h
  | ok a => exact ⟨a, rfl, h⟩

/-- Every record successfully built by the per-record body of
`enhance_local_recommendations_for_ui` carries the four UI fields. -/
theorem enhanceRecLocal_keys (rec out : PyVal) (h : enhanceRecLocal rec = .ok out) :
    hasUIKeysB out = true := by
  unfold enhanceRecLocal at h
  repeat obtain ⟨_, _, h⟩ := bind_ok_elim h
  split at h
  all_goals repeat obtain ⟨_, _, h⟩ := bind_ok_elim h
  all_goals try split at h
  all_goals repeat obtain ⟨_, _, h⟩ := bind_ok_elim h
  all_goals try split at h
  all_goals repeat obtain ⟨_, _, h⟩ := bind_ok_elim h
  all_goals cases h
  all_goals rfl

theorem localPartialRec_keys (sci com loc : List Str) (i : Nat) :
    hasUIKeysB (localPartialRec sci com loc i) = true := rfl

theorem local_fallback_keys :
    ∀ r ∈ local_create_fallback_recommendations, hasUIKeysB r = true := by
  intro r hr
  simp only [local_create_fallback_recommendations, List.mem_cons,
    List.not_mem_nil, or_false] at hr
  rcases hr with rfl | rfl
  · rfl
  · rfl

/-- The partial extraction of local_api.py always returns a non-empty
list (at most 5 synthesized records, else the two fallback records), and
each record carries the four UI fields. -/
theorem local_partial_spec (text : Str) :
    1 ≤ (local_extract_partial_recommendations text).length ∧
    ∀ r ∈ local_extract_partial_recommendations text, hasUIKeysB r = true := by
  simp only [local_extract_partial_recommendations]
  split
  · refine ⟨by decide, local_fallback_keys⟩
  · rename_i hne
    constructor
    · have h1 : ¬ ((List.range (Nat.min (findAllField kSci (text.length + 1) text).length 5)).map
          (localPartialRec (findAllField kSci (text.length + 1) text)
            (findAllField kCommon (text.length + 1) text)
            (findAllField kLocal (text.length + 1) text))) = [] := by
        simpa using hne
      have := List.length_pos.mpr h1
      omega
    · intro r hr
      obtain ⟨i, _, rfl⟩ := List.mem_map.mp hr
      rfl

theorem mapE_enhanceLocal_spec (l0 l : List PyVal)
    (h : mapE enhanceRecLocal l0 = .ok l) :
    l.length = l0.length ∧ ∀ r ∈ l, hasUIKeysB r = true :=
  ⟨mapE_length _ l0 l h, fun r hr => by
    obtain ⟨x, _, hx⟩ := mapE_mem _ l0 l h r hr
    exact enhanceRecLocal_keys x r hx⟩

theorem localArrayBranch_spec (ct : Str) (l : List PyVal)
    (h : localArrayBranch ct = .ok (some l)) :
    1 ≤ l.length ∧ ∀ r ∈ l, hasUIKeysB r = true := by
  unfold localArrayBranch at h
  cases hx : stage2Extract '[' ']' ct with
  | none => rw [hx] at h; dsimp only [] at h; cases h
  | some js0 =>
      rw [hx] at h
      dsimp only [] at h
      cases hj : json_loads (clean_json_string js0) with
      | ok data =>
          rw [hj] at h
          dsimp only [] at h
          cases data with
          | list l0 =>
              dsimp only [] at h
              split at h
              · rename_i hcond
                obtain ⟨l1, hn, h⟩ := bind_ok_elim h
                obtain ⟨l2, he, h⟩ := bind_ok_elim h
                have hl : l2 = l := Option.some.inj (Except.ok.inj h)
                subst hl
                have hme : mapE enhanceRecLocal l1 = .ok l2 := by
                  simpa [enhance_local_recommendations_for_ui] using he
                obtain ⟨hlen2, hkeys⟩ := mapE_enhanceLocal_spec l1 l2 hme
                have hlen1 := mapE_length normalize_recommendation_fields l0 l1 hn
                refine ⟨?_, hkeys⟩
                have h1 : ¬ l0 = [] := by simpa using hcond
                have := List.length_pos.mpr h1
                omega
              · cases h
          | none => dsimp only [] at h; cases h
          | bool b => dsimp only [] at h; cases h
          | num a => dsimp only [] at h; cases h
          | str s2 => dsimp only [] at h; cases h
          | dict d => dsimp only [] at h; cases h
      | error e =>
          rw [hj] at h
          dsimp only [] at h
          cases hj2 : json_loads (local_fix_json_error (clean_json_string js0) e) with
          | error e2 => rw [hj2] at h; dsimp only [] at h; cases h
          | ok data2 =>
              rw [hj2] at h
              dsimp only [] at h
              cases data2 with
              | list l2 =>
                  dsimp only [] at h
                  split at h
                  · rename_i hcond
                    cases henh : enhance_local_recommendations_for_ui l2 with
                    | error e3 => rw [henh] at h; dsimp only [] at h; cases h
                    | ok l3 =>
                        rw [henh] at h
                        dsimp only [] at h
                        have hl : l3 = l := Option.some.inj (Except.ok.inj h)
                        subst hl
                        obtain ⟨hlen2, hkeys⟩ := mapE_enhanceLocal_spec l2 l3 (by
                          simpa [enhance_local_recommendations_for_ui] using henh)
                        refine ⟨?_, hkeys⟩
                        have h1 : ¬ l2 = [] := by simpa using hcond
                        have := List.length_pos.mpr h1
                        omega
                  · cases h
              | none => dsimp only [] at h; cases h
              | bool b => dsimp only [] at h; cases h
              | num a => dsimp only [] at h; cases h
              | str s2 => dsimp only [] at h; cases h
              | dict d => dsimp only [] at h; cases h

theorem localObjectBranch_spec (ct : Str) (l : List PyVal)
    (h : localObjectBranch ct = .ok (some l)) :
    1 ≤ l.length ∧ ∀ r ∈ l, hasUIKeysB r = true := by
  unfold localObjectBranch at h
  cases hx : stage2Extract '\x7b' '\x7d' ct with
  | none => rw [hx] at h; dsimp only [] at h; cases h
  | some js0 =>
      rw [hx] at h
      dsimp only [] at h
      cases hj : json_loads (clean_json_string js0) with
      | error e => rw [hj] at h; dsimp only [] at h; cases h
      | ok data =>
          rw [hj] at h
          dsimp only [] at h
          obtain ⟨recs, hrecs, h⟩ := bind_ok_elim h
          split at h
          · rename_i ht
            obtain ⟨recs', hnorm, h⟩ := bind_ok_elim h
            obtain ⟨l2, henh, h⟩ := bind_ok_elim h
            have hl : l2 = l := Option.some.inj (Except.ok.inj h)
            subst hl
            cases recs with
            | list l0 =>
                cases hm : mapE normalize_recommendation_fields l0 with
                | error e2 => simp [normIterLoop, hm] at hnorm
                | ok l1 =>
                    have hr' : recs' = .list l1 := by
                      have h2 := hnorm
                      simp only [normIterLoop, hm] at h2
                      exact (Except.ok.inj h2).symm
                    subst hr'
                    have hme : mapE enhanceRecLocal l1 = .ok l2 := by
                      simpa [enhance_local_any, enhance_local_recommendations_for_ui] using henh
                    obtain ⟨hlen2, hkeys⟩ := mapE_enhanceLocal_spec l1 l2 hme
                    have hlen1 := mapE_length normalize_recommendation_fields l0 l1 hm
                    refine ⟨?_, hkeys⟩
                    have h1 : ¬ l0 = [] := by simpa [truthy] using ht
                    have := List.length_pos.mpr h1
                    omega
            | none => simp [normIterLoop] at hnorm
            | bool b => simp [normIterLoop] at hnorm
            | num a => simp [normIterLoop] at hnorm
            | str s2 => simp [normIterLoop] at hnorm
            | dict d => simp [normIterLoop] at hnorm
          · cases h

theorem localInner_spec (ct : Str) (l : List PyVal) (h : localInner ct = .ok l) :
    1 ≤ l.length ∧ ∀ r ∈ l, hasUIKeysB r = true := by
  unfold localInner at h
  obtain ⟨ar, har, h⟩ := bind_ok_elim h
  cases ar with
  | some l1 =>
      dsimp only [] at h
      obtain rfl : l1 = l := Except.ok.inj h
      exact localArrayBranch_spec ct l1 har
  | none =>
      dsimp only [] at h
      obtain ⟨ob, hob, h⟩ := bind_ok_elim h
      cases ob with
      | some l2 =>
          dsimp only [] at h
          obtain rfl : l2 = l := Except.ok.inj h
          exact localObjectBranch_spec ct l2 hob
      | none =>
          dsimp only [] at h
          obtain rfl : local_extract_partial_recommendations ct = l := Except.ok.inj h
          exact local_partial_spec ct

/-- Shared backbone for C1 and C2 on the local pipeline: the returned
list is non-empty and every record carries the four UI fields. -/
theorem parse_local_spec (s : Str) :
    1 ≤ (parse_enhanced_local_response s).length ∧
    ∀ r ∈ parse_enhanced_local_response s, hasUIKeysB r = true := by
  unfold parse_enhanced_local_response
  cases hinner : localInner (cleanupFences s) with
  | ok l =>
      dsimp only []
      exact localInner_spec _ l hinner
  | error e =>
      dsimp only []
      exact local_partial_spec s

theorem gemini_partial_len (text : Str) :
    1 ≤ (gemini_extract_partial_recommendations text).length ∧
    (gemini_extract_partial_recommendations text).length ≤ 5 := by
  simp only [gemini_extract_partial_recommendations]
  split
  · rename_i hne
    have h1 : ¬ ((List.range (Nat.min (Nat.min
        (findAllField kSci (text.length + 1) text).length
        (findAllField kCommon (text.length + 1) text).length) 5)).map
          (geminiPartialRec (findAllField kSci (text.length + 1) text)
            (findAllField kCommon (text.length + 1) text)
            (findAllField kLocal (text.length + 1) text))) = [] := by
      simpa using hne
    have := List.length_pos.mpr h1
    constructor
    · omega
    · simp only [List.length_map, List.length_range]
      exact Nat.min_le_right _ _
  · exact ⟨by decide, by decide⟩

theorem enhance_gemini_len (recs : PyVal) (l : List PyVal)
    (h : enhance_recommendations_for_ui recs = .ok l) (ht : truthy recs = true) :
    1 ≤ l.length := by
  cases recs with
  | list l0 =>
      have hme : mapE enhanceRecGemini l0 = .ok l := by
        simpa [enhance_recommendations_for_ui] using h
      have hlen := mapE_length enhanceRecGemini l0 l hme
      have h1 : ¬ l0 = [] := by simpa [truthy] using ht
      have := List.length_pos.mpr h1
      omega
  | none => simp [enhance_recommendations_for_ui] at h
  | bool b => simp [enhance_recommendations_for_ui] at h
  | num a => simp [enhance_recommendations_for_ui] at h
  | str s => simp [enhance_recommendations_for_ui] at h
  | dict d => simp [enhance_recommendations_for_ui] at h

theorem geminiAttempts_len (ct : Str) :
    ∀ (n : Nat) (js : Str) (r : Option (List PyVal)),
      geminiAttempts n js ct = .ok r →
      r = Option.none ∨ ∃ l, r = some l ∧ 1 ≤ l.length := by
  intro n
  induction n with
  | zero =>
      intro js r h
      simp only [geminiAttempts] at h
      exact Or.inl (Except.ok.inj h).symm
  | succ n ih =>
      intro js r h
      simp only [geminiAttempts] at h
      cases hj : json_loads js with
      | ok data =>
          rw [hj] at h
          dsimp only [] at h
          obtain ⟨recs, hrecs, h⟩ := bind_ok_elim h
          split at h
          · rename_i ht
            obtain ⟨l, hl, h⟩ := bind_ok_elim h
            obtain rfl : some l = r := Except.ok.inj h
            exact Or.inr ⟨l, rfl, enhance_gemini_len recs l hl ht⟩
          · exact ih js r h
      | error e =>
          rw [hj] at h
          dsimp only [] at h
          split at h
          · exact ih _ r h
          · obtain rfl : some (gemini_extract_partial_recommendations ct) = r :=
              Except.ok.inj h
            exact Or.inr ⟨_, rfl, (gemini_partial_len ct).1⟩

theorem geminiInner_len (ct : Str) (r : Option (List PyVal))
    (h : geminiInner ct = .ok r) :
    r = Option.none ∨ ∃ l, r = some l ∧ 1 ≤ l.length := by
  unfold geminiInner at h
  cases hx : stage2Extract '\x7b' '\x7d' ct with
  | none =>
      rw [hx] at h
      dsimp only [] at h
      obtain rfl : some (gemini_extract_partial_recommendations ct) = r := Except.ok.inj h
      exact Or.inr ⟨_, rfl, (gemini_partial_len ct).1⟩
  | some js0 =>
      rw [hx] at h
      dsimp only [] at h
      exact geminiAttempts_len ct 3 _ r h

/-- C1 counterexample: the gemini recovery path neither caps at 5 (a
valid response with six recommendation objects yields six records) nor
always returns a list (a JSON object with no recommendations makes the
Python function run off the end of its repair loop and return `None`). -/
theorem c1_counterexample :
    (parse_enhanced_gemini_response
        (strL ("\x7b\"recommendations\":[\x7b\x7d,\x7b\x7d,\x7b\x7d,\x7b\x7d,\x7b\x7d,\x7b\x7d]\x7d"))).map
      List.length = some 6 ∧
    parse_enhanced_gemini_response (strL ("\x7b\x7d")) = Option.none := ⟨rfl, rfl⟩

/-- C1 (amended): the local recovery function never raises and always
returns at least one record (only its synthesized-partial path is capped
at 5; the JSON happy path is not), while the gemini recovery function
never raises but returns either `None` or a list of at least one record
(again with no 5-record cap on the JSON happy path). -/
theorem c1_amended (s : Str) :
    1 ≤ (parse_enhanced_local_response s).length ∧
    (parse_enhanced_gemini_response s = Option.none ∨
      ∃ l, parse_enhanced_gemini_response s = some l ∧ 1 ≤ l.length) := by
  refine ⟨(parse_local_spec s).1, ?_⟩
  unfold parse_enhanced_gemini_response
  cases hinner : geminiInner (cleanupFences s) with
  | ok r =>
      dsimp only []
      exact geminiInner_len _ r hinner
  | error e =>
      dsimp only []
      exact Or.inr ⟨_, rfl, (gemini_partial_len s).1⟩

/-- C2 counterexample: on the gemini backend, a well-formed response
whose single record lacks the water/sun/planting fields passes through
`enhance_recommendations_for_ui` unchanged in those fields — the
returned record has no `water_requirements` key at all. -/
theorem c2_counterexample :
    (parse_enhanced_gemini_response
        (strL ("\x7b\"recommendations\":[\x7b\"scientific_name\":\"X\"\x7d]\x7d"))).map
      (fun l => l.map hasUIKeysB) = some [false] ∧
    (parse_enhanced_gemini_response
        (strL ("\x7b\"recommendations\":[\x7b\"scientific_name\":\"X\"\x7d]\x7d"))).map
      (fun l => l.map (fun r => pvGetKey r kWaterReq)) = some [Option.none] := ⟨rfl, rfl⟩

/-- C2 (amended): every record returned by the local pipeline is a dict
in which `water_requirements` is a dict containing `mature_plant`,
`sunlight_requirements` is a dict containing `daily_hours_needed`, and
the keys `planting_window` and `sustainability_highlights` are present
(the stored values mirror the model output, so they need not be
non-empty; the gemini pipeline gives no such guarantee at all). -/
theorem c2_amended (s : Str) (r : PyVal) (hr : r ∈ parse_enhanced_local_response s) :
    hasUIKeysB r = true := (parse_local_spec s).2 r hr

/-- Witness for C2 (amended): the first fallback record returned on an
empty response carries all four UI fields. -/
theorem c2_amended_witness :
    hasUIKeysB (local_create_fallback_recommendations.getD 0 PyVal.none) = true :=
  c2_amended (strL ("")) (local_create_fallback_recommendations.getD 0 PyVal.none)
    (List.mem_cons_self _ _)

theorem lookupKey_mem_keys (k : Str) (v : PyVal) :
    ∀ (d : List (Str × PyVal)), lookupKey d k = some v → k ∈ d.map Prod.fst := by
  intro d
  induction d with
  | nil => intro h; simp [lookupKey] at h
  | cons p rest ih =>
      obtain ⟨k', v'⟩ := p
      intro h
      simp only [lookupKey] at h
      by_cases hk : k' = k
      · subst hk
        simp only [List.map_cons, List.mem_cons]
        exact Or.inl trivial
      · rw [if_neg hk] at h
        simp only [List.map_cons, List.mem_cons]
        exact Or.inr (ih h)

theorem dSet_self (k : Str) (v : PyVal) :
    ∀ (d : List (Str × PyVal)), lookupKey d k = some v → dSet d k v = d := by
  intro d
  induction d with
  | nil => intro h; simp [lookupKey] at h
  | cons p rest ih =>
      obtain ⟨k', v'⟩ := p
      intro h
      simp only [lookupKey] at h
      simp only [dSet]
      by_cases hk : k' = k
      · rw [if_pos hk] at h ⊢
        obtain rfl : v' = v := Option.some.inj h
        rfl
      · rw [if_neg hk] at h ⊢
        rw [ih h]

theorem keys_dSet (k : Str) (v u : PyVal) :
    ∀ (d : List (Str × PyVal)), lookupKey d k = some u →
      (dSet d k v).map Prod.fst = d.map Prod.fst := by
  intro d
  induction d with
  | nil => intro h; simp [lookupKey] at h
  | cons p rest ih =>
      obtain ⟨k', v'⟩ := p
      intro h
      simp only [lookupKey] at h
      simp only [dSet]
      by_cases hk : k' = k
      · rw [if_pos hk]; simp
      · rw [if_neg hk] at h ⊢
        simp only [List.map_cons]
        rw [ih h]

theorem dGet_congr (d e : List (Str × PyVal)) (k : Str) (dflt : PyVal)
    (h : lookupKey d k = lookupKey e k) : dGet d k dflt = dGet e k dflt := by
  unfold dGet
  rw [h]

theorem dGet_lookup (w : List (Str × PyVal)) (k : Str) (v : PyVal)
    (h : dGet w k .none = v) :
    (v = .none ∧ lookupKey w k = Option.none) ∨ lookupKey w k = some v := by
  unfold dGet at h
  cases hl : lookupKey w k with
  | none => rw [hl] at h; dsimp only [] at h; exact Or.inl ⟨h.symm, rfl⟩
  | some u => rw [hl] at h; dsimp only [] at h; exact Or.inr (by rw [h])

theorem truthy_dGet_lookup (w : List (Str × PyVal)) (k : Str)
    (h : truthy (dGet w k .none) = true) :
    ∃ v, lookupKey w k = some v ∧ truthy v = true := by
  cases hl : lookupKey w k with
  | none =>
      rw [show dGet w k .none = .none from by unfold dGet; rw [hl]] at h
      simp [truthy] at h
  | some v =>
      refine ⟨v, rfl, ?_⟩
      rw [show dGet w k .none = v from by unfold dGet; rw [hl]] at h
      exact h

theorem dHasKey_of_lookup (w : List (Str × PyVal)) (k : Str) (v : PyVal)
    (h : lookupKey w k = some v) : dHasKey w k = true := by
  unfold dHasKey
  rw [h]

theorem toLower_of_digit (c : Char) (h : c.isDigit = true) : c.toLower = c := by
  simp only [Char.isDigit, decide_eq_true_eq, Bool.and_eq_true] at h
  obtain ⟨h1, h2⟩ := h
  have h2n : c.toNat ≤ 57 := h2
  simp only [Char.toLower]
  rw [if_neg]
  omega

theorem scanFirst_some {α : Type} (m : Str → Option α) :
    ∀ (s : Str) (g : α), scanFirst m s = some g → ∃ t, m t = some g := by
  intro s
  induction s with
  | nil => intro g h; exact ⟨[], by simpa [scanFirst] using h⟩
  | cons c r ih =>
      intro g h
      simp only [scanFirst] at h
      cases hm : m (c :: r) with
      | some g2 =>
          rw [hm] at h
          dsimp only [] at h
          exact ⟨c :: r, by rw [hm, h]⟩
      | none =>
          rw [hm] at h
          dsimp only [] at h
          exact ih g h

theorem firstM_some {α β : Type} (f : α → Option β) :
    ∀ (l : List α) (b : β), l.firstM f = some b → ∃ a ∈ l, f a = some b := by
  intro l
  induction l with
  | nil => intro b h; simp [List.firstM] at h
  | cons x r ih =>
      intro b h
      simp only [List.firstM] at h
      cases hfx : f x with
      | some c =>
          rw [hfx] at h
          simp only [Option.some_orElse] at h
          exact ⟨x, List.mem_cons_self x r, by rw [hfx, h]⟩
      | none =>
          rw [hfx] at h
          simp only [Option.none_orElse] at h
          obtain ⟨a, ha, hfa⟩ := ih b h
          exact ⟨a, List.mem_cons_of_mem x ha, hfa⟩

theorem takeDigits_digits :
    ∀ (s ds rest : Str), takeDigits s = (ds, rest) → ∀ c ∈ ds, c.isDigit = true := by
  intro s
  induction s with
  | nil =>
      intro ds rest h c hc
      simp only [takeDigits] at h
      cases h
      simp at hc
  | cons x r ih =>
      intro ds rest h c hc
      simp only [takeDigits] at h
      by_cases hx : x.isDigit
      · rw [if_pos hx] at h
        rcases htd : takeDigits r with ⟨ds', rest'⟩
        rw [htd] at h
        dsimp only [] at h
        cases h
        rcases List.mem_cons.mp hc with rfl | hc2
        · exact hx
        · exact ih ds' _ htd c hc2
      · rw [if_neg hx] at h
        cases h
        simp at hc

theorem numCand_cases (s : Str) (x : Str × PyNum × Str) (hx : x ∈ numCand s) :
    (∃ ds rest, takeDigits s = (ds, rest) ∧ x.1 = ds) ∨
    (∃ ds r2 fs rest2, takeDigits s = (ds, '.' :: r2) ∧ takeDigits r2 = (fs, rest2) ∧
      x.1 = ds ++ '.' :: fs) := by
  unfold numCand at hx
  rcases htd : takeDigits s with ⟨ds, rest⟩
  rw [htd] at hx
  cases ds with
  | nil =>
      dsimp only [] at hx
      simp at hx
  | cons d0 ds2 =>
      cases rest with
      | nil =>
          dsimp only [] at hx
          simp only [List.mem_cons, List.not_mem_nil, or_false] at hx
          subst hx
          exact Or.inl ⟨_, _, rfl, rfl⟩
      | cons c2 r2 =>
          dsimp only [] at hx
          split at hx
          · rename_i rest1 r2b heq
            injection heq with hc2 hr2
            subst hc2
            subst hr2
            rcases htd2 : takeDigits r2 with ⟨fs, rest2⟩
            rw [htd2] at hx
            cases fs with
            | nil =>
                dsimp only [] at hx
                simp only [List.mem_cons, List.not_mem_nil, or_false] at hx
                subst hx
                exact Or.inl ⟨_, _, rfl, rfl⟩
            | cons f0 fs2 =>
                dsimp only [] at hx
                simp only [List.mem_cons, List.not_mem_nil, or_false] at hx
                rcases hx with rfl | rfl
                · exact Or.inr ⟨_, _, _, _, rfl, htd2, rfl⟩
                · exact Or.inl ⟨_, _, rfl, rfl⟩
          · simp only [List.mem_cons, List.not_mem_nil, or_false] at hx
            subst hx
            exact Or.inl ⟨_, _, rfl, rfl⟩

theorem numCand_txt (s : Str) (x : Str × PyNum × Str) (hx : x ∈ numCand s) :
    ∀ c ∈ x.1, c.isDigit = true ∨ c = '.' := by
  intro c hc
  rcases numCand_cases s x hx with ⟨ds, rest, htd, hx1⟩ | ⟨ds, r2, fs, rest2, htd, htd2, hx1⟩
  · rw [hx1] at hc
    exact Or.inl (takeDigits_digits s ds rest htd c hc)
  · rw [hx1] at hc
    rcases List.mem_append.mp hc with hc1 | hc2
    · exact Or.inl (takeDigits_digits s ds _ htd c hc1)
    · rcases List.mem_cons.mp hc2 with rfl | hc3
      · exact Or.inr rfl
      · exact Or.inl (takeDigits_digits r2 fs rest2 htd2 c hc3)

theorem containsSub_cons (c : Char) (s p : Str) :
    containsSub (c :: s) p = (begins (c :: s) p || containsSub s p) := rfl

/-- A number text (digits and dots) followed by `" liters per week"`
contains none of the frequency trigger words. -/
theorem hasFreqTrigger_num_prefix :
    ∀ (txt : Str), (∀ c ∈ txt, c.isDigit = true ∨ c = '.') →
      hasFreqTrigger (txt ++ strL (" liters per week")) = false := by
  intro txt
  induction txt with
  | nil => intro _; decide
  | cons c r ih =>
      intro h
      have hc := h c (List.mem_cons_self c r)
      have hlow : c.toLower = c := by
        rcases hc with hd | rfl
        · exact toLower_of_digit c hd
        · decide
      have hrr := ih (fun c2 hc2 => h c2 (List.mem_cons_of_mem c hc2))
      have hne : ∀ p0 : Char, (p0 = 'd' ∨ p0 = 'w' ∨ p0 = 'a' ∨ p0 = 'e') →
          (c.toLower = p0) = False := by
        intro p0 hp0
        simp only [eq_iff_iff, iff_false]
        intro hEq
        rw [hlow] at hEq
        subst hEq
        rcases hc with hd | hdot
        · rcases hp0 with rfl | rfl | rfl | rfl <;> simp [Char.isDigit] at hd
        · rcases hp0 with rfl | rfl | rfl | rfl <;> simp at hdot
      simp only [hasFreqTrigger, lowerS, List.cons_append, List.map_cons] at hrr ⊢
      have hbd : begins (c.toLower :: List.map Char.toLower (r ++ strL (" liters per week")))
          (strL ("daily")) = false := by
        rw [show strL ("daily") = 'd' :: strL ("aily") from rfl]
        simp [begins, hne 'd' (Or.inl rfl)]
      have hbw : begins (c.toLower :: List.map Char.toLower (r ++ strL (" liters per week")))
          (strL ("weekly")) = false := by
        rw [show strL ("weekly") = 'w' :: strL ("eekly") from rfl]
        simp [begins, hne 'w' (Or.inr (Or.inl rfl))]
      have hba : begins (c.toLower :: List.map Char.toLower (r ++ strL (" liters per week")))
          (strL ("alternate")) = false := by
        rw [show strL ("alternate") = 'a' :: strL ("lternate") from rfl]
        simp [begins, hne 'a' (Or.inr (Or.inr (Or.inl rfl)))]
      have hbe : begins (c.toLower :: List.map Char.toLower (r ++ strL (" liters per week")))
          (strL ("every")) = false := by
        rw [show strL ("every") = 'e' :: strL ("very") from rfl]
        simp [begins, hne 'e' (Or.inr (Or.inr (Or.inr rfl)))]
      rw [containsSub_cons, containsSub_cons, containsSub_cons, containsSub_cons,
        hbd, hbw, hba, hbe]
      simp only [Bool.false_or]
      exact hrr

/-- Every string produced by `frequency_to_liters` is non-empty and free
of the trigger words, so a second pass of the conversion loop leaves it
alone. -/
theorem frequency_to_liters_ok (vs : Str) (pt : PyVal) (st : Str) (conv : Str)
    (h : frequency_to_liters vs pt st = .ok conv) :
    conv ≠ [] ∧ hasFreqTrigger conv = false := by
  unfold frequency_to_liters at h
  split at h
  · obtain rfl : strL ("25-40 liters per week") = conv := Except.ok.inj h
    exact ⟨by decide, by decide⟩
  · dsimp only [] at h
    split at h
    · obtain ⟨p, hp, h⟩ := bind_ok_elim h
      split at h
      · rename_i numText hscan
        obtain rfl : numText ++ strL (" liters per week") = conv := Except.ok.inj h
        obtain ⟨t2, hm⟩ := scanFirst_some litersNumTextAt (lowerS vs) numText hscan
        obtain ⟨x, hxmem, hxf⟩ :=
          firstM_some _ (numCand t2) numText (by simpa [litersNumTextAt] using hm)
        have hx1 : x.1 = numText := by
          rcases x with ⟨txt, v, rest⟩
          dsimp only [] at hxf ⊢
          split at hxf
          · exact Option.some.inj hxf
          · cases hxf
        have hdig := numCand_txt t2 x hxmem
        rw [hx1] at hdig
        refine ⟨?_, hasFreqTrigger_num_prefix numText hdig⟩
        intro hh
        rw [List.append_eq_nil] at hh
        exact absurd hh.2 (by decide)
      · repeat' split at h
        all_goals
          obtain rfl : _ = conv := Except.ok.inj h
        all_goals exact ⟨by decide, by decide⟩
    · cases h

/-- The conversion loop is the identity on a dict whose string values
carry no trigger word. -/
theorem waterFreqLoop_clean (pt : PyVal) :
    ∀ (ks : List Str) (w : List (Str × PyVal)),
      (∀ k v, lookupKey w k = some v → noTrigV v = true) →
      waterFreqLoop pt ks w = .ok w := by
  intro ks
  induction ks with
  | nil => intro w _; rfl
  | cons k0 ks2 ih =>
      intro w hw
      simp only [waterFreqLoop]
      cases hv : dGet w k0 .none with
      | str vs =>
          dsimp only []
          have hlk : lookupKey w k0 = some (.str vs) := by
            rcases dGet_lookup w k0 _ hv with ⟨hc, _⟩ | hl
            · cases hc
            · exact hl
          have hnt := hw k0 _ hlk
          simp only [noTrigV, Bool.not_eq_true'] at hnt
          rw [if_neg (by simp [hnt] : ¬ hasFreqTrigger vs = true)]
          exact ih w hw
      | none => exact ih w hw
      | bool b => exact ih w hw
      | num a => exact ih w hw
      | list l => exact ih w hw
      | dict d => exact ih w hw

/-- What one pass of the conversion loop guarantees: keys are preserved,
truthiness of values is preserved, visited string values are left with no
trigger word, and unvisited keys keep their values. -/
theorem waterFreqLoop_spec (pt : PyVal) :
    ∀ (ks : List Str) (w w' : List (Str × PyVal)),
      waterFreqLoop pt ks w = .ok w' →
      w'.map Prod.fst = w.map Prod.fst ∧
      (∀ k, truthy (dGet w k .none) = true → truthy (dGet w' k .none) = true) ∧
      (∀ k v', lookupKey w' k = some v' →
        (k ∈ ks → noTrigV v' = true) ∧ (k ∉ ks → lookupKey w k = some v')) := by
  intro ks
  induction ks with
  | nil =>
      intro w w' h
      obtain rfl : w = w' := Except.ok.inj h
      exact ⟨rfl, fun k hk => hk,
        fun k v' hl => ⟨fun hk => absurd hk (List.not_mem_nil k), fun _ => hl⟩⟩
  | cons k0 ks2 ih =>
      intro w w' h
      simp only [waterFreqLoop] at h
      split at h
      · rename_i vs heq
        split at h
        · rename_i hft
          obtain ⟨conv, hconv, h⟩ := bind_ok_elim h
          obtain ⟨hk2, ht2, hp2⟩ := ih (dSet w k0 (.str conv)) w' h
          have hlk : lookupKey w k0 = some (.str vs) := by
            rcases dGet_lookup w k0 _ heq with ⟨hc, _⟩ | hl
            · cases hc
            · exact hl
          obtain ⟨hcne, hcnt⟩ := frequency_to_liters_ok vs pt _ conv hconv
          refine ⟨?_, ?_, ?_⟩
          · rw [hk2, keys_dSet k0 (.str conv) _ w hlk]
          · intro k hk
            apply ht2 k
            by_cases hkk : k = k0
            · subst hkk
              have hset : dGet (dSet w k (.str conv)) k PyVal.none = .str conv := by
                unfold dGet
                rw [lookupKey_dSet_self]
              rw [hset]
              simp [truthy, hcne]
            · have hset : dGet (dSet w k0 (.str conv)) k PyVal.none = dGet w k PyVal.none := by
                unfold dGet
                rw [lookupKey_dSet_ne _ _ _ _ (fun he => hkk he.symm)]
              rw [hset]
              exact hk
          · intro k v' hl'
            obtain ⟨h3a, h3b⟩ := hp2 k v' hl'
            constructor
            · intro hk
              rcases List.mem_cons.mp hk with rfl | hk2m
              · by_cases hk0 : k ∈ ks2
                · exact h3a hk0
                · have hx := h3b hk0
                  rw [lookupKey_dSet_self] at hx
                  obtain rfl : PyVal.str conv = v' := Option.some.inj hx
                  simp [noTrigV, hcnt]
              · exact h3a hk2m
            · intro hk
              have hkne : k ≠ k0 := fun he => hk (he ▸ List.mem_cons_self k0 ks2)
              have hkm : k ∉ ks2 := fun he => hk (List.mem_cons_of_mem k0 he)
              have hx := h3b hkm
              rw [lookupKey_dSet_ne _ _ _ _ (fun he => hkne he.symm)] at hx
              exact hx
        · rename_i hft
          obtain ⟨hk2, ht2, hp2⟩ := ih w w' h
          have hlk : lookupKey w k0 = some (.str vs) := by
            rcases dGet_lookup w k0 _ heq with ⟨hc, _⟩ | hl
            · cases hc
            · exact hl
          refine ⟨hk2, ht2, ?_⟩
          intro k v' hl'
          obtain ⟨h3a, h3b⟩ := hp2 k v' hl'
          constructor
          · intro hk
            rcases List.mem_cons.mp hk with rfl | hk2m
            · by_cases hk0 : k ∈ ks2
              · exact h3a hk0
              · have hx := h3b hk0
                rw [hlk] at hx
                obtain rfl : PyVal.str vs = v' := Option.some.inj hx
                simpa [noTrigV] using hft
            · exact h3a hk2m
          · exact fun hk => h3b (fun he => hk (List.mem_cons_of_mem k0 he))
      · rename_i hnotstr
        obtain ⟨hk2, ht2, hp2⟩ := ih w w' h
        refine ⟨hk2, ht2, ?_⟩
        intro k v' hl'
        obtain ⟨h3a, h3b⟩ := hp2 k v' hl'
        constructor
        · intro hk
          rcases List.mem_cons.mp hk with rfl | hk2m
          · by_cases hk0 : k ∈ ks2
            · exact h3a hk0
            · have hx := h3b hk0
              have hg : dGet w k PyVal.none = v' := by
                unfold dGet
                rw [hx]
              cases v' with
              | str vs => exact absurd hg (by exact fun hh => hnotstr vs hh)
              | none => rfl
              | bool b => rfl
              | num a => rfl
              | list l => rfl
              | dict d => rfl
          · exact h3a hk2m
        · exact fun hk => h3b (fun he => hk (List.mem_cons_of_mem k0 he))

theorem dGet_dSet_self (u : List (Str × PyVal)) (k : Str) (v dflt : PyVal) :
    dGet (dSet u k v) k dflt = v := by
  unfold dGet
  rw [lookupKey_dSet_self]

theorem dGet_dSet_ne (u : List (Str × PyVal)) (k k' : Str) (v dflt : PyVal)
    (h : k ≠ k') : dGet (dSet u k v) k' dflt = dGet u k' dflt := by
  unfold dGet
  rw [lookupKey_dSet_ne _ _ _ _ h]

theorem dGet_ite_dSet_ne (c : Prop) [Decidable c] (u : List (Str × PyVal))
    (k k' : Str) (v dflt : PyVal) (h : k ≠ k') :
    dGet (if c then dSet u k v else u) k' dflt = dGet u k' dflt := by
  by_cases hc : c
  · rw [if_pos hc, dGet_dSet_ne _ _ _ _ _ h]
  · rw [if_neg hc]

theorem truthy_pyOr_str (x : PyVal) (t : Str) (ht : truthy (.str t) = true) :
    truthy (pyOr x (.str t)) = true := by
  unfold pyOr
  by_cases hx : truthy x
  · rw [if_pos hx]; exact hx
  · rw [if_neg hx]; exact ht

theorem step_default_truthy (u : List (Str × PyVal)) (k : Str) (t : Str)
    (ht : truthy (.str t) = true) :
    truthy (dGet (if !truthy (dGet u k .none) then dSet u k (.str t) else u) k .none) = true := by
  by_cases hu : truthy (dGet u k PyVal.none)
  · rw [if_neg (by simp [hu])]
    exact hu
  · rw [if_pos (by simp [hu]), dGet_dSet_self]
    exact ht

theorem wSteps_stage (w0 : List (Str × PyVal)) :
    truthy (dGet (wSteps w0) kSeedlingStage .none) = true := by
  unfold wSteps
  rw [dGet_ite_dSet_ne _ _ _ _ _ _ (by decide : kMaturePlant ≠ kSeedlingStage)]
  rw [dGet_ite_dSet_ne _ _ _ _ _ _ (by decide : kMaturePlant ≠ kSeedlingStage)]
  exact step_default_truthy _ _ _ (by decide)

theorem wSteps_mature (w0 : List (Str × PyVal)) :
    truthy (dGet (wSteps w0) kMaturePlant .none) = true := by
  unfold wSteps
  exact step_default_truthy _ _ _ (by decide)

theorem truthy_dict_of_lookup (w : List (Str × PyVal)) (k : Str) (v : PyVal)
    (hl : lookupKey w k = some v) : truthy (.dict w) = true := by
  cases w with
  | nil => simp [lookupKey] at hl
  | cons p rest => rfl

/-- The water normalization steps leave `seedling_stage` and
`mature_plant` truthy and every string value trigger-free. -/
theorem normWaterSteps_spec (w0 : List (Str × PyVal)) (pt : PyVal) (w : List (Str × PyVal))
    (h : normWaterSteps w0 pt = .ok w) :
    truthy (dGet w kSeedlingStage .none) = true ∧
    truthy (dGet w kMaturePlant .none) = true ∧
    (∀ k v, lookupKey w k = some v → noTrigV v = true) := by
  unfold normWaterSteps at h
  obtain ⟨hkeys, htr, hp⟩ := waterFreqLoop_spec pt _ _ w h
  refine ⟨htr _ (wSteps_stage w0), htr _ (wSteps_mature w0), ?_⟩
  intro k v hl
  have hmem : k ∈ w.map Prod.fst := lookupKey_mem_keys k v w hl
  rw [hkeys] at hmem
  exact (hp k v hl).1 hmem

/-- The water normalization is a no-op on dicts that already satisfy the
invariant it establishes. -/
theorem normWaterSteps_idem (w : List (Str × PyVal)) (pt : PyVal)
    (h1 : truthy (dGet w kSeedlingStage .none) = true)
    (h2 : truthy (dGet w kMaturePlant .none) = true)
    (h3 : ∀ k v, lookupKey w k = some v → noTrigV v = true) :
    normWaterSteps w pt = .ok w := by
  obtain ⟨vs1, hlk1, htv1⟩ := truthy_dGet_lookup w kSeedlingStage h1
  obtain ⟨vs2, hlk2, htv2⟩ := truthy_dGet_lookup w kMaturePlant h2
  have hhk1 := dHasKey_of_lookup w _ _ hlk1
  have hhk2 := dHasKey_of_lookup w _ _ hlk2
  have hsteps : wSteps w = w := by
    unfold wSteps
    simp [hhk1, hhk2, h1, h2]
  unfold normWaterSteps
  rw [hsteps]
  exact waterFreqLoop_clean pt _ w h3

theorem sun_dhn_step_truthy (u : List (Str × PyVal)) :
    truthy (dGet (if !truthy (dGet u kDHN .none) then
        (if dHasKey u kDailyHours then
           dSet u kDHN (pyOr (dGet u kDailyHours .none) (.str (strL ("6-8 hours"))))
         else dSet u kDHN (.str (strL ("6-8 hours")))) else u) kDHN .none) = true := by
  by_cases hu : truthy (dGet u kDHN PyVal.none)
  · rw [if_neg (by simp [hu])]
    exact hu
  · rw [if_pos (by simp [hu])]
    by_cases hd : dHasKey u kDailyHours
    · rw [if_pos hd, dGet_dSet_self]
      exact truthy_pyOr_str _ _ (by decide)
    · rw [if_neg hd, dGet_dSet_self]
      decide

/-- The sunlight normalization leaves `daily_hours_needed` and
`light_intensity` truthy. -/
theorem normSunSteps_spec (s0 : List (Str × PyVal)) :
    truthy (dGet (normSunSteps s0) kDHN .none) = true ∧
    truthy (dGet (normSunSteps s0) kLightInt .none) = true := by
  constructor
  · unfold normSunSteps
    rw [dGet_ite_dSet_ne _ _ _ _ _ _ (by decide : kLightInt ≠ kDHN)]
    exact sun_dhn_step_truthy _
  · unfold normSunSteps
    exact step_default_truthy _ _ _ (by decide)

/-- The sunlight normalization is a no-op on dicts that already satisfy
the invariant it establishes. -/
theorem normSunSteps_idem (s : List (Str × PyVal))
    (h1 : truthy (dGet s kDHN .none) = true)
    (h2 : truthy (dGet s kLightInt .none) = true) :
    normSunSteps s = s := by
  obtain ⟨v1, hlk1, htv1⟩ := truthy_dGet_lookup s kDHN h1
  obtain ⟨v2, hlk2, htv2⟩ := truthy_dGet_lookup s kLightInt h2
  have hhk1 := dHasKey_of_lookup s _ _ hlk1
  have hhk2 := dHasKey_of_lookup s _ _ hlk2
  unfold normSunSteps
  simp [hhk1, hhk2, h1, h2]

theorem normWater_frame (r0 r1 : List (Str × PyVal)) (h : normWater r0 = .ok r1)
    (k : Str) (hk1 : k ≠ kWaterReq) (hk2 : k ≠ kWaterNeeds) :
    lookupKey r1 k = lookupKey r0 k := by
  unfold normWater at h
  split at h
  · obtain ⟨w, hw, h⟩ := bind_ok_elim h
    obtain rfl : dSet r0 kWaterReq (.dict w) = r1 := Except.ok.inj h
    rw [lookupKey_dSet_ne _ _ _ _ (fun he => hk1 he.symm)]
  · obtain ⟨w, hw, h⟩ := bind_ok_elim h
    obtain rfl : _ = r1 := Except.ok.inj h
    by_cases ht : truthy (dGet r0 kWaterNeeds PyVal.none) = true
    · rw [if_pos ht, lookupKey_dSet_ne _ _ _ _ (fun he => hk2 he.symm),
        lookupKey_dSet_ne _ _ _ _ (fun he => hk1 he.symm)]
    · rw [if_neg ht, lookupKey_dSet_ne _ _ _ _ (fun he => hk1 he.symm)]
  · cases h

theorem normSun_frame (r1 r2 : List (Str × PyVal)) (h : normSun r1 = .ok r2)
    (k : Str) (hk1 : k ≠ kSunReq) (hk2 : k ≠ kSunAlt) :
    lookupKey r2 k = lookupKey r1 k := by
  unfold normSun at h
  split at h
  · obtain rfl : _ = r2 := Except.ok.inj h
    rw [lookupKey_dSet_ne _ _ _ _ (fun he => hk1 he.symm)]
  · obtain rfl : _ = r2 := Except.ok.inj h
    by_cases ht : truthy (dGet r1 kSunAlt PyVal.none) = true
    · rw [if_pos ht, lookupKey_dSet_ne _ _ _ _ (fun he => hk2 he.symm),
        lookupKey_dSet_ne _ _ _ _ (fun he => hk1 he.symm)]
    · rw [if_neg ht, lookupKey_dSet_ne _ _ _ _ (fun he => hk1 he.symm)]
  · cases h

theorem normPW_frame (r2 : List (Str × PyVal)) (k : Str) (hk : k ≠ kPW) :
    lookupKey (normPW r2) k = lookupKey r2 k := by
  unfold normPW
  split
  · rw [lookupKey_dSet_ne _ _ _ _ (fun he => hk he.symm)]
  · rfl

theorem normPW_pw (r2 : List (Str × PyVal)) :
    ∃ v, lookupKey (normPW r2) kPW = some v ∧ isDictV v = true := by
  unfold normPW
  split
  · exact ⟨defaultPW, lookupKey_dSet_self _ _ _, by decide⟩
  · rename_i hcond
    simp only [Bool.or_eq_true, Bool.not_eq_true', not_or, Bool.not_eq_false] at hcond
    obtain ⟨h1, h2⟩ := hcond
    unfold dHasKey at h1
    cases hl : lookupKey r2 kPW with
    | none => rw [hl] at h1; cases h1
    | some v =>
        refine ⟨v, rfl, ?_⟩
        have hg : dGet r2 kPW PyVal.none = v := by
          unfold dGet
          rw [hl]
        rw [hg] at h2
        exact h2

theorem normPW_noop (u : List (Str × PyVal)) (v : PyVal)
    (hl : lookupKey u kPW = some v) (hd : isDictV v = true) : normPW u = u := by
  unfold normPW
  rw [if_neg]
  simp only [Bool.or_eq_true, Bool.not_eq_true', not_or, Bool.not_eq_false]
  constructor
  · unfold dHasKey
    rw [hl]
  · have hg : dGet u kPW PyVal.none = v := by
      unfold dGet
      rw [hl]
    rw [hg]
    exact hd

theorem normPW_idem (r2 : List (Str × PyVal)) : normPW (normPW r2) = normPW r2 := by
  obtain ⟨v, hl, hd⟩ := normPW_pw r2
  exact normPW_noop _ v hl hd

/-- Re-running the water half of the normalizer on any dict whose three
water-related keys agree with a first-run output is a no-op. -/
theorem normWater_idem (r0 r1 : List (Str × PyVal)) (h : normWater r0 = .ok r1)
    (d : List (Str × PyVal))
    (hp : lookupKey d kPlantType = lookupKey r0 kPlantType)
    (hn : lookupKey d kWaterNeeds = lookupKey r1 kWaterNeeds)
    (hr : lookupKey d kWaterReq = lookupKey r1 kWaterReq) :
    normWater d = .ok d := by
  have hgp : dGet d kPlantType (.str (strL ("plant")))
      = dGet r0 kPlantType (.str (strL ("plant"))) := dGet_congr _ _ _ _ hp
  unfold normWater at h
  split at h
  · rename_i ws hsrc
    obtain ⟨w, hw, h⟩ := bind_ok_elim h
    obtain rfl : dSet r0 kWaterReq (.dict w) = r1 := Except.ok.inj h
    obtain ⟨hst, hmat, hnt⟩ := normWaterSteps_spec _ _ _ hw
    have htw : truthy (PyVal.dict w) = true := by
      obtain ⟨v1, hl1, _⟩ := truthy_dGet_lookup w kSeedlingStage hst
      exact truthy_dict_of_lookup w _ _ hl1
    have hrW : lookupKey d kWaterReq = some (.dict w) := by
      rw [hr, lookupKey_dSet_self]
    have hnW : lookupKey d kWaterNeeds = lookupKey r0 kWaterNeeds := by
      rw [hn, lookupKey_dSet_ne _ _ _ _ (by decide : kWaterReq ≠ kWaterNeeds)]
    by_cases hta : truthy (dGet r0 kWaterNeeds PyVal.none) = true
    · have hwn : dGet r0 kWaterNeeds PyVal.none = .str ws := by
        have hx := hsrc
        unfold pyOr at hx
        rw [if_pos hta] at hx
        exact hx
      have hdwn : dGet d kWaterNeeds PyVal.none = .str ws := by
        rw [dGet_congr d r0 _ _ hnW, hwn]
      unfold normWater
      rw [show pyOr (dGet d kWaterNeeds .none) (pyOr (dGet d kWaterReq .none) (.dict []))
          = .str ws from by
        unfold pyOr
        rw [hdwn, if_pos (by rw [hwn] at hta; exact hta)]]
      dsimp only []
      rw [hgp, hw, excBindOk, dSet_self _ _ d hrW]
      rfl
    · have hwr : dGet r0 kWaterReq PyVal.none = .str ws := by
        have hx := hsrc
        unfold pyOr at hx
        rw [if_neg hta] at hx
        by_cases htb : truthy (dGet r0 kWaterReq PyVal.none) = true
        · rw [if_pos htb] at hx
          exact hx
        · rw [if_neg htb] at hx
          cases hx
      have hdwn : dGet d kWaterNeeds PyVal.none = dGet r0 kWaterNeeds PyVal.none :=
        dGet_congr _ _ _ _ hnW
      have hdwr : dGet d kWaterReq PyVal.none = .dict w := by
        unfold dGet
        rw [hrW]
      unfold normWater
      rw [show pyOr (dGet d kWaterNeeds .none) (pyOr (dGet d kWaterReq .none) (.dict []))
          = .dict w from by
        unfold pyOr
        rw [hdwn, if_neg hta, hdwr, if_pos htw]]
      dsimp only []
      rw [normWaterSteps_idem w _ hst hmat hnt, excBindOk]
      rw [hdwn, if_neg hta, dSet_self _ _ d hrW]
      rfl
  · rename_i wd hsrc
    obtain ⟨w, hw, h⟩ := bind_ok_elim h
    obtain rfl : _ = r1 := Except.ok.inj h
    obtain ⟨hst, hmat, hnt⟩ := normWaterSteps_spec _ _ _ hw
    have htw : truthy (PyVal.dict w) = true := by
      obtain ⟨v1, hl1, _⟩ := truthy_dGet_lookup w kSeedlingStage hst
      exact truthy_dict_of_lookup w _ _ hl1
    by_cases hta : truthy (dGet r0 kWaterNeeds PyVal.none) = true
    · have hrW : lookupKey d kWaterReq = some (.dict w) := by
        rw [hr, if_pos hta, lookupKey_dSet_ne _ _ _ _ (by decide : kWaterNeeds ≠ kWaterReq),
          lookupKey_dSet_self]
      have hnW : lookupKey d kWaterNeeds = some (.dict w) := by
        rw [hn, if_pos hta, lookupKey_dSet_self]
      have hdwn : dGet d kWaterNeeds PyVal.none = .dict w := by
        unfold dGet
        rw [hnW]
      unfold normWater
      rw [show pyOr (dGet d kWaterNeeds .none) (pyOr (dGet d kWaterReq .none) (.dict []))
          = .dict w from by
        unfold pyOr
        rw [hdwn, if_pos htw]]
      dsimp only []
      rw [normWaterSteps_idem w _ hst hmat hnt, excBindOk]
      rw [hdwn, if_pos htw, dSet_self _ _ d hrW, dSet_self _ _ d hnW]
      rfl
    · have hrW : lookupKey d kWaterReq = some (.dict w) := by
        rw [hr, if_neg hta, lookupKey_dSet_self]
      have hnW : lookupKey d kWaterNeeds = lookupKey r0 kWaterNeeds := by
        rw [hn, if_neg hta, lookupKey_dSet_ne _ _ _ _ (by decide : kWaterReq ≠ kWaterNeeds)]
      have hdwn : dGet d kWaterNeeds PyVal.none = dGet r0 kWaterNeeds PyVal.none :=
        dGet_congr _ _ _ _ hnW
      have hdwr : dGet d kWaterReq PyVal.none = .dict w := by
        unfold dGet
        rw [hrW]
      unfold normWater
      rw [show pyOr (dGet d kWaterNeeds .none) (pyOr (dGet d kWaterReq .none) (.dict []))
          = .dict w from by
        unfold pyOr
        rw [hdwn, if_neg hta, hdwr, if_pos htw]]
      dsimp only []
      rw [normWaterSteps_idem w _ hst hmat hnt, excBindOk]
      rw [hdwn, if_neg hta, dSet_self _ _ d hrW]
      rfl
  · cases h

/-- Re-running the sunlight half of the normalizer on any dict whose two
sun-related keys agree with a first-run output is a no-op. -/
theorem normSun_idem (r1 r2 : List (Str × PyVal)) (h : normSun r1 = .ok r2)
    (d : List (Str × PyVal))
    (hs : lookupKey d kSunReq = lookupKey r2 kSunReq)
    (ha : lookupKey d kSunAlt = lookupKey r2 kSunAlt) :
    normSun d = .ok d := by
  unfold normSun at h
  split at h
  · rename_i ss hsrc
    obtain rfl : _ = r2 := Except.ok.inj h
    obtain ⟨hdh, hli⟩ := normSunSteps_spec (buildSunFromStr ss)
    have hts : truthy (PyVal.dict (normSunSteps (buildSunFromStr ss))) = true := by
      obtain ⟨v1, hl1, _⟩ := truthy_dGet_lookup _ kDHN hdh
      exact truthy_dict_of_lookup _ _ _ hl1
    have hrS : lookupKey d kSunReq = some (.dict (normSunSteps (buildSunFromStr ss))) := by
      rw [hs, lookupKey_dSet_self]
    have haS : lookupKey d kSunAlt = lookupKey r1 kSunAlt := by
      rw [ha, lookupKey_dSet_ne _ _ _ _ (by decide : kSunReq ≠ kSunAlt)]
    by_cases hta : truthy (dGet r1 kSunAlt PyVal.none) = true
    · have hwn : dGet r1 kSunAlt PyVal.none = .str ss := by
        have hx := hsrc
        unfold pyOr at hx
        rw [if_pos hta] at hx
        exact hx
      have hdan : dGet d kSunAlt PyVal.none = .str ss := by
        rw [dGet_congr d r1 _ _ haS, hwn]
      unfold normSun
      rw [show pyOr (dGet d kSunAlt .none) (pyOr (dGet d kSunReq .none) (.dict []))
          = .str ss from by
        unfold pyOr
        rw [hdan, if_pos (by rw [hwn] at hta; exact hta)]]
      dsimp only []
      rw [dSet_self _ _ d hrS]
    · have hdan : dGet d kSunAlt PyVal.none = dGet r1 kSunAlt PyVal.none :=
        dGet_congr _ _ _ _ haS
      have hdsr : dGet d kSunReq PyVal.none = .dict (normSunSteps (buildSunFromStr ss)) := by
        unfold dGet
        rw [hrS]
      unfold normSun
      rw [show pyOr (dGet d kSunAlt .none) (pyOr (dGet d kSunReq .none) (.dict []))
          = .dict (normSunSteps (buildSunFromStr ss)) from by
        unfold pyOr
        rw [hdan, if_neg hta, hdsr, if_pos hts]]
      dsimp only []
      rw [normSunSteps_idem _ hdh hli]
      rw [hdan, if_neg hta, dSet_self _ _ d hrS]
  · rename_i sd hsrc
    obtain rfl : _ = r2 := Except.ok.inj h
    obtain ⟨hdh, hli⟩ := normSunSteps_spec sd
    have hts : truthy (PyVal.dict (normSunSteps sd)) = true := by
      obtain ⟨v1, hl1, _⟩ := truthy_dGet_lookup _ kDHN hdh
      exact truthy_dict_of_lookup _ _ _ hl1
    by_cases hta : truthy (dGet r1 kSunAlt PyVal.none) = true
    · have hrS : lookupKey d kSunReq = some (.dict (normSunSteps sd)) := by
        rw [hs, if_pos hta, lookupKey_dSet_ne _ _ _ _ (by decide : kSunAlt ≠ kSunReq),
          lookupKey_dSet_self]
      have haS : lookupKey d kSunAlt = some (.dict (normSunSteps sd)) := by
        rw [ha, if_pos hta, lookupKey_dSet_self]
      have hdan : dGet d kSunAlt PyVal.none = .dict (normSunSteps sd) := by
        unfold dGet
        rw [haS]
      unfold normSun
      rw [show pyOr (dGet d kSunAlt .none) (pyOr (dGet d kSunReq .none) (.dict []))
          = .dict (normSunSteps sd) from by
        unfold pyOr
        rw [hdan, if_pos hts]]
      dsimp only []
      rw [normSunSteps_idem _ hdh hli]
      rw [hdan, if_pos hts, dSet_self _ _ d hrS, dSet_self _ _ d haS]
    · have hrS : lookupKey d kSunReq = some (.dict (normSunSteps sd)) := by
        rw [hs, if_neg hta, lookupKey_dSet_self]
      have haS : lookupKey d kSunAlt = lookupKey r1 kSunAlt := by
        rw [ha, if_neg hta, lookupKey_dSet_ne _ _ _ _ (by decide : kSunReq ≠ kSunAlt)]
      have hdan : dGet d kSunAlt PyVal.none = dGet r1 kSunAlt PyVal.none :=
        dGet_congr _ _ _ _ haS
      have hdsr : dGet d kSunReq PyVal.none = .dict (normSunSteps sd) := by
        unfold dGet
        rw [hrS]
      unfold normSun
      rw [show pyOr (dGet d kSunAlt .none) (pyOr (dGet d kSunReq .none) (.dict []))
          = .dict (normSunSteps sd) from by
        unfold pyOr
        rw [hdan, if_neg hta, hdsr, if_pos hts]]
      dsimp only []
      rw [normSunSteps_idem _ hdh hli]
      rw [hdan, if_neg hta, dSet_self _ _ d hrS]
  · cases h

/-- C8: field normalization is idempotent — whenever
`normalize_recommendation_fields` succeeds, running it again on its own
output returns that output unchanged (the renaming/defaulting steps see
their own invariant and the frequency-to-liters loop never re-fires,
because every converted value is trigger-free). -/
theorem c8_idempotent (r r' : PyVal)
    (h : normalize_recommendation_fields r = .ok r') :
    normalize_recommendation_fields r' = .ok r' := by
  cases r with
  | dict r0 =>
      simp only [normalize_recommendation_fields] at h
      obtain ⟨r1, h1, h⟩ := bind_ok_elim h
      obtain ⟨r2, h2, h⟩ := bind_ok_elim h
      obtain rfl : PyVal.dict (normPW r2) = r' := Except.ok.inj h
      simp only [normalize_recommendation_fields]
      have hw : normWater (normPW r2) = .ok (normPW r2) := by
        apply normWater_idem r0 r1 h1
        · rw [normPW_frame _ _ (by decide),
            normSun_frame _ _ h2 _ (by decide) (by decide),
            normWater_frame _ _ h1 _ (by decide) (by decide)]
        · rw [normPW_frame _ _ (by decide),
            normSun_frame _ _ h2 _ (by decide) (by decide)]
        · rw [normPW_frame _ _ (by decide),
            normSun_frame _ _ h2 _ (by decide) (by decide)]
      have hs : normSun (normPW r2) = .ok (normPW r2) := by
        apply normSun_idem r1 r2 h2
        · rw [normPW_frame _ _ (by decide)]
        · rw [normPW_frame _ _ (by decide)]
      rw [hw, excBindOk, hs, excBindOk, normPW_idem]
      rfl
  | none => simp [normalize_recommendation_fields] at h
  | bool b => simp [normalize_recommendation_fields] at h
  | num a => simp [normalize_recommendation_fields] at h
  | str s => simp [normalize_recommendation_fields] at h
  | list l => simp [normalize_recommendation_fields] at h

/-- Witness for C8: normalizing the empty record produces a fully
defaulted record, and normalizing that record again returns it
unchanged. -/
theorem c8_idempotent_witness :
    normalize_recommendation_fields (.dict []) = .ok (.dict
      [ (kWaterReq, .dict
          [ (kSeedlingStage, .str (strL ("5-10 liters per week"))),
            (kMaturePlant, .str (strL ("25-40 liters per week"))) ]),
        (kSunReq, .dict
          [ (kDHN, .str (strL ("6-8 hours"))),
            (kLightInt, .str (strL ("Full Sun"))) ]),
        (kPW, defaultPW) ]) ∧
    normalize_recommendation_fields (.dict
      [ (kWaterReq, .dict
          [ (kSeedlingStage, .str (strL ("5-10 liters per week"))),
            (kMaturePlant, .str (strL ("25-40 liters per week"))) ]),
        (kSunReq, .dict
          [ (kDHN, .str (strL ("6-8 hours"))),
            (kLightInt, .str (strL ("Full Sun"))) ]),
        (kPW, defaultPW) ]) = .ok (.dict
      [ (kWaterReq, .dict
          [ (kSeedlingStage, .str (strL ("5-10 liters per week"))),
            (kMaturePlant, .str (strL ("25-40 liters per week"))) ]),
        (kSunReq, .dict
          [ (kDHN, .str (strL ("6-8 hours"))),
            (kLightInt, .str (strL ("Full Sun"))) ]),
        (kPW, defaultPW) ]) :=
  ⟨rfl, c8_idempotent (.dict []) _ rfl⟩
